import Mathlib

/-!
# 3DEngineVS renderer: a shallow embedding of `Source/Libs/renderer.cpp` and `Source/Libs/init.cpp`

The renderer talks to three collaborators: the graphics API (OpenGL), the camera
object and the math library (glm / libm).  Every function of `renderer.cpp` is embedded
as a function from the program state to the sequence of collaborator calls it issues
(and, where the source assigns to globals or members, the new program state).

Conventions.

* `F` is the scalar type in which the source's `float` values are read.  Arithmetic on `F`
  is exact field arithmetic, with two exceptions where the behaviour of the program depends
  on rounding: the loop counter `float i` of `createSphere` is a binary32 value, advanced
  with the roundings of binary32 and binary64 (`toFloat`, `toDouble`), and the corner
  coordinates of the `drawAABB3` branch are computed with the machine's binary32 addition and
  division, which enter through `Lib.fadd` and `Lib.fdiv`.
* `std::vector` is `List`; `v[i]` is `List.getD` with a default element, because indexing
  outside a vector is undefined behaviour in the source and the embedding has to be total.
* `for (int i = 0; i < v.size(); i++) body(v[i])` over a vector that the body does not
  change is `List.flatMap` of the body over the list.
* OpenGL enumerators carry the numeric values of the OpenGL headers.
-/

namespace Engine

/-! ## Vectors and matrices (glm) -/

/-- The type `glm::vec3`. -/
structure Vec3 (F : Type) where
  x : F
  y : F
  z : F
deriving DecidableEq, Repr

/-- The type `glm::vec4`. -/
structure Vec4 (F : Type) where
  x : F
  y : F
  z : F
  w : F
deriving DecidableEq, Repr

/-- The type `glm::mat4`, stored by columns as glm does: `m[i]` is column `i`. -/
structure Mat4 (F : Type) where
  c0 : Vec4 F
  c1 : Vec4 F
  c2 : Vec4 F
  c3 : Vec4 F
deriving DecidableEq, Repr

/-! ## OpenGL enumerators -/

def GL_POINTS : Nat := 0x0000
def GL_LINES : Nat := 0x0001
def GL_TRIANGLES : Nat := 0x0004
def GL_DEPTH_BUFFER_BIT : Nat := 0x00000100
def GL_COLOR_BUFFER_BIT : Nat := 0x00004000
def GL_DEPTH_TEST : Nat := 0x0B71
def GL_DEPTH_COMPONENT : Nat := 0x1902
def GL_RGB : Nat := 0x1907
def GL_MULTISAMPLE : Nat := 0x809D
def GL_TEXTURE_CUBE_MAP : Nat := 0x8513
def GL_TEXTURE_CUBE_MAP_POSITIVE_X : Nat := 0x8515
def GL_ARRAY_BUFFER : Nat := 0x8892
def GL_COLOR_ATTACHMENT0 : Nat := 0x8CE0
def GL_DEPTH_ATTACHMENT : Nat := 0x8D00
def GL_FRAMEBUFFER : Nat := 0x8D40
def GL_TEXTURE_2D_MULTISAMPLE : Nat := 0x9100

/-! ## Collaborator calls -/

/-- One call the renderer makes to a collaborator: an OpenGL entry point with the arguments
that vary in the source (constant trailing arguments such as `GL_FLOAT, GL_FALSE, 0, 0` of
`glVertexAttribPointer` or `GL_STATIC_DRAW` of `glBufferData` are left out), or the
orientation setter of the reflection camera `camera2`.  `glGenTextures` and
`glGenFramebuffers` carry the name the driver handed back; the answer to
`glGetUniformLocation` is the location argument of the call that consumes it. -/
inductive Call (F : Type) where
  | glClear (mask : Nat)
  | glEnable (cap : Nat)
  | glDisable (cap : Nat)
  | glClearColor (r g b a : F)
  | glBindFramebuffer (target fbo : Nat)
  | glViewport (x y width height : Nat)
  | glFramebufferTexture2D (target attachment textarget texture level : Nat)
  | glDepthMask (flag : Bool)
  | glUseProgram (program : Nat)
  | glUniformMatrix4fv (location : Int) (value : Mat4 F)
  | glUniform3f (location : Int) (x y z : F)
  | glUniform1i (location : Int) (v : Int)
  | glEnableVertexAttribArray (index : Nat)
  | glDisableVertexAttribArray (index : Nat)
  | glBindBuffer (target buffer : Nat)
  | glVertexAttribPointer (index size : Nat)
  | glBindTexture (target texture : Nat)
  | glDrawArrays (mode first count : Nat)
  | glPointSize (size : F)
  | glBufferData (target : Nat) (data : List F)
  | glGenTextures (name : Nat)
  | glGenFramebuffers (name : Nat)
  | glTexImage2DMultisample (target : Nat) (samples : Int) (internalformat width height : Nat)
  | glGetUniformLocation (program : Nat) (name : String)
  | camera2SetOrientation (v : Vec3 F)
deriving DecidableEq, Repr

/-! ## Data model -/

/-- The type `bounds_t`: the eight corners of a box (the fields the renderer reads). -/
structure Bounds (F : Type) where
  a : Vec3 F
  b : Vec3 F
  c : Vec3 F
  d : Vec3 F
  e : Vec3 F
  f : Vec3 F
  g : Vec3 F
  h : Vec3 F
deriving DecidableEq, Repr

/-- What the renderer reads from an `Entity` through its getters; each field is the value
the getter of the same name returns (`getName`, `getToReflect`, ...).  The bounding boxes are
the values returned for argument `true` (world space), the sphere radii those for `false`. -/
structure Entity (F : Type) where
  name : String
  toReflect : Bool
  shader : Nat
  texture : Nat
  textureType : Nat
  elements : Nat
  vertices : List F
  modelMatrix : Mat4 F
  vertexBuffer : Nat
  texBuffer : Nat
  normalBuffer : Nat
  worldPosition : Vec3 F
  objectBoundingBox : Bounds F
  externalAxisAlignedBoundingBox : Bounds F
  internalAxisAlignedBoundingBox : Bounds F
  axisAlignedBoundingBox : Bounds F
  internalBoundingSphere : F
  externalBoundingSphere : F
  boundingSphere : F
deriving DecidableEq, Repr

/-- The type `uniform_t`: a uniform's name and its resolved location. -/
structure Uniform where
  name : String
  id : Int
deriving DecidableEq, Repr

/-- What the renderer reads from a `Shader`: `getID`, `getUniformBuffer`, `getLayoutBuffer`. -/
structure Shader where
  ID : Nat
  uniformBuffer : List Uniform
  layoutBuffer : List String
deriving DecidableEq, Repr

/-- The state of a `Camera`: position, orientation (yaw, pitch, roll in degrees), up vector. -/
structure Camera (F : Type) where
  position : Vec3 F
  orientation : Vec3 F
  up : Vec3 F
deriving DecidableEq, Repr

/-- Modelled from the spec: `Camera::setOrientation` (camera.cpp is not part of the sources) is
the orientation setter; it overwrites the orientation and nothing else. -/
def Camera.setOrientation {F : Type} (c : Camera F) (v : Vec3 F) : Camera F :=
  { c with orientation := v }

/-- An element of `cameraBuffer`: a pointer to one of the two global cameras. -/
inductive CameraPtr where
  | camera
  | camera2
deriving DecidableEq, Repr

/-- The enumeration `renderMode_t`. -/
inductive RenderMode where
  | base
  | wireframe
  | vertices
deriving DecidableEq, Repr

/-- Library functions the renderer calls whose code is outside the sources: the tangent,
cosine and sine of libm, the constant pi behind `glm::radians`, the camera's view-matrix
computation and the driver's answer to `glGetUniformLocation`; and the machine's binary32
arithmetic where the embedding does not read it as exact: `fadd x y` is the `float` the
machine computes for `x + y`, `fdiv x y` the one it computes for `x / y`. -/
structure Lib (F : Type) where
  pi : F
  tan : F → F
  cos : F → F
  sin : F → F
  viewMatrix : Camera F → Mat4 F
  uniformLocation : Nat → String → Int
  fadd : F → F → F
  fdiv : F → F → F

/-- The globals of `init.cpp`, the members of `Renderer`, and the two counters from which the
OpenGL driver hands out fresh texture and framebuffer names. -/
structure Renderer (F : Type) where
  screenWidth : Nat
  screenHeight : Nat
  samples : Int
  Projection : Mat4 F
  renderMode : RenderMode
  drawOBB : Bool
  drawAABB1 : Bool
  drawAABB2 : Bool
  drawAABB3 : Bool
  drawAABB4 : Bool
  drawBS : Bool
  drawBS2 : Bool
  drawBS3 : Bool
  doReflection : Bool
  updateResolution : Bool
  updated : Bool
  depthBuffer : Bool
  defaultCamera : Nat
  entityBuffer : List (Entity F)
  shaderBuffer : List Shader
  cameraBuffer : List CameraPtr
  projectionBuffer : List (Mat4 F)
  camera : Camera F
  camera2 : Camera F
  light : Entity F
  tmpBuffer : Nat
  reflectionRes : Nat
  reflectionFBO : Nat
  reflectionCubemap : Nat
  screenTexture : Nat
  screenDepthTexture : Nat
  screenFBO : Nat
  screenVBO : Nat
  screenUVVBO : Nat
  screenShader : Shader
  depthShader : Shader
  data1 : List F
  nextTexture : Nat
  nextFramebuffer : Nat

section Defs

variable {F : Type} [LinearOrderedField F]

/-- The matrix `glm::mat4(0.0f)`-style constant matrix with `d` on the diagonal
(`glm::mat4(1.0f)` is `Mat4.diag 1`). -/
def Mat4.diag (d : F) : Mat4 F :=
  ⟨⟨d, 0, 0, 0⟩, ⟨0, d, 0, 0⟩, ⟨0, 0, d, 0⟩, ⟨0, 0, 0, d⟩⟩

/-- The conversion `glm::mat4(glm::mat3(m))`: the upper-left 3x3 block of `m`, completed by
the identity. -/
def Mat4.ofMat3 (m : Mat4 F) : Mat4 F :=
  ⟨⟨m.c0.x, m.c0.y, m.c0.z, 0⟩, ⟨m.c1.x, m.c1.y, m.c1.z, 0⟩, ⟨m.c2.x, m.c2.y, m.c2.z, 0⟩,
    ⟨0, 0, 0, 1⟩⟩

/-- The element `shaderBuffer[i]`. -/
def shaderAt (s : Renderer F) (i : Nat) : Shader :=
  s.shaderBuffer.getD i ⟨0, [], []⟩

/-- The camera `*cameraBuffer[i]`. -/
def cameraAt (s : Renderer F) (i : Nat) : Camera F :=
  match s.cameraBuffer.getD i CameraPtr.camera with
  | CameraPtr.camera => s.camera
  | CameraPtr.camera2 => s.camera2

/-- The element `projectionBuffer[i]`. -/
def projectionAt (s : Renderer F) (i : Nat) : Mat4 F :=
  s.projectionBuffer.getD i (Mat4.diag 0)

/-- One iteration of the loop of `Renderer::attachUniforms`: the upload for one uniform
descriptor, chosen by its name. -/
def attachUniform (L : Lib F) (s : Renderer F) (entity : Entity F) (u : Uniform) :
    List (Call F) :=
  if u.name = "modelMatrix" then
    [Call.glUniformMatrix4fv u.id entity.modelMatrix]
  else if u.name = "viewMatrix" then
    if entity.name = "skybox" then
      [Call.glUniformMatrix4fv u.id (Mat4.ofMat3 (L.viewMatrix (cameraAt s s.defaultCamera)))]
    else
      [Call.glUniformMatrix4fv u.id (L.viewMatrix (cameraAt s s.defaultCamera))]
  else if u.name = "projectionMatrix" then
    [Call.glUniformMatrix4fv u.id (projectionAt s s.defaultCamera)]
  else if u.name = "lightPosition" then
    [Call.glUniform3f u.id s.light.worldPosition.x s.light.worldPosition.y
      s.light.worldPosition.z]
  else if u.name = "eyePosition" then
    [Call.glUniform3f u.id (cameraAt s s.defaultCamera).position.x
      (cameraAt s s.defaultCamera).position.y (cameraAt s s.defaultCamera).position.z]
  else
    []

/-- The function `Renderer::attachUniforms`. -/
def attachUniforms (L : Lib F) (s : Renderer F) (entity : Entity F)
    (uniformBuffer : List Uniform) : List (Call F) :=
  uniformBuffer.flatMap (attachUniform L s entity)

/-- One iteration of the loop of `Renderer::linkLayouts`. -/
def linkLayout (entity : Entity F) (layout : String) : List (Call F) :=
  if layout = "vertex" then
    [Call.glEnableVertexAttribArray 0, Call.glBindBuffer GL_ARRAY_BUFFER entity.vertexBuffer,
      Call.glVertexAttribPointer 0 3]
  else if layout = "uv" then
    [Call.glEnableVertexAttribArray 1, Call.glBindBuffer GL_ARRAY_BUFFER entity.texBuffer,
      Call.glVertexAttribPointer 1 2]
  else if layout = "color" then
    [Call.glEnableVertexAttribArray 1, Call.glBindBuffer GL_ARRAY_BUFFER entity.texBuffer,
      Call.glVertexAttribPointer 1 3]
  else if layout = "normal" then
    [Call.glEnableVertexAttribArray 2, Call.glBindBuffer GL_ARRAY_BUFFER entity.normalBuffer,
      Call.glVertexAttribPointer 2 3]
  else
    []

/-- The function `Renderer::linkLayouts`. -/
def linkLayouts (entity : Entity F) (layoutBuffer : List String) : List (Call F) :=
  layoutBuffer.flatMap (linkLayout entity)

/-- The `switch (renderMode)` of `Renderer::renderEntities` (the same text in both branches). -/
def drawSwitch (renderMode : RenderMode) (entity : Entity F) : List (Call F) :=
  match renderMode with
  | RenderMode.wireframe => [Call.glDrawArrays GL_LINES 0 entity.vertices.length]
  | RenderMode.vertices =>
      [Call.glPointSize 2, Call.glDrawArrays GL_POINTS 0 entity.vertices.length]
  | _ => [Call.glDrawArrays entity.elements 0 entity.vertices.length]

/-- The body of the loop of `Renderer::renderEntities` for the entity `entityBuffer[i]`. -/
def renderEntity (L : Lib F) (s : Renderer F) (reflection : Bool) (e : Entity F) :
    List (Call F) :=
  (if reflection then
    (if e.toReflect = true then
      (if e.name = "skybox" then [Call.glDepthMask false] else [])
      ++ [Call.glUseProgram (shaderAt s e.shader).ID]
      ++ attachUniforms L s e (shaderAt s e.shader).uniformBuffer
      ++ linkLayouts e (shaderAt s e.shader).layoutBuffer
      ++ (if e.texture ≠ 0 then [Call.glBindTexture e.textureType e.texture] else [])
      ++ (if e.name = "skybox" then
            [Call.glDrawArrays GL_TRIANGLES 0 e.vertices.length, Call.glDepthMask true]
          else drawSwitch s.renderMode e)
    else [])
  else
    (if e.name = "skybox" then [Call.glDepthMask false] else [])
    ++ [Call.glUseProgram (shaderAt s e.shader).ID]
    ++ attachUniforms L s e (shaderAt s e.shader).uniformBuffer
    ++ linkLayouts e (shaderAt s e.shader).layoutBuffer
    ++ (if e.texture ≠ 0 then [Call.glBindTexture e.textureType e.texture] else [])
    ++ (if e.name = "man" ∨ e.name = "monkey" then
          [Call.glBindTexture GL_TEXTURE_CUBE_MAP s.reflectionCubemap]
        else [])
    ++ (if e.name = "skybox" then
          [Call.glDrawArrays GL_TRIANGLES 0 e.vertices.length, Call.glDepthMask true]
        else drawSwitch s.renderMode e))
  ++ [Call.glDisableVertexAttribArray 0, Call.glDisableVertexAttribArray 1,
      Call.glDisableVertexAttribArray 2]

/-- The function `Renderer::renderEntities`. -/
def renderEntities (L : Lib F) (s : Renderer F) (reflection : Bool) : List (Call F) :=
  s.entityBuffer.flatMap (renderEntity L s reflection)

/-- The function `Renderer::renderReflectionCubemap`, the orientation chosen for face `i`
by the chain of `if (i == ...)`. -/
def faceOrientation (i : Nat) : Vec3 F :=
  if i = 0 then ⟨0, 0, 0⟩
  else if i = 1 then ⟨0, 180, 0⟩
  else if i = 2 then ⟨0, -90, 90⟩
  else if i = 3 then ⟨0, -90, -90⟩
  else if i = 4 then ⟨0, 90, 0⟩
  else ⟨0, 270, 0⟩

/-- One iteration of the face loop of `Renderer::renderReflectionCubemap`: the state and the
calls issued so far go in, those after face `i` come out. -/
def cubemapFace (L : Lib F) (acc : Renderer F × List (Call F)) (i : Nat) :
    Renderer F × List (Call F) :=
  let s1 : Renderer F :=
    { acc.1 with camera2 := acc.1.camera2.setOrientation (faceOrientation i) }
  (s1, acc.2
    ++ [Call.glFramebufferTexture2D GL_FRAMEBUFFER GL_COLOR_ATTACHMENT0
          (GL_TEXTURE_CUBE_MAP_POSITIVE_X + i) acc.1.reflectionCubemap 0,
        Call.camera2SetOrientation (faceOrientation i)]
    ++ renderEntities L s1 true
    ++ [Call.glClear GL_DEPTH_BUFFER_BIT])

/-- The function `Renderer::renderReflectionCubemap`. -/
def renderReflectionCubemap (L : Lib F) (s : Renderer F) : Renderer F × List (Call F) :=
  let s0 : Renderer F := { s with defaultCamera := 1 }
  let r := (List.range 6).foldl (cubemapFace L)
    (s0, [Call.glBindFramebuffer GL_FRAMEBUFFER s0.reflectionFBO,
          Call.glViewport 0 0 s0.reflectionRes s0.reflectionRes,
          Call.glClear (GL_COLOR_BUFFER_BIT ||| GL_DEPTH_BUFFER_BIT)])
  ({ r.1 with defaultCamera := 0 },
    r.2 ++ [Call.glViewport 0 0 r.1.screenWidth r.1.screenHeight])

/-- The location `shader.getUniformBuffer()[i].id`. -/
def uniformId (shader : Shader) (i : Nat) : Int :=
  (shader.uniformBuffer.getD i ⟨"", 0⟩).id

/-- The function `Renderer::renderScreen`. -/
def renderScreen (L : Lib F) (s : Renderer F) : List (Call F) :=
  [Call.glBindFramebuffer GL_FRAMEBUFFER 0,
    Call.glClear GL_DEPTH_BUFFER_BIT,
    Call.glDisable GL_DEPTH_TEST,
    Call.glClearColor 0.5 0.5 0.5 0.5,
    Call.glClear GL_COLOR_BUFFER_BIT]
  ++ (if s.depthBuffer = true then
        [Call.glBindTexture GL_TEXTURE_2D_MULTISAMPLE s.screenDepthTexture,
          Call.glUseProgram s.depthShader.ID,
          Call.glGetUniformLocation s.screenShader.ID "samples",
          Call.glUniform1i (L.uniformLocation s.screenShader.ID "samples") s.samples]
      else
        [Call.glBindTexture GL_TEXTURE_2D_MULTISAMPLE s.screenTexture,
          Call.glUseProgram s.screenShader.ID,
          Call.glGetUniformLocation s.screenShader.ID "samples",
          Call.glUniform1i (L.uniformLocation s.screenShader.ID "samples") s.samples])
  ++ [Call.glEnableVertexAttribArray 0,
      Call.glBindBuffer GL_ARRAY_BUFFER s.screenVBO,
      Call.glVertexAttribPointer 0 2,
      Call.glEnableVertexAttribArray 1,
      Call.glBindBuffer GL_ARRAY_BUFFER s.screenUVVBO,
      Call.glVertexAttribPointer 1 2,
      Call.glDrawArrays GL_TRIANGLES 0 6,
      Call.glEnable GL_DEPTH_TEST,
      Call.glBindBuffer GL_ARRAY_BUFFER s.tmpBuffer]

/-- The function `Renderer::resetRender`. -/
def resetRender (L : Lib F) (s : Renderer F) : List (Call F) :=
  [Call.glBufferData GL_ARRAY_BUFFER s.data1,
    Call.glUseProgram (shaderAt s 1).ID,
    Call.glUniformMatrix4fv (uniformId (shaderAt s 1) 0) (Mat4.diag 1),
    Call.glUniformMatrix4fv (uniformId (shaderAt s 1) 1) (L.viewMatrix s.camera),
    Call.glUniformMatrix4fv (uniformId (shaderAt s 1) 2) s.Projection,
    Call.glUniform3f (uniformId (shaderAt s 1) 3) 255 255 255,
    Call.glEnableVertexAttribArray 0,
    Call.glVertexAttribPointer 0 3,
    Call.glDrawArrays GL_LINES 0 s.data1.length,
    Call.glDisableVertexAttribArray 0]

/-- The function `glm::radians`: degrees times pi / 180. -/
def radians (L : Lib F) (degrees : F) : F :=
  degrees * (L.pi / 180)

/-- Modelled from the spec: `glm::perspective` (the glm library is not part of the sources),
the right-handed perspective matrix with vertical field of view `fovy`, aspect ratio
`aspect`, near plane `zNear` and far plane `zFar`; entry (0,0) is
`1 / (aspect * tan (fovy / 2))` and entry (1,1) is `1 / tan (fovy / 2)`. -/
def perspective (L : Lib F) (fovy aspect zNear zFar : F) : Mat4 F :=
  let tanHalfFovy := L.tan (fovy / 2)
  ⟨⟨1 / (aspect * tanHalfFovy), 0, 0, 0⟩,
    ⟨0, 1 / tanHalfFovy, 0, 0⟩,
    ⟨0, 0, -(zFar + zNear) / (zFar - zNear), -1⟩,
    ⟨0, 0, -(2 * zFar * zNear) / (zFar - zNear), 0⟩⟩

/-- The function `Renderer::resizeScreen`.  `glGenTextures` and `glGenFramebuffers` return
the driver's next unused name. -/
def resizeScreen (L : Lib F) (s : Renderer F) : Renderer F × List (Call F) :=
  let s1 : Renderer F := { s with screenTexture := s.nextTexture, nextTexture := s.nextTexture + 1 }
  let s2 : Renderer F :=
    { s1 with screenDepthTexture := s1.nextTexture, nextTexture := s1.nextTexture + 1 }
  let s3 : Renderer F :=
    { s2 with screenFBO := s2.nextFramebuffer, nextFramebuffer := s2.nextFramebuffer + 1 }
  let s4 : Renderer F :=
    { s3 with
      projectionBuffer := s3.projectionBuffer.set 0
        (perspective L (radians L 45) ((s3.screenWidth : F) / (s3.screenHeight : F)) 0.1 10000),
      updated := true }
  (s4,
    [Call.glGenTextures s1.screenTexture,
      Call.glBindTexture GL_TEXTURE_2D_MULTISAMPLE s1.screenTexture,
      Call.glTexImage2DMultisample GL_TEXTURE_2D_MULTISAMPLE s1.samples GL_RGB
        s1.screenWidth s1.screenHeight,
      Call.glGenTextures s2.screenDepthTexture,
      Call.glBindTexture GL_TEXTURE_2D_MULTISAMPLE s2.screenDepthTexture,
      Call.glTexImage2DMultisample GL_TEXTURE_2D_MULTISAMPLE s2.samples GL_DEPTH_COMPONENT
        s2.screenWidth s2.screenHeight,
      Call.glGenFramebuffers s3.screenFBO,
      Call.glBindFramebuffer GL_FRAMEBUFFER s3.screenFBO,
      Call.glFramebufferTexture2D GL_FRAMEBUFFER GL_COLOR_ATTACHMENT0 GL_TEXTURE_2D_MULTISAMPLE
        s3.screenTexture 0,
      Call.glFramebufferTexture2D GL_FRAMEBUFFER GL_DEPTH_ATTACHMENT GL_TEXTURE_2D_MULTISAMPLE
        s3.screenDepthTexture 0,
      Call.glViewport 0 0 s3.screenWidth s3.screenHeight])

/-- The element `faces[i]` of a corner list. -/
def cornerAt (faces : List (Vec3 F)) (i : Nat) : Vec3 F :=
  faces.getD i ⟨0, 0, 0⟩

/-- Six `push_back`s of `Renderer::createCube`: the segment from `faces[i]` to `faces[j]`. -/
def pushSegment (array : List F) (faces : List (Vec3 F)) (i j : Nat) : List F :=
  array ++ [(cornerAt faces i).x, (cornerAt faces i).y, (cornerAt faces i).z,
    (cornerAt faces j).x, (cornerAt faces j).y, (cornerAt faces j).z]

/-- The function `Renderer::createCube`: the contents of `*array` afterwards. -/
def createCube (array : List F) (faces : List (Vec3 F)) : List F :=
  let a1 := pushSegment array faces 0 1
  let a2 := pushSegment a1 faces 1 2
  let a3 := pushSegment a2 faces 2 3
  let a4 := pushSegment a3 faces 3 0
  let a5 := pushSegment a4 faces 0 5
  let a6 := pushSegment a5 faces 1 6
  let a7 := pushSegment a6 faces 2 7
  let a8 := pushSegment a7 faces 3 4
  let a9 := pushSegment a8 faces 5 4
  let a10 := pushSegment a9 faces 4 7
  let a11 := pushSegment a10 faces 7 6
  pushSegment a11 faces 6 5

/-- The sum `p + q` of `glm::vec3`. -/
def Vec3.add (p q : Vec3 F) : Vec3 F :=
  ⟨p.x + q.x, p.y + q.y, p.z + q.z⟩

/-! ## Binary floating point

The values of `float` and `double` variables, as long as they are finite, are rational
numbers.  The result of an operation is the exact result rounded to the nearest number with 24
(binary32) or 53 (binary64) significant bits, ties going to the even significand (the default
rounding of IEEE 754).  The exponent range is not limited below: the functions are the
roundings of binary32 and binary64 for values in the normal range of the format, which the
loop counter of `createSphere` never leaves. -/

/-- The number of halvings that take `n` below 2, counted in at most `fuel` rounds. -/
def log2Fuel : Nat → Nat → Nat
  | 0, _ => 0
  | fuel + 1, n => if n < 2 then 0 else log2Fuel fuel (n / 2) + 1

/-- The position of the leading bit of `n > 0`: the `k` with `2 ^ k <= n < 2 ^ (k + 1)`. -/
def floorLog2 (n : Nat) : Nat := log2Fuel n n

/-- The integer nearest to `q`, the even one of the two when `q` lies half way. -/
def roundHalfEven (q : ℚ) : ℤ :=
  if q - ⌊q⌋ < 1 / 2 then ⌊q⌋
  else if 1 / 2 < q - ⌊q⌋ then ⌊q⌋ + 1
  else if ⌊q⌋ % 2 = 0 then ⌊q⌋ else ⌊q⌋ + 1

/-- The binary exponent of `q ≠ 0`: the integer `e` with `2 ^ e <= |q| < 2 ^ (e + 1)`. -/
def binade (q : ℚ) : ℤ :=
  if (2 : ℚ) ^ ((floorLog2 q.num.natAbs : ℤ) - (floorLog2 q.den : ℤ)) ≤ |q| then
    (floorLog2 q.num.natAbs : ℤ) - (floorLog2 q.den : ℤ)
  else (floorLog2 q.num.natAbs : ℤ) - (floorLog2 q.den : ℤ) - 1

/-- The binary floating-point number with `m` fraction bits (`m + 1` significant bits) nearest
to `q`, ties to even: `q` rounded to a multiple of `2 ^ (e - m)`, where `e` is the binary
exponent of `q`. -/
def roundBinary (m : Nat) (q : ℚ) : ℚ :=
  if q = 0 then 0
  else (roundHalfEven (q / (2 : ℚ) ^ (binade q - (m : ℤ))) : ℚ) * (2 : ℚ) ^ (binade q - (m : ℤ))

/-- The conversion to `float`: rounding to binary32, which has 23 fraction bits. -/
def toFloat (q : ℚ) : ℚ := roundBinary 23 q

/-- The conversion to `double`: rounding to binary64, which has 52 fraction bits. -/
def toDouble (q : ℚ) : ℚ := roundBinary 52 q

/-- The local `double pi = 3.1415926535897` of `Renderer::createSphere`. -/
def spherePi : ℚ := toDouble 3.1415926535897

/-- The value of the expression `2 * pi` in `Renderer::createSphere`, a `double`. -/
def sphereTwoPi : ℚ := toDouble (2 * spherePi)

/-- The loop variable after `i += (2 * pi) / (float)sides` in `Renderer::createSphere`:
`sides` is converted to `float`, the quotient is a `double`, the sum of the `float i` and the
quotient is a `double`, and the assignment converts it to `float`.  With `sides = 0` the
quotient and then `i` are `+infinity`, which is what `none` stands for. -/
def nextCounter (sides : Int) (i : ℚ) : Option ℚ :=
  if sides = 0 then none
  else some (toFloat (toDouble (i + toDouble (sphereTwoPi / toFloat (sides : ℚ)))))

/-- One `for (float i = 0; i < 2 * pi; i += (2 * pi) / (float)sides)` loop of
`Renderer::createSphere`, run for at most `fuel` iterations: `none` when the loop has not left
after `fuel` iterations.  The loop variable `i` is a binary32 number; `point i` is the value
given to `tmp2` in the body, computed in `F` from the value of `i`; the loop carries `i`,
`tmp` and the contents of `*data`.  When `i` becomes `+infinity` the test `i < 2 * pi` fails
and the loop leaves. -/
def circleLoop (point : F → Vec3 F) (center : Vec3 F) (sides : Int) :
    Nat → ℚ → Vec3 F → List F → Option (Vec3 F × List F)
  | 0, _, _, _ => none
  | fuel + 1, i, tmp, data =>
    if i < sphereTwoPi then
      match nextCounter sides i with
      | some j =>
        circleLoop point center sides fuel j (Vec3.add (point (i : F)) center)
          (data ++ [tmp.x, tmp.y, tmp.z,
            (Vec3.add (point (i : F)) center).x, (Vec3.add (point (i : F)) center).y,
            (Vec3.add (point (i : F)) center).z])
      | none =>
        some (Vec3.add (point (i : F)) center,
          data ++ [tmp.x, tmp.y, tmp.z,
            (Vec3.add (point (i : F)) center).x, (Vec3.add (point (i : F)) center).y,
            (Vec3.add (point (i : F)) center).z])
    else some (tmp, data)

/-- The function `Renderer::createSphere`: the contents of `*data` afterwards, each of the
three loops being run for at most `fuel` iterations; `none` when one of them has not left by
then. -/
def createSphere (fuel : Nat) (L : Lib F) (center : Vec3 F) (dist : F) (sides : Int)
    (data : List F) : Option (List F) :=
  (circleLoop (fun i => ⟨dist * L.cos i, dist * L.sin i, 0⟩) center sides fuel 0
      (Vec3.add ⟨dist, 0, 0⟩ center) data).bind fun r1 =>
  let tmp1 : Vec3 F := Vec3.add ⟨dist, 0, 0⟩ center
  let d1 := r1.2 ++ [r1.1.x, r1.1.y, r1.1.z] ++ [tmp1.x, tmp1.y, tmp1.z]
  (circleLoop (fun i => ⟨0, dist * L.sin i, dist * L.cos i⟩) center sides fuel 0
      (Vec3.add ⟨0, 0, dist⟩ center) d1).bind fun r2 =>
  let tmp2 : Vec3 F := Vec3.add ⟨0, 0, dist⟩ center
  let d2 := r2.2 ++ [r2.1.x, r2.1.y, r2.1.z] ++ [tmp2.x, tmp2.y, tmp2.z]
  (circleLoop (fun i => ⟨dist * L.sin i, 0, dist * L.cos i⟩) center sides fuel 0
      (Vec3.add ⟨0, 0, dist⟩ center) d2).bind fun r3 =>
  let tmp3 : Vec3 F := Vec3.add ⟨0, 0, dist⟩ center
  some (r3.2 ++ [r3.1.x, r3.1.y, r3.1.z] ++ [tmp3.x, tmp3.y, tmp3.z])

/-- The function `Renderer::drawBoundingBox`. -/
def drawBoundingBox (L : Lib F) (s : Renderer F) (bounds : Bounds F) (color : Vec3 F) :
    List (Call F) :=
  let faces : List (Vec3 F) :=
    [bounds.a, bounds.b, bounds.c, bounds.d, bounds.e, bounds.f, bounds.g, bounds.h]
  let data : List F := createCube [] faces
  [Call.glBindBuffer GL_ARRAY_BUFFER s.tmpBuffer,
    Call.glBufferData GL_ARRAY_BUFFER data,
    Call.glUseProgram (shaderAt s 1).ID,
    Call.glUniformMatrix4fv (uniformId (shaderAt s 1) 0) (Mat4.diag 1),
    Call.glUniformMatrix4fv (uniformId (shaderAt s 1) 1) (L.viewMatrix s.camera),
    Call.glUniformMatrix4fv (uniformId (shaderAt s 1) 2) (projectionAt s 0),
    Call.glUniform3f (uniformId (shaderAt s 1) 3) color.x color.y color.z,
    Call.glEnableVertexAttribArray 0,
    Call.glVertexAttribPointer 0 3,
    Call.glDrawArrays GL_LINES 0 data.length,
    Call.glDisableVertexAttribArray 0]

/-- The function `Renderer::drawBoundingSphere`.  With 100 sides each loop of `createSphere`
leaves at its 101st test, after 100 iterations (`createSphere_hundred`), so the call returns
within fuel 101 and `data` is what it returns. -/
def drawBoundingSphere (L : Lib F) (s : Renderer F) (radius : F) (center color : Vec3 F) :
    List (Call F) :=
  let data : List F := (createSphere 101 L center radius 100 []).getD []
  [Call.glBindBuffer GL_ARRAY_BUFFER s.tmpBuffer,
    Call.glBufferData GL_ARRAY_BUFFER data,
    Call.glUseProgram (shaderAt s 1).ID,
    Call.glUniformMatrix4fv (uniformId (shaderAt s 1) 0) (Mat4.diag 1),
    Call.glUniformMatrix4fv (uniformId (shaderAt s 1) 1) (L.viewMatrix s.camera),
    Call.glUniformMatrix4fv (uniformId (shaderAt s 1) 2) s.Projection,
    Call.glUniform3f (uniformId (shaderAt s 1) 3) color.x color.y color.z,
    Call.glEnableVertexAttribArray 0,
    Call.glVertexAttribPointer 0 3,
    Call.glDrawArrays GL_LINES 0 data.length,
    Call.glDisableVertexAttribArray 0]

/-- The corner list `faces4` that the `drawAABB3` branch of `Renderer::displayBoundingBox`
builds from `a2` .. `h2` and hands to `createCube`.  Every coordinate is the `float`
expression `(worldBounds.k.c + internalWorldBounds.k.c) / 2`: a binary32 addition, then a
binary32 division by `2.0f`. -/
def aabb3Faces (L : Lib F) (e : Entity F) : List (Vec3 F) :=
  let internalWorldBounds := e.internalAxisAlignedBoundingBox
  let worldBounds := e.externalAxisAlignedBoundingBox
  let a2 : Vec3 F := ⟨L.fdiv (L.fadd worldBounds.a.x internalWorldBounds.a.x) 2,
    L.fdiv (L.fadd worldBounds.a.y internalWorldBounds.a.y) 2,
    L.fdiv (L.fadd worldBounds.a.z internalWorldBounds.a.z) 2⟩
  let b2 : Vec3 F := ⟨L.fdiv (L.fadd worldBounds.b.x internalWorldBounds.b.x) 2,
    L.fdiv (L.fadd worldBounds.b.y internalWorldBounds.b.y) 2,
    L.fdiv (L.fadd worldBounds.b.z internalWorldBounds.b.z) 2⟩
  let c2 : Vec3 F := ⟨L.fdiv (L.fadd worldBounds.c.x internalWorldBounds.c.x) 2,
    L.fdiv (L.fadd worldBounds.c.y internalWorldBounds.c.y) 2,
    L.fdiv (L.fadd worldBounds.c.z internalWorldBounds.c.z) 2⟩
  let d2 : Vec3 F := ⟨L.fdiv (L.fadd worldBounds.d.x internalWorldBounds.d.x) 2,
    L.fdiv (L.fadd worldBounds.d.y internalWorldBounds.d.y) 2,
    L.fdiv (L.fadd worldBounds.d.z internalWorldBounds.d.z) 2⟩
  let e2 : Vec3 F := ⟨L.fdiv (L.fadd worldBounds.e.x internalWorldBounds.e.x) 2,
    L.fdiv (L.fadd worldBounds.e.y internalWorldBounds.e.y) 2,
    L.fdiv (L.fadd worldBounds.e.z internalWorldBounds.e.z) 2⟩
  let f2 : Vec3 F := ⟨L.fdiv (L.fadd worldBounds.f.x internalWorldBounds.f.x) 2,
    L.fdiv (L.fadd worldBounds.f.y internalWorldBounds.f.y) 2,
    L.fdiv (L.fadd worldBounds.f.z internalWorldBounds.f.z) 2⟩
  let g2 : Vec3 F := ⟨L.fdiv (L.fadd worldBounds.g.x internalWorldBounds.g.x) 2,
    L.fdiv (L.fadd worldBounds.g.y internalWorldBounds.g.y) 2,
    L.fdiv (L.fadd worldBounds.g.z internalWorldBounds.g.z) 2⟩
  let h2 : Vec3 F := ⟨L.fdiv (L.fadd worldBounds.h.x internalWorldBounds.h.x) 2,
    L.fdiv (L.fadd worldBounds.h.y internalWorldBounds.h.y) 2,
    L.fdiv (L.fadd worldBounds.h.z internalWorldBounds.h.z) 2⟩
  [a2, b2, c2, d2, e2, f2, g2, h2]

/-- The body of `if (drawAABB3)` in `Renderer::displayBoundingBox`. -/
def drawAABB3Branch (L : Lib F) (s : Renderer F) (e : Entity F) : List (Call F) :=
  let data5 : List F := createCube [] (aabb3Faces L e)
  [Call.glBindBuffer GL_ARRAY_BUFFER s.tmpBuffer,
    Call.glBufferData GL_ARRAY_BUFFER data5,
    Call.glUseProgram (shaderAt s 1).ID,
    Call.glUniformMatrix4fv (uniformId (shaderAt s 1) 0) (Mat4.diag 1),
    Call.glUniformMatrix4fv (uniformId (shaderAt s 1) 1) (L.viewMatrix s.camera),
    Call.glUniformMatrix4fv (uniformId (shaderAt s 1) 2) s.Projection,
    Call.glUniform3f (uniformId (shaderAt s 1) 3) 0 1 1,
    Call.glEnableVertexAttribArray 0,
    Call.glVertexAttribPointer 0 3,
    Call.glPointSize 10,
    Call.glDrawArrays GL_LINES 0 data5.length,
    Call.glDisableVertexAttribArray 0]

/-- The body of the loop of `Renderer::displayBoundingBox` for the entity `entityBuffer[i]`. -/
def displayEntity (L : Lib F) (s : Renderer F) (e : Entity F) : List (Call F) :=
  (if s.drawOBB = true then drawBoundingBox L s e.objectBoundingBox ⟨1, 0, 0⟩ else [])
  ++ (if s.drawAABB1 = true then
        drawBoundingBox L s e.externalAxisAlignedBoundingBox ⟨0, 1, 0⟩ else [])
  ++ (if s.drawAABB2 = true then
        drawBoundingBox L s e.internalAxisAlignedBoundingBox ⟨0, 0, 1⟩ else [])
  ++ (if s.drawAABB3 = true then drawAABB3Branch L s e else [])
  ++ (if s.drawAABB4 = true then drawBoundingBox L s e.axisAlignedBoundingBox ⟨1, 0, 1⟩ else [])
  ++ (if s.drawBS = true then
        drawBoundingSphere L s e.internalBoundingSphere e.worldPosition ⟨1, 1, 0⟩ else [])
  ++ (if s.drawBS2 = true then
        drawBoundingSphere L s e.externalBoundingSphere e.worldPosition ⟨1, 0.5, 0⟩ else [])
  ++ (if s.drawBS3 = true then
        drawBoundingSphere L s e.boundingSphere e.worldPosition ⟨0.5, 1, 0⟩ else [])

/-- The function `Renderer::displayBoundingBox`. -/
def displayBoundingBox (L : Lib F) (s : Renderer F) : List (Call F) :=
  s.entityBuffer.flatMap (displayEntity L s)

/-- The function `Renderer::render`. -/
def render (L : Lib F) (s : Renderer F) : Renderer F × List (Call F) :=
  let c0 : List (Call F) :=
    [Call.glClear (GL_COLOR_BUFFER_BIT ||| GL_DEPTH_BUFFER_BIT),
      Call.glEnable GL_DEPTH_TEST,
      Call.glEnable GL_MULTISAMPLE]
  let r1 := if s.updateResolution = true then resizeScreen L s else (s, [])
  let r2 := if r1.1.doReflection = true then renderReflectionCubemap L r1.1 else (r1.1, [])
  (r2.1, c0 ++ r1.2 ++ r2.2
    ++ [Call.glBindFramebuffer GL_FRAMEBUFFER r2.1.screenFBO, Call.glClear GL_DEPTH_BUFFER_BIT]
    ++ renderEntities L r2.1 false
    ++ displayBoundingBox L r2.1
    ++ renderScreen L r2.1
    ++ resetRender L r2.1)

/-- The function `resizeCallback` of `init.cpp`; `width` and `height` are the framebuffer size
answered by `glfwGetFramebufferSize` (the globals `windowWidth` and `windowHeight`, which the
renderer does not read, are left out). -/
def resizeCallback (s : Renderer F) (width height : Nat) : Renderer F × List (Call F) :=
  ({ s with screenWidth := width, screenHeight := height, updateResolution := true },
    [Call.glViewport 0 0 width height])

/-! ## The graphics state the calls act on -/

/-- The part of the OpenGL context state the renderer's calls set: depth mask, program in use,
texture bound per target, buffer bound per target, enabled vertex-attribute slots,
framebuffer bound per target, viewport, enabled capabilities. -/
structure GLState where
  depthMask : Bool
  program : Nat
  boundTexture : Nat → Nat
  boundBuffer : Nat → Nat
  attribEnabled : Nat → Bool
  boundFramebuffer : Nat → Nat
  viewport : Nat × Nat × Nat × Nat
  enabled : Nat → Bool

/-- The effect of one call on the graphics state (OpenGL's state-setting semantics; draws,
clears, uploads and queries leave this part of the state as it is). -/
def GLState.step (g : GLState) : Call F → GLState
  | Call.glEnable cap => { g with enabled := Function.update g.enabled cap true }
  | Call.glDisable cap => { g with enabled := Function.update g.enabled cap false }
  | Call.glBindFramebuffer target fbo =>
      { g with boundFramebuffer := Function.update g.boundFramebuffer target fbo }
  | Call.glViewport x y width height => { g with viewport := (x, y, width, height) }
  | Call.glDepthMask flag => { g with depthMask := flag }
  | Call.glUseProgram program => { g with program := program }
  | Call.glEnableVertexAttribArray index =>
      { g with attribEnabled := Function.update g.attribEnabled index true }
  | Call.glDisableVertexAttribArray index =>
      { g with attribEnabled := Function.update g.attribEnabled index false }
  | Call.glBindBuffer target buffer =>
      { g with boundBuffer := Function.update g.boundBuffer target buffer }
  | Call.glBindTexture target texture =>
      { g with boundTexture := Function.update g.boundTexture target texture }
  | _ => g

/-- The graphics state after a sequence of calls. -/
def GLState.run (g : GLState) (calls : List (Call F)) : GLState :=
  calls.foldl GLState.step g

/-- Whether a call is a draw call (`glDrawArrays`, the only draw entry point the renderer
uses). -/
def Call.isDraw : Call F → Bool
  | Call.glDrawArrays _ _ _ => true
  | _ => false

/-- The draw call the loop body of `renderEntities` issues for an entity it draws: triangle
list for the entity named "skybox", otherwise the primitive picked by the render mode. -/
def entityDraw (renderMode : RenderMode) (e : Entity F) : Call F :=
  Call.glDrawArrays
    (if e.name = "skybox" then GL_TRIANGLES
     else match renderMode with
       | RenderMode.wireframe => GL_LINES
       | RenderMode.vertices => GL_POINTS
       | _ => e.elements)
    0 e.vertices.length

/-- The orientation a call hands to `camera2.setOrientation`, if it is such a call. -/
def Call.orientation : Call F → Option (Vec3 F)
  | Call.camera2SetOrientation v => some v
  | _ => none

/-- Whether a call is one of the OpenGL calls that the loop body of `renderEntities` may
issue. -/
def Call.isEntityCall : Call F → Bool
  | Call.glDepthMask _ => true
  | Call.glUseProgram _ => true
  | Call.glUniformMatrix4fv _ _ => true
  | Call.glUniform3f _ _ _ _ => true
  | Call.glEnableVertexAttribArray _ => true
  | Call.glDisableVertexAttribArray _ => true
  | Call.glBindBuffer _ _ => true
  | Call.glVertexAttribPointer _ _ => true
  | Call.glBindTexture _ _ => true
  | Call.glDrawArrays _ _ _ => true
  | Call.glPointSize _ => true
  | _ => false

/-- Whether a call is one of the OpenGL calls that `attachUniforms` and `linkLayouts` may
issue. -/
def Call.isSetupCall : Call F → Bool
  | Call.glUniformMatrix4fv _ _ => true
  | Call.glUniform3f _ _ _ _ => true
  | Call.glEnableVertexAttribArray _ => true
  | Call.glBindBuffer _ _ => true
  | Call.glVertexAttribPointer _ _ => true
  | _ => false

/-- Whether a call is `glPointSize`. -/
def Call.isPointSize : Call F → Bool
  | Call.glPointSize _ => true
  | _ => false

/-- Whether a call creates an OpenGL object (`glGenTextures`, `glGenFramebuffers`); in
`render()` only `resizeScreen` issues such calls. -/
def Call.isGen : Call F → Bool
  | Call.glGenTextures _ => true
  | Call.glGenFramebuffers _ => true
  | _ => false

/-- The componentwise arithmetic midpoint of two points, as the specification words it. -/
def midpoint3 (p q : Vec3 F) : Vec3 F :=
  ⟨(p.x + q.x) / 2, (p.y + q.y) / 2, (p.z + q.z) / 2⟩

/-- The eight corners `a` .. `h` of a box, in this order. -/
def Bounds.corners (b : Bounds F) : List (Vec3 F) :=
  [b.a, b.b, b.c, b.d, b.e, b.f, b.g, b.h]

/-! ## A concrete scene

A small instance of the data model, on which the embedding is evaluated:
the entities "skybox", "box" and "man" of `loadEntities` (of which "man" is the one taken out
of the reflection by `man->setToReflect(false)`), a general shader and the debug shader at
index 1, and the screen size and flags of `setup()`. -/

/-- A library instance over the rationals: a fixed view matrix and uniform location,
rational stand-ins for the trigonometric functions, and the binary32 addition and division of
IEEE 754 (the exact result rounded to nearest, ties to even) for operands and results that are
finite and in the normal range. -/
def sampleLib : Lib ℚ :=
  { pi := 3.1415926535897
    tan := fun x => x
    cos := fun _ => 1
    sin := fun x => x
    viewMatrix := fun c => ⟨⟨1, 0, 0, 0⟩, ⟨0, 1, 0, 0⟩, ⟨0, 0, 1, 0⟩,
      ⟨c.position.x, c.position.y, c.position.z, 1⟩⟩
    uniformLocation := fun _ _ => 0
    fadd := fun x y => toFloat (x + y)
    fdiv := fun x y => toFloat (x / y) }

/-- The box with corners `(-r,-r,-r)` .. `(r,r,r)`. -/
def sampleBounds (F : Type) [LinearOrderedField F] (r : F) : Bounds F :=
  { a := ⟨-r, -r, -r⟩, b := ⟨r, -r, -r⟩, c := ⟨r, -r, r⟩, d := ⟨-r, -r, r⟩,
    e := ⟨-r, r, r⟩, f := ⟨-r, r, -r⟩, g := ⟨r, r, -r⟩, h := ⟨r, r, r⟩ }

/-- An entity with the given name, reflection flag, shader index and declared primitive, one
triangle of geometry, internal bounds `(-1,-1,-1)..(1,1,1)` and external bounds
`(-2,-2,-2)..(2,2,2)`. -/
def sampleEntity (F : Type) [LinearOrderedField F] (name : String) (toReflect : Bool)
    (shader elements : Nat) : Entity F :=
  { name := name, toReflect := toReflect, shader := shader, texture := 0, textureType := 0,
    elements := elements, vertices := [0, 0, 0, 1, 0, 0, 0, 1, 0],
    modelMatrix := Mat4.diag 1, vertexBuffer := 11, texBuffer := 12, normalBuffer := 13,
    worldPosition := ⟨0, 0, 0⟩,
    objectBoundingBox := sampleBounds F 1,
    externalAxisAlignedBoundingBox := sampleBounds F 2,
    internalAxisAlignedBoundingBox := sampleBounds F 1,
    axisAlignedBoundingBox := sampleBounds F 2,
    internalBoundingSphere := 1, externalBoundingSphere := 2, boundingSphere := 2 }

/-- The state after start-up for the scene "skybox", "box", "man", with the resize flag
`updateResolution` and the reflection flag `doReflection` as given. -/
def sampleScene (F : Type) [LinearOrderedField F] (updateResolution doReflection : Bool) :
    Renderer F :=
  { screenWidth := 1280, screenHeight := 720, samples := 16,
    Projection := Mat4.diag 1, renderMode := RenderMode.base,
    drawOBB := false, drawAABB1 := false, drawAABB2 := false, drawAABB3 := false,
    drawAABB4 := false, drawBS := false, drawBS2 := false, drawBS3 := false,
    doReflection := doReflection, updateResolution := updateResolution, updated := true,
    depthBuffer := false, defaultCamera := 0,
    entityBuffer := [sampleEntity F "skybox" true 0 GL_TRIANGLES,
      sampleEntity F "box" true 0 GL_TRIANGLES, sampleEntity F "man" false 0 GL_TRIANGLES],
    shaderBuffer :=
      [⟨3, [⟨"modelMatrix", 0⟩, ⟨"viewMatrix", 1⟩, ⟨"projectionMatrix", 2⟩], ["vertex", "uv"]⟩,
       ⟨4, [⟨"modelMatrix", 0⟩, ⟨"viewMatrix", 1⟩, ⟨"projectionMatrix", 2⟩, ⟨"color", 3⟩],
         ["vertex"]⟩],
    cameraBuffer := [CameraPtr.camera, CameraPtr.camera2],
    projectionBuffer := [Mat4.diag 1, Mat4.diag 1],
    camera := ⟨⟨1, 1 / 2, 1⟩, ⟨0, 225, -35⟩, ⟨0, 1, 0⟩⟩,
    camera2 := ⟨⟨0, 0, 0⟩, ⟨0, 0, 0⟩, ⟨0, -1, 0⟩⟩,
    light := sampleEntity F "light" true 0 GL_POINTS,
    tmpBuffer := 1, reflectionRes := 2048, reflectionFBO := 1, reflectionCubemap := 1,
    screenTexture := 2, screenDepthTexture := 3, screenFBO := 2, screenVBO := 2,
    screenUVVBO := 3, screenShader := ⟨1, [], []⟩, depthShader := ⟨2, [], []⟩,
    data1 := [], nextTexture := 4, nextFramebuffer := 3 }

/-- A graphics state in which depth writes are on and every vertex-attribute slot is
enabled. -/
def sampleGL : GLState :=
  { depthMask := true, program := 0, boundTexture := fun _ => 0, boundBuffer := fun _ => 0,
    attribEnabled := fun _ => true, boundFramebuffer := fun _ => 0,
    viewport := (0, 0, 1280, 720), enabled := fun _ => false }

/-- Whether a call is `glBindFramebuffer`. -/
def Call.isBindFramebuffer : Call F → Bool
  | Call.glBindFramebuffer _ _ => true
  | _ => false

/-- Whether a call is one of the OpenGL calls that the debug overlay (`drawBoundingBox`,
`drawBoundingSphere`, the `drawAABB3` branch) may issue. -/
def Call.isOverlayCall : Call F → Bool
  | Call.glBindBuffer _ _ => true
  | Call.glBufferData _ _ => true
  | Call.glUseProgram _ => true
  | Call.glUniformMatrix4fv _ _ => true
  | Call.glUniform3f _ _ _ _ => true
  | Call.glEnableVertexAttribArray _ => true
  | Call.glDisableVertexAttribArray _ => true
  | Call.glVertexAttribPointer _ _ => true
  | Call.glPointSize _ => true
  | Call.glDrawArrays _ _ _ => true
  | _ => false

/-- The uniform names `attachUniforms` recognises, as the specification lists them, each with
the upload the specification gives it: the entity's model matrix, the active camera's view
matrix (for the entity named "skybox" its rotation-only variant), the active camera's
projection matrix, the light's world position, the active camera's position. -/
def uniformTable (L : Lib F) (s : Renderer F) (entity : Entity F) :
    List (String × (Int → Call F)) :=
  [("modelMatrix", fun location => Call.glUniformMatrix4fv location entity.modelMatrix),
   ("viewMatrix", fun location => Call.glUniformMatrix4fv location
      (if entity.name = "skybox" then Mat4.ofMat3 (L.viewMatrix (cameraAt s s.defaultCamera))
       else L.viewMatrix (cameraAt s s.defaultCamera))),
   ("projectionMatrix", fun location =>
      Call.glUniformMatrix4fv location (projectionAt s s.defaultCamera)),
   ("lightPosition", fun location => Call.glUniform3f location s.light.worldPosition.x
      s.light.worldPosition.y s.light.worldPosition.z),
   ("eyePosition", fun location => Call.glUniform3f location
      (cameraAt s s.defaultCamera).position.x (cameraAt s s.defaultCamera).position.y
      (cameraAt s s.defaultCamera).position.z)]

/-- The upload the specification gives a uniform descriptor: the table entry of its name,
sent to the descriptor's own location; none for a name that is not in the table. -/
def uniformUpload (L : Lib F) (s : Renderer F) (entity : Entity F) (u : Uniform) :
    Option (Call F) :=
  ((uniformTable L s entity).lookup u.name).map (fun upload => upload u.id)

/-- The layout names `linkLayouts` recognises, as the specification lists them, each with its
attribute slot, the entity's buffer it binds and the number of floats per vertex.  The
entity keeps one buffer for texture coordinates or colours (`createAxis` loads the axis
colours with `loadUVs`); `getTexBuffer` returns it. -/
def layoutTable (entity : Entity F) : List (String × (Nat × Nat × Nat)) :=
  [("vertex", (0, entity.vertexBuffer, 3)),
   ("uv", (1, entity.texBuffer, 2)),
   ("color", (1, entity.texBuffer, 3)),
   ("normal", (2, entity.normalBuffer, 3))]

/-- The calls that bind one attribute stream: enable the slot, bind the buffer, describe the
layout of the stream. -/
def bindStream (b : Nat × Nat × Nat) : List (Call F) :=
  [Call.glEnableVertexAttribArray b.1, Call.glBindBuffer GL_ARRAY_BUFFER b.2.1,
    Call.glVertexAttribPointer b.1 b.2.2]

/-- Whether a call binds the texture `cubemap` to the cube-map target. -/
def Call.isCubemapBind (cubemap : Nat) : Call F → Bool
  | Call.glBindTexture target texture => target == GL_TEXTURE_CUBE_MAP && texture == cubemap
  | _ => false

/-- The number of debug-draw toggles that are set. -/
def enabledToggles (s : Renderer F) : Nat :=
  ([s.drawOBB, s.drawAABB1, s.drawAABB2, s.drawAABB3, s.drawAABB4, s.drawBS, s.drawBS2,
    s.drawBS3].filter id).length

/-- The twelve segments of `createCube` as pairs of corner indices, in the order in which the
function pushes them. -/
def cubeEdges : List (Nat × Nat) :=
  [(0, 1), (1, 2), (2, 3), (3, 0), (0, 5), (1, 6), (2, 7), (3, 4), (5, 4), (4, 7), (7, 6),
    (6, 5)]

/-- The six floats of the segment between two corners of a corner list. -/
def segmentFloats (faces : List (Vec3 F)) (p : Nat × Nat) : List F :=
  [(cornerAt faces p.1).x, (cornerAt faces p.1).y, (cornerAt faces p.1).z,
    (cornerAt faces p.2).x, (cornerAt faces p.2).y, (cornerAt faces p.2).z]

/-! ## Start-up (`init.cpp`)

The classes `Shader` and `Entity` are outside the sources.  `compiled name` stands for the
`Shader` object of that name after `loadShader`, `loaded name` for the `Entity` object of that
name after its constructor and its geometry, texture and transform calls; the setters
`setShader`, `setToReflect` and `setElements` overwrite the field they name. -/

/-- The function `loadShaders`: the contents of `*shaderBuffer` afterwards. -/
def loadShaders (compiled : String → Shader) (shaderBuffer : List Shader) : List Shader :=
  shaderBuffer ++ [compiled "shader1", compiled "shader2", compiled "shader3",
    compiled "light", compiled "lightTex", compiled "lightSource", compiled "skybox",
    compiled "reflection", compiled "refraction/glass", compiled "refraction/diamond",
    compiled "toon", compiled "hightlight", compiled "outline", compiled "white",
    compiled "outlineAlpha"]

/-- The global `light` after `loadEntities`: `setShader(5)` and `setElements(GL_POINTS)`. -/
def loadedLight (loaded : String → Entity F) : Entity F :=
  { loaded "light" with name := "light", shader := 5, elements := GL_POINTS }

/-- The function `loadEntities`: the contents of `*entityBuffer` afterwards.  The entity
"plane" is built but not pushed. -/
def loadEntities (loaded : String → Entity F) (entityBuffer : List (Entity F)) :
    List (Entity F) :=
  let axis : Entity F := { loaded "axis" with name := "axis", shader := 2 }
  let box : Entity F := { loaded "box" with name := "box", shader := 0 }
  let walnut : Entity F := { loaded "walnut" with name := "walnut", shader := 10 }
  let monkey : Entity F := { loaded "monkey" with name := "monkey", shader := 8 }
  let man : Entity F := { loaded "man" with name := "man", shader := 7, toReflect := false }
  let skybox : Entity F := { loaded "skybox" with name := "skybox", shader := 6 }
  let man2 : Entity F := { loaded "man2" with name := "man2", shader := 7 }
  let man3 : Entity F := { loaded "man3" with name := "man3", shader := 10 }
  let map : Entity F := { loaded "map" with name := "map", shader := 3 }
  let jacket : Entity F := { loaded "jacket" with name := "jacket", shader := 4 }
  let manaya : Entity F := { loaded "manaya" with name := "manaya", shader := 7 }
  let genshinEnemy : Entity F :=
    { loaded "genshinEnemy" with name := "genshinEnemy", shader := 10 }
  entityBuffer ++ [skybox, axis, loadedLight loaded, box, walnut, monkey, man, man2, man3,
    jacket, map, manaya, genshinEnemy]

/-- The function `setup` (the window creation of `initGLFW_OpenGL` left out): the globals
afterwards, `s` being the state before. -/
def setup (L : Lib F) (compiled : String → Shader) (loaded : String → Entity F)
    (s : Renderer F) : Renderer F :=
  let Projection : Mat4 F :=
    perspective L (radians L 45) ((s.screenWidth : F) / (s.screenHeight : F)) 0.1 10000
  let Projection2 : Mat4 F := perspective L (radians L 90) 1 0.1 10000
  { s with
    Projection := Projection
    renderMode := RenderMode.base
    drawOBB := false, drawAABB1 := false, drawAABB2 := false, drawAABB3 := false
    drawAABB4 := false, drawBS := false, drawBS2 := false, drawBS3 := false
    doReflection := false, updateResolution := false, updated := true, depthBuffer := false
    defaultCamera := 0
    camera := { s.camera with position := ⟨1, 0.5, 1⟩ }
    cameraBuffer := s.cameraBuffer ++ [CameraPtr.camera, CameraPtr.camera2]
    projectionBuffer := s.projectionBuffer ++ [Projection, Projection2]
    shaderBuffer := loadShaders compiled s.shaderBuffer
    light := loadedLight loaded
    entityBuffer := loadEntities loaded s.entityBuffer }

/-- The state at program start: the initialisers of the globals of `init.cpp` (empty
buffers, zero-initialised flags, screen 1280 x 720, 16 samples, the two cameras), with
object names for the members of `Renderer`. -/
def programStart (F : Type) [LinearOrderedField F] : Renderer F :=
  { sampleScene F false false with
    entityBuffer := [], shaderBuffer := [], cameraBuffer := [], projectionBuffer := []
    updated := false
    camera := ⟨⟨30, 30, 30⟩, ⟨0, 225, -35⟩, ⟨0, 1, 0⟩⟩
    camera2 := ⟨⟨0, 0, 0⟩, ⟨0, 0, 0⟩, ⟨0, -1, 0⟩⟩ }

/-- Every index the renderer dereferences is in range: the shader index of every entity and
the debug shader index 1 in `shaderBuffer`, the active-camera index in `cameraBuffer` and in
`projectionBuffer`. -/
def IndicesInRange (s : Renderer F) : Prop :=
  (∀ e ∈ s.entityBuffer, e.shader < s.shaderBuffer.length)
    ∧ 1 < s.shaderBuffer.length
    ∧ s.defaultCamera < s.cameraBuffer.length
    ∧ s.defaultCamera < s.projectionBuffer.length

instance (s : Renderer F) : Decidable (IndicesInRange s) := by
  unfold IndicesInRange
  infer_instance

/-! ## The polylines of `createSphere` as point lists -/

/-- The floats of a list of points, three per point, in order. -/
def flattenPoints (pts : List (Vec3 F)) : List F :=
  pts.flatMap (fun p => [p.x, p.y, p.z])

/-- The values the loop variable `i` has in the iterations of a loop of `createSphere`
entered with `i` as given, in order; `none` when the loop has not left after `fuel`
iterations.  The three loops of a call share this sequence. -/
def loopCounters (sides : Int) : Nat → ℚ → Option (List ℚ)
  | 0, _ => none
  | fuel + 1, i =>
    if i < sphereTwoPi then
      match nextCounter sides i with
      | some j => (loopCounters sides fuel j).map (fun cs => i :: cs)
      | none => some [i]
    else some []

/-- The points that the iterations of a loop of `createSphere` push when the loop variable
runs through `cs`, entered with `tmp` as given: per iteration the old `tmp` and the new
one. -/
def loopPoints (point : F → Vec3 F) (center : Vec3 F) : List ℚ → Vec3 F → List (Vec3 F)
  | [], _ => []
  | c :: cs, tmp =>
    tmp :: Vec3.add (point (c : F)) center
      :: loopPoints point center cs (Vec3.add (point (c : F)) center)

/-- The value of `tmp` after the iterations of a loop of `createSphere` in which the loop
variable runs through `cs`. -/
def loopLast (point : F → Vec3 F) (center : Vec3 F) : List ℚ → Vec3 F → Vec3 F
  | [], tmp => tmp
  | c :: cs, _ => loopLast point center cs (Vec3.add (point (c : F)) center)

/-- The square of the Euclidean distance between two points. -/
def sqDist (p q : Vec3 F) : F :=
  (p.x - q.x) ^ 2 + (p.y - q.y) ^ 2 + (p.z - q.z) ^ 2

/-- One polyline of `createSphere` as a list of points: the points its loop pushes while the
loop variable runs through `cs`, then the two points pushed after the loop, the last value of
`tmp` and the start point again.  Consecutive pairs are the segments drawn. -/
def polyline (point : F → Vec3 F) (center start : Vec3 F) (cs : List ℚ) : List (Vec3 F) :=
  loopPoints point center cs start ++ [loopLast point center cs start, start]

/-- The binary32 addition and the binary32 division by 2 of `L` are exact for the matching
coordinates of an external corner `w` and an internal corner `i`. -/
def ExactMidpoint (L : Lib F) (i w : Vec3 F) : Prop :=
  (L.fadd w.x i.x = w.x + i.x ∧ L.fdiv (w.x + i.x) 2 = (w.x + i.x) / 2)
    ∧ (L.fadd w.y i.y = w.y + i.y ∧ L.fdiv (w.y + i.y) 2 = (w.y + i.y) / 2)
    ∧ (L.fadd w.z i.z = w.z + i.z ∧ L.fdiv (w.z + i.z) 2 = (w.z + i.z) / 2)

instance (L : Lib F) (i w : Vec3 F) : Decidable (ExactMidpoint L i w) := by
  unfold ExactMidpoint
  infer_instance

/-- The sample entity "box" with internal box `(-2^-24,-2^-24,-2^-24) .. (2^-24,2^-24,2^-24)`
and external box `(-1,-1,-1) .. (1,1,1)`; all coordinates are binary32 numbers. -/
def thinBoxEntity : Entity ℚ :=
  { sampleEntity ℚ "box" true 0 GL_TRIANGLES with
    internalAxisAlignedBoundingBox := sampleBounds ℚ (1 / 2 ^ 24)
    externalAxisAlignedBoundingBox := sampleBounds ℚ 1 }

/-- The sample entity "box" carrying as its own texture the cube-map texture 1, which is the
reflection cubemap of the sample scene. -/
def cubemapBoxEntity : Entity ℚ :=
  { sampleEntity ℚ "box" true 0 GL_TRIANGLES with
    texture := 1
    textureType := GL_TEXTURE_CUBE_MAP }

/-- The point whose coordinates are the binary32 results of `(w + i) / 2`, coordinate by
coordinate, for an external corner `w` and an internal corner `i`. -/
def floatMidpoint3 (L : Lib F) (i w : Vec3 F) : Vec3 F :=
  ⟨L.fdiv (L.fadd w.x i.x) 2, L.fdiv (L.fadd w.y i.y) 2, L.fdiv (L.fadd w.z i.z) 2⟩

/-- Whether a call is `glBufferData`. -/
def Call.isBufferData : Call F → Bool
  | Call.glBufferData _ _ => true
  | _ => false

end Defs

/-! ## Lemmas on the call sequences -/

section Lemmas

variable {F : Type} [LinearOrderedField F]

theorem filter_flatMap_nil {α β : Type} (p : β → Bool) (f : α → List β) (l : List α)
    (h : ∀ a, (f a).filter p = []) : (l.flatMap f).filter p = [] := by
  induction l with
  | nil => rfl
  | cons a l ih => simp [List.flatMap_cons, List.filter_append, h a, ih]

theorem attachUniform_filter_isDraw (L : Lib F) (s : Renderer F) (e : Entity F) (u : Uniform) :
    (attachUniform L s e u).filter Call.isDraw = [] := by
  unfold attachUniform
  split_ifs <;> simp [Call.isDraw]

theorem attachUniforms_filter_isDraw (L : Lib F) (s : Renderer F) (e : Entity F)
    (us : List Uniform) : (attachUniforms L s e us).filter Call.isDraw = [] :=
  filter_flatMap_nil _ _ _ (attachUniform_filter_isDraw L s e)

omit [LinearOrderedField F] in
theorem linkLayout_filter_isDraw (e : Entity F) (l : String) :
    (linkLayout e l).filter Call.isDraw = [] := by
  unfold linkLayout
  split_ifs <;> simp [Call.isDraw]

omit [LinearOrderedField F] in
theorem linkLayouts_filter_isDraw (e : Entity F) (ls : List String) :
    (linkLayouts e ls).filter Call.isDraw = [] :=
  filter_flatMap_nil _ _ _ (linkLayout_filter_isDraw e)

theorem renderEntity_filter_isDraw (L : Lib F) (s : Renderer F) (reflection : Bool)
    (e : Entity F) :
    (renderEntity L s reflection e).filter Call.isDraw
      = if (!reflection || e.toReflect) = true then [entityDraw s.renderMode e] else [] := by
  unfold renderEntity entityDraw drawSwitch
  cases reflection <;> cases hr : e.toReflect <;> cases hm : s.renderMode <;>
    by_cases hn : e.name = "skybox" <;>
    simp [hn, List.filter_append, attachUniforms_filter_isDraw, linkLayouts_filter_isDraw,
      Call.isDraw, apply_ite (List.filter Call.isDraw)]

omit [LinearOrderedField F] in
theorem GLState.run_append (g : GLState) (xs ys : List (Call F)) :
    g.run (xs ++ ys) = (g.run xs).run ys := by
  simp [GLState.run, List.foldl_append]

omit [LinearOrderedField F] in
theorem GLState.run_cons (g : GLState) (c : Call F) (cs : List (Call F)) :
    g.run (c :: cs) = (g.step c).run cs := rfl

omit [LinearOrderedField F] in
theorem GLState.run_nil (g : GLState) : g.run ([] : List (Call F)) = g := rfl

theorem all_flatMap_true {α β : Type} (p : β → Bool) (f : α → List β) (l : List α)
    (h : ∀ a, (f a).all p = true) : (l.flatMap f).all p = true := by
  induction l with
  | nil => rfl
  | cons a l ih => simp only [List.flatMap_cons, List.all_append, h a, ih, Bool.and_self]

theorem attachUniform_isSetupCall (L : Lib F) (s : Renderer F) (e : Entity F) (u : Uniform) :
    (attachUniform L s e u).all Call.isSetupCall = true := by
  unfold attachUniform
  split_ifs <;> simp [Call.isSetupCall]

theorem attachUniforms_isSetupCall (L : Lib F) (s : Renderer F) (e : Entity F)
    (us : List Uniform) : (attachUniforms L s e us).all Call.isSetupCall = true :=
  all_flatMap_true _ _ _ (attachUniform_isSetupCall L s e)

omit [LinearOrderedField F] in
theorem linkLayout_isSetupCall (e : Entity F) (l : String) :
    (linkLayout e l).all Call.isSetupCall = true := by
  unfold linkLayout
  split_ifs <;> simp [Call.isSetupCall]

omit [LinearOrderedField F] in
theorem linkLayouts_isSetupCall (e : Entity F) (ls : List String) :
    (linkLayouts e ls).all Call.isSetupCall = true :=
  all_flatMap_true _ _ _ (linkLayout_isSetupCall e)

theorem all_of_all_imp {β : Type} (p q : β → Bool) (l : List β) (h : l.all p = true)
    (hpq : ∀ b, p b = true → q b = true) : l.all q = true := by
  rw [List.all_eq_true] at h ⊢
  exact fun b hb => hpq b (h b hb)

omit [LinearOrderedField F] in
theorem isEntityCall_of_isSetupCall (c : Call F) (h : c.isSetupCall = true) :
    c.isEntityCall = true := by
  cases c <;> simp_all [Call.isSetupCall, Call.isEntityCall]

theorem attachUniforms_isEntityCall (L : Lib F) (s : Renderer F) (e : Entity F)
    (us : List Uniform) : (attachUniforms L s e us).all Call.isEntityCall = true :=
  all_of_all_imp _ _ _ (attachUniforms_isSetupCall L s e us) isEntityCall_of_isSetupCall

omit [LinearOrderedField F] in
theorem linkLayouts_isEntityCall (e : Entity F) (ls : List String) :
    (linkLayouts e ls).all Call.isEntityCall = true :=
  all_of_all_imp _ _ _ (linkLayouts_isSetupCall e ls) isEntityCall_of_isSetupCall

omit [LinearOrderedField F] in
/-- Calls of `attachUniforms` and `linkLayouts` change nothing of the graphics state but the
enabled attribute slots and the bound buffers. -/
theorem GLState.run_setup_frame (g : GLState) (l : List (Call F))
    (h : l.all Call.isSetupCall = true) :
    (g.run l).depthMask = g.depthMask ∧ (g.run l).program = g.program
      ∧ (g.run l).boundTexture = g.boundTexture
      ∧ (g.run l).boundFramebuffer = g.boundFramebuffer
      ∧ (g.run l).viewport = g.viewport ∧ (g.run l).enabled = g.enabled := by
  induction l generalizing g with
  | nil => exact ⟨rfl, rfl, rfl, rfl, rfl, rfl⟩
  | cons c l ih =>
    rw [List.all_cons, Bool.and_eq_true] at h
    rw [GLState.run_cons]
    have := ih (g.step c) h.2
    cases c <;> simp_all [Call.isSetupCall, GLState.step]

theorem GLState.run_attachUniforms_depthMask (g : GLState) (L : Lib F) (s : Renderer F)
    (e : Entity F) (us : List Uniform) :
    (g.run (attachUniforms L s e us)).depthMask = g.depthMask :=
  (g.run_setup_frame _ (attachUniforms_isSetupCall L s e us)).1

omit [LinearOrderedField F] in
theorem GLState.run_linkLayouts_depthMask (g : GLState) (e : Entity F) (ls : List String) :
    (g.run (linkLayouts e ls)).depthMask = g.depthMask :=
  (g.run_setup_frame _ (linkLayouts_isSetupCall e ls)).1

theorem renderEntity_isEntityCall (L : Lib F) (s : Renderer F) (reflection : Bool)
    (e : Entity F) : (renderEntity L s reflection e).all Call.isEntityCall = true := by
  unfold renderEntity drawSwitch
  cases reflection <;> cases hm : s.renderMode <;> split_ifs <;>
    simp only [List.all_append, List.all_cons, List.all_nil, attachUniforms_isEntityCall,
      linkLayouts_isEntityCall, Call.isEntityCall, Bool.and_self, Bool.and_true, Bool.true_and,
      List.append_nil, List.nil_append]

theorem renderEntities_isEntityCall (L : Lib F) (s : Renderer F) (reflection : Bool) :
    (renderEntities L s reflection).all Call.isEntityCall = true :=
  all_flatMap_true _ _ _ (renderEntity_isEntityCall L s reflection)

theorem renderEntities_filterMap_orientation (L : Lib F) (s : Renderer F)
    (reflection : Bool) : (renderEntities L s reflection).filterMap Call.orientation = [] := by
  rw [List.filterMap_eq_nil_iff]
  intro c hc
  have h := List.all_eq_true.mp (renderEntities_isEntityCall L s reflection) c hc
  cases c <;> simp_all [Call.isEntityCall, Call.orientation]

/-- The calls of `renderReflectionCubemap`, face by face. -/
theorem renderReflectionCubemap_calls (L : Lib F) (s : Renderer F) :
    (renderReflectionCubemap L s).2
        = [Call.glBindFramebuffer GL_FRAMEBUFFER s.reflectionFBO,
            Call.glViewport 0 0 s.reflectionRes s.reflectionRes,
            Call.glClear (GL_COLOR_BUFFER_BIT ||| GL_DEPTH_BUFFER_BIT)]
          ++ ([(0, ⟨0, 0, 0⟩), (1, ⟨0, 180, 0⟩), (2, ⟨0, -90, 90⟩), (3, ⟨0, -90, -90⟩),
                (4, ⟨0, 90, 0⟩), (5, ⟨0, 270, 0⟩)] : List (Nat × Vec3 F)).flatMap
              (fun p =>
                [Call.glFramebufferTexture2D GL_FRAMEBUFFER GL_COLOR_ATTACHMENT0
                    (GL_TEXTURE_CUBE_MAP_POSITIVE_X + p.1) s.reflectionCubemap 0,
                  Call.camera2SetOrientation p.2]
                ++ renderEntities L
                    { s with defaultCamera := 1,
                             camera2 := { s.camera2 with orientation := p.2 } } true
                ++ [Call.glClear GL_DEPTH_BUFFER_BIT])
          ++ [Call.glViewport 0 0 s.screenWidth s.screenHeight] := by
  simp [renderReflectionCubemap, cubemapFace, List.range, List.range.loop,
    Camera.setOrientation, faceOrientation]

/-- The state `renderReflectionCubemap` leaves: the entry state with the secondary camera
turned to the last face and the primary camera active. -/
theorem renderReflectionCubemap_state (L : Lib F) (s : Renderer F) :
    (renderReflectionCubemap L s).1
      = { s with defaultCamera := 0,
                 camera2 := { s.camera2 with orientation := ⟨0, 270, 0⟩ } } := by
  simp [renderReflectionCubemap, cubemapFace, List.range, List.range.loop,
    Camera.setOrientation, faceOrientation]

/-- One loop iteration of `renderEntities` leaves the depth mask enabled if it was. -/
theorem renderEntity_run_depthMask (g : GLState) (L : Lib F) (s : Renderer F)
    (reflection : Bool) (e : Entity F) (h : g.depthMask = true) :
    (g.run (renderEntity L s reflection e)).depthMask = true := by
  unfold renderEntity drawSwitch
  cases reflection <;> cases hm : s.renderMode <;> split_ifs <;>
    simp [GLState.run_append, GLState.run_cons, GLState.run_nil, GLState.step,
      GLState.run_attachUniforms_depthMask, GLState.run_linkLayouts_depthMask, h]

theorem renderEntities_run_depthMask (g : GLState) (L : Lib F) (s : Renderer F)
    (reflection : Bool) (h : g.depthMask = true) :
    (g.run (renderEntities L s reflection)).depthMask = true := by
  unfold renderEntities
  induction s.entityBuffer generalizing g with
  | nil => exact h
  | cons e l ih =>
    rw [List.flatMap_cons, GLState.run_append]
    exact ih _ (renderEntity_run_depthMask g L s reflection e h)

theorem filter_eq_nil_of_all {β : Type} (p q : β → Bool) (l : List β) (h : l.all q = true)
    (hq : ∀ b, q b = true → p b = false) : l.filter p = [] := by
  rw [List.filter_eq_nil_iff]
  intro b hb
  rw [List.all_eq_true] at h
  simp [hq b (h b hb)]

theorem attachUniforms_filter_isPointSize (L : Lib F) (s : Renderer F) (e : Entity F)
    (us : List Uniform) : (attachUniforms L s e us).filter Call.isPointSize = [] :=
  filter_eq_nil_of_all _ _ _ (attachUniforms_isSetupCall L s e us)
    (fun c h => by cases c <;> simp_all [Call.isSetupCall, Call.isPointSize])

omit [LinearOrderedField F] in
theorem linkLayouts_filter_isPointSize (e : Entity F) (ls : List String) :
    (linkLayouts e ls).filter Call.isPointSize = [] :=
  filter_eq_nil_of_all _ _ _ (linkLayouts_isSetupCall e ls)
    (fun c h => by cases c <;> simp_all [Call.isSetupCall, Call.isPointSize])

theorem renderEntities_filter_isGen (L : Lib F) (s : Renderer F) (reflection : Bool) :
    (renderEntities L s reflection).filter Call.isGen = [] :=
  filter_eq_nil_of_all _ _ _ (renderEntities_isEntityCall L s reflection)
    (fun c h => by cases c <;> simp_all [Call.isEntityCall, Call.isGen])

theorem renderReflectionCubemap_filter_isGen (L : Lib F) (s : Renderer F) :
    (renderReflectionCubemap L s).2.filter Call.isGen = [] := by
  rw [renderReflectionCubemap_calls]
  simp [List.filter_append, renderEntities_filter_isGen, Call.isGen]

theorem drawBoundingBox_filter_isGen (L : Lib F) (s : Renderer F) (b : Bounds F)
    (color : Vec3 F) : (drawBoundingBox L s b color).filter Call.isGen = [] := by
  simp [drawBoundingBox, Call.isGen]

theorem drawBoundingSphere_filter_isGen (L : Lib F) (s : Renderer F) (r : F)
    (center color : Vec3 F) : (drawBoundingSphere L s r center color).filter Call.isGen = [] := by
  simp [drawBoundingSphere, Call.isGen]

theorem drawAABB3Branch_filter_isGen (L : Lib F) (s : Renderer F) (e : Entity F) :
    (drawAABB3Branch L s e).filter Call.isGen = [] := by
  simp [drawAABB3Branch, Call.isGen]

theorem displayBoundingBox_filter_isGen (L : Lib F) (s : Renderer F) :
    (displayBoundingBox L s).filter Call.isGen = [] := by
  apply filter_flatMap_nil
  intro e
  simp only [displayEntity, List.filter_append, apply_ite (List.filter Call.isGen),
    drawBoundingBox_filter_isGen, drawBoundingSphere_filter_isGen,
    drawAABB3Branch_filter_isGen, List.filter_nil, ite_self, List.append_nil]

theorem renderScreen_filter_isGen (L : Lib F) (s : Renderer F) :
    (renderScreen L s).filter Call.isGen = [] := by
  unfold renderScreen
  split_ifs <;> simp [Call.isGen]

theorem resetRender_filter_isGen (L : Lib F) (s : Renderer F) :
    (resetRender L s).filter Call.isGen = [] := by
  simp [resetRender, Call.isGen]

theorem resizeScreen_filter_isGen (L : Lib F) (s : Renderer F) :
    (resizeScreen L s).2.filter Call.isGen
      = [Call.glGenTextures s.nextTexture, Call.glGenTextures (s.nextTexture + 1),
          Call.glGenFramebuffers s.nextFramebuffer] := by
  simp [resizeScreen, Call.isGen]

/-- The calls of `render`: the three opening calls, the calls of `resizeScreen` if the resize
flag is set, and a remainder without object-creating calls. -/
theorem render_calls (L : Lib F) (s : Renderer F) :
    ∃ post : List (Call F), post.filter Call.isGen = []
      ∧ (render L s).2
        = [Call.glClear (GL_COLOR_BUFFER_BIT ||| GL_DEPTH_BUFFER_BIT),
            Call.glEnable GL_DEPTH_TEST, Call.glEnable GL_MULTISAMPLE]
          ++ (if s.updateResolution = true then (resizeScreen L s).2 else [])
          ++ post := by
  refine ⟨(if (if s.updateResolution = true then resizeScreen L s else (s, [])).1.doReflection
        = true then
        renderReflectionCubemap L (if s.updateResolution = true then resizeScreen L s
          else (s, [])).1
      else ((if s.updateResolution = true then resizeScreen L s else (s, [])).1, [])).2
    ++ [Call.glBindFramebuffer GL_FRAMEBUFFER (render L s).1.screenFBO,
        Call.glClear GL_DEPTH_BUFFER_BIT]
    ++ renderEntities L (render L s).1 false
    ++ displayBoundingBox L (render L s).1
    ++ renderScreen L (render L s).1
    ++ resetRender L (render L s).1, ?_, ?_⟩
  · simp only [List.filter_append, renderEntities_filter_isGen,
      displayBoundingBox_filter_isGen, renderScreen_filter_isGen, resetRender_filter_isGen]
    split_ifs <;> simp [renderReflectionCubemap_filter_isGen, Call.isGen]
  · cases hu : s.updateResolution <;> simp [render, hu]

/-- The flag `updateResolution` is not written by `render`. -/
theorem render_updateResolution (L : Lib F) (s : Renderer F) :
    (render L s).1.updateResolution = s.updateResolution := by
  cases hu : s.updateResolution <;> cases hd : s.doReflection <;>
    simp [render, hu, hd, resizeScreen, renderReflectionCubemap_state]

/-- The name counters after `render`: advanced by `resizeScreen` if the resize flag is set. -/
theorem render_next (L : Lib F) (s : Renderer F) :
    (render L s).1.nextTexture = (if s.updateResolution = true then s.nextTexture + 2
        else s.nextTexture)
      ∧ (render L s).1.nextFramebuffer = (if s.updateResolution = true then
          s.nextFramebuffer + 1 else s.nextFramebuffer) := by
  cases hu : s.updateResolution <;> cases hd : s.doReflection <;>
    simp [render, hu, hd, resizeScreen, renderReflectionCubemap_state]

theorem render_filter_isGen (L : Lib F) (s : Renderer F) :
    (render L s).2.filter Call.isGen
      = if s.updateResolution = true then
          [Call.glGenTextures s.nextTexture, Call.glGenTextures (s.nextTexture + 1),
            Call.glGenFramebuffers s.nextFramebuffer]
        else [] := by
  rcases render_calls L s with ⟨post, hpost, hc⟩
  rw [hc]
  simp only [List.filter_append, hpost, List.append_nil]
  split_ifs
  · simp [resizeScreen_filter_isGen, Call.isGen]
  · simp [Call.isGen]

/-- Running the reflection pass from the state it leaves repeats it: the pass reads neither
the active-camera index nor the orientation of the secondary camera it finds on entry. -/
theorem renderReflectionCubemap_idem (L : Lib F) (s : Renderer F) :
    renderReflectionCubemap L (renderReflectionCubemap L s).1 = renderReflectionCubemap L s := by
  apply Prod.ext
  · rw [renderReflectionCubemap_state, renderReflectionCubemap_state]
  · rw [renderReflectionCubemap_calls, renderReflectionCubemap_calls,
      renderReflectionCubemap_state]

/-- With the resize flag clear, `render` run from the state it leaves repeats itself. -/
theorem render_idem (L : Lib F) (s : Renderer F) (h : s.updateResolution = false) :
    render L (render L s).1 = render L s := by
  cases hd : s.doReflection
  · have hs : (render L s).1 = s := by simp [render, h, hd]
    rw [hs]
  · have hs : (render L s).1 = (renderReflectionCubemap L s).1 := by simp [render, h, hd]
    have hu : (renderReflectionCubemap L s).1.updateResolution = false := by
      rw [renderReflectionCubemap_state]; exact h
    have hr : (renderReflectionCubemap L s).1.doReflection = true := by
      rw [renderReflectionCubemap_state]; exact hd
    rw [hs]
    simp only [render, hu, hr, h, hd, renderReflectionCubemap_idem, if_true,
      Bool.false_eq_true, if_false]

theorem drawBoundingBox_isOverlayCall (L : Lib F) (s : Renderer F) (b : Bounds F)
    (color : Vec3 F) : (drawBoundingBox L s b color).all Call.isOverlayCall = true := by
  simp [drawBoundingBox, Call.isOverlayCall]

theorem drawBoundingSphere_isOverlayCall (L : Lib F) (s : Renderer F) (r : F)
    (center color : Vec3 F) :
    (drawBoundingSphere L s r center color).all Call.isOverlayCall = true := by
  simp [drawBoundingSphere, Call.isOverlayCall]

theorem drawAABB3Branch_isOverlayCall (L : Lib F) (s : Renderer F) (e : Entity F) :
    (drawAABB3Branch L s e).all Call.isOverlayCall = true := by
  simp [drawAABB3Branch, Call.isOverlayCall]

theorem displayEntity_isOverlayCall (L : Lib F) (s : Renderer F) (e : Entity F) :
    (displayEntity L s e).all Call.isOverlayCall = true := by
  simp only [displayEntity, List.all_append, apply_ite (List.all · Call.isOverlayCall),
    drawBoundingBox_isOverlayCall, drawBoundingSphere_isOverlayCall,
    drawAABB3Branch_isOverlayCall, List.all_nil, ite_self, Bool.and_self]

theorem displayBoundingBox_isOverlayCall (L : Lib F) (s : Renderer F) :
    (displayBoundingBox L s).all Call.isOverlayCall = true :=
  all_flatMap_true _ _ _ (displayEntity_isOverlayCall L s)

omit [LinearOrderedField F] in
/-- Calls other than `glBindFramebuffer` leave the framebuffer bindings as they are. -/
theorem GLState.run_boundFramebuffer (g : GLState) (l : List (Call F))
    (h : l.filter Call.isBindFramebuffer = []) :
    (g.run l).boundFramebuffer = g.boundFramebuffer := by
  induction l generalizing g with
  | nil => rfl
  | cons c l ih =>
    have hc : c.isBindFramebuffer = false ∧ l.filter Call.isBindFramebuffer = [] := by
      cases hb : c.isBindFramebuffer
      · simpa [List.filter_cons, hb] using h
      · simp [List.filter_cons, hb] at h
    rw [GLState.run_cons, ih _ hc.2]
    cases c <;> first | rfl | simp [Call.isBindFramebuffer] at hc

theorem renderEntities_filter_isBindFramebuffer (L : Lib F) (s : Renderer F)
    (reflection : Bool) :
    (renderEntities L s reflection).filter Call.isBindFramebuffer = [] :=
  filter_eq_nil_of_all _ _ _ (renderEntities_isEntityCall L s reflection)
    (fun c h => by cases c <;> simp_all [Call.isEntityCall, Call.isBindFramebuffer])

theorem displayBoundingBox_filter_isBindFramebuffer (L : Lib F) (s : Renderer F) :
    (displayBoundingBox L s).filter Call.isBindFramebuffer = [] :=
  filter_eq_nil_of_all _ _ _ (displayBoundingBox_isOverlayCall L s)
    (fun c h => by cases c <;> simp_all [Call.isOverlayCall, Call.isBindFramebuffer])

/-- The calls of `render`, pass by pass. -/
theorem render_passes (L : Lib F) (s : Renderer F) :
    (render L s).2
      = [Call.glClear (GL_COLOR_BUFFER_BIT ||| GL_DEPTH_BUFFER_BIT),
          Call.glEnable GL_DEPTH_TEST, Call.glEnable GL_MULTISAMPLE]
        ++ (if s.updateResolution = true then (resizeScreen L s).2 else [])
        ++ (if s.doReflection = true then
              (renderReflectionCubemap L
                (if s.updateResolution = true then (resizeScreen L s).1 else s)).2
            else [])
        ++ [Call.glBindFramebuffer GL_FRAMEBUFFER (render L s).1.screenFBO,
            Call.glClear GL_DEPTH_BUFFER_BIT]
        ++ renderEntities L (render L s).1 false
        ++ displayBoundingBox L (render L s).1
        ++ renderScreen L (render L s).1
        ++ resetRender L (render L s).1 := by
  cases hu : s.updateResolution <;> cases hd : s.doReflection <;>
    simp [render, hu, hd, resizeScreen]

/-- The upload for one uniform descriptor reads the state only through the active camera,
the active projection and the light. -/
theorem attachUniform_congr (L : Lib F) (s t : Renderer F) (e : Entity F) (u : Uniform)
    (hC : cameraAt t t.defaultCamera = cameraAt s s.defaultCamera)
    (hP : projectionAt t t.defaultCamera = projectionAt s s.defaultCamera)
    (hL : t.light = s.light) :
    attachUniform L t e u = attachUniform L s e u := by
  simp only [attachUniform, hC, hP, hL]

theorem renderEntity_congr (L : Lib F) (s t : Renderer F) (reflection : Bool) (e : Entity F)
    (hS : t.shaderBuffer = s.shaderBuffer) (hM : t.renderMode = s.renderMode)
    (hR : t.reflectionCubemap = s.reflectionCubemap)
    (hC : cameraAt t t.defaultCamera = cameraAt s s.defaultCamera)
    (hP : projectionAt t t.defaultCamera = projectionAt s s.defaultCamera)
    (hL : t.light = s.light) :
    renderEntity L t reflection e = renderEntity L s reflection e := by
  have hu : attachUniform L t e = attachUniform L s e :=
    funext (fun u => attachUniform_congr L s t e u hC hP hL)
  simp only [renderEntity, attachUniforms, shaderAt, hS, hM, hR, hu]

theorem renderEntities_congr (L : Lib F) (s t : Renderer F) (reflection : Bool)
    (hE : t.entityBuffer = s.entityBuffer)
    (hS : t.shaderBuffer = s.shaderBuffer) (hM : t.renderMode = s.renderMode)
    (hR : t.reflectionCubemap = s.reflectionCubemap)
    (hC : cameraAt t t.defaultCamera = cameraAt s s.defaultCamera)
    (hP : projectionAt t t.defaultCamera = projectionAt s s.defaultCamera)
    (hL : t.light = s.light) :
    renderEntities L t reflection = renderEntities L s reflection := by
  have hb : renderEntity L t reflection = renderEntity L s reflection :=
    funext (fun e => renderEntity_congr L s t reflection e hS hM hR hC hP hL)
  simp only [renderEntities, hE, hb]

theorem attachUniform_eq_uniformUpload (L : Lib F) (s : Renderer F) (e : Entity F)
    (u : Uniform) : attachUniform L s e u = (uniformUpload L s e u).toList := by
  unfold attachUniform uniformUpload uniformTable
  by_cases h1 : u.name = "modelMatrix"
  · simp [h1, List.lookup]
  by_cases h2 : u.name = "viewMatrix"
  · by_cases hn : e.name = "skybox" <;> simp [h2, hn, List.lookup]
  by_cases h3 : u.name = "projectionMatrix"
  · simp [h3, List.lookup]
  by_cases h4 : u.name = "lightPosition"
  · simp [h4, List.lookup]
  by_cases h5 : u.name = "eyePosition"
  · simp [h5, List.lookup]
  have b1 : (u.name == "modelMatrix") = false := by simpa using h1
  have b2 : (u.name == "viewMatrix") = false := by simpa using h2
  have b3 : (u.name == "projectionMatrix") = false := by simpa using h3
  have b4 : (u.name == "lightPosition") = false := by simpa using h4
  have b5 : (u.name == "eyePosition") = false := by simpa using h5
  simp [h1, h2, h3, h4, h5, b1, b2, b3, b4, b5, List.lookup]

theorem flatMap_toList_eq_filterMap {α β : Type} (f : α → Option β) (l : List α) :
    l.flatMap (fun a => (f a).toList) = l.filterMap f := by
  induction l with
  | nil => rfl
  | cons a l ih =>
    rw [List.flatMap_cons, ih, List.filterMap_cons]
    cases f a <;> rfl

theorem attachUniform_length (L : Lib F) (s : Renderer F) (e : Entity F) (u : Uniform) :
    (attachUniform L s e u).length
      = if u.name ∈ ["modelMatrix", "viewMatrix", "projectionMatrix", "lightPosition",
          "eyePosition"] then 1 else 0 := by
  unfold attachUniform
  by_cases h1 : u.name = "modelMatrix"
  · simp [h1]
  by_cases h2 : u.name = "viewMatrix"
  · by_cases hn : e.name = "skybox" <;> simp [h2, hn]
  by_cases h3 : u.name = "projectionMatrix"
  · simp [h3]
  by_cases h4 : u.name = "lightPosition"
  · simp [h4]
  by_cases h5 : u.name = "eyePosition"
  · simp [h5]
  simp [h1, h2, h3, h4, h5]

omit [LinearOrderedField F] in
theorem linkLayout_eq_table (e : Entity F) (l : String) :
    linkLayout e l = (((layoutTable e).lookup l).map bindStream).getD [] := by
  unfold linkLayout layoutTable bindStream
  by_cases h1 : l = "vertex"
  · simp [h1, List.lookup]
  by_cases h2 : l = "uv"
  · simp [h2, List.lookup]
  by_cases h3 : l = "color"
  · simp [h3, List.lookup]
  by_cases h4 : l = "normal"
  · simp [h4, List.lookup]
  have b1 : (l == "vertex") = false := by simpa using h1
  have b2 : (l == "uv") = false := by simpa using h2
  have b3 : (l == "color") = false := by simpa using h3
  have b4 : (l == "normal") = false := by simpa using h4
  simp [h1, h2, h3, h4, b1, b2, b3, b4, List.lookup]

theorem attachUniforms_filter_isCubemapBind (L : Lib F) (s : Renderer F) (e : Entity F)
    (us : List Uniform) (k : Nat) :
    (attachUniforms L s e us).filter (Call.isCubemapBind k) = [] :=
  filter_eq_nil_of_all _ _ _ (attachUniforms_isSetupCall L s e us)
    (fun c h => by cases c <;> simp_all [Call.isSetupCall, Call.isCubemapBind])

omit [LinearOrderedField F] in
theorem linkLayouts_filter_isCubemapBind (e : Entity F) (ls : List String) (k : Nat) :
    (linkLayouts e ls : List (Call F)).filter (Call.isCubemapBind k) = [] :=
  filter_eq_nil_of_all _ _ _ (linkLayouts_isSetupCall e ls)
    (fun c h => by cases c <;> simp_all [Call.isSetupCall, Call.isCubemapBind])

/-- The binds of the reflection cubemap in one loop iteration of `renderEntities`, for an
entity whose own texture is another texture. -/
theorem renderEntity_filter_isCubemapBind (L : Lib F) (s : Renderer F) (reflection : Bool)
    (e : Entity F) (hown : e.texture ≠ s.reflectionCubemap) :
    (renderEntity L s reflection e).filter (Call.isCubemapBind s.reflectionCubemap)
      = if reflection = false ∧ (e.name = "man" ∨ e.name = "monkey") then
          [Call.glBindTexture GL_TEXTURE_CUBE_MAP s.reflectionCubemap]
        else [] := by
  have hown' : ∀ t : Nat, ([Call.glBindTexture t e.texture] : List (Call F)).filter
      (Call.isCubemapBind s.reflectionCubemap) = [] := by
    intro t
    simp [Call.isCubemapBind, hown]
  unfold renderEntity drawSwitch
  cases reflection <;> cases hm : s.renderMode <;> split_ifs <;>
    simp_all [List.filter_append, attachUniforms_filter_isCubemapBind,
      linkLayouts_filter_isCubemapBind, Call.isCubemapBind]

theorem drawBoundingBox_draws (L : Lib F) (s : Renderer F) (b : Bounds F) (color : Vec3 F) :
    ((drawBoundingBox L s b color).filter Call.isDraw).length = 1 := by
  simp [drawBoundingBox, Call.isDraw]

theorem drawBoundingSphere_draws (L : Lib F) (s : Renderer F) (r : F)
    (center color : Vec3 F) :
    ((drawBoundingSphere L s r center color).filter Call.isDraw).length = 1 := by
  simp [drawBoundingSphere, Call.isDraw]

theorem drawAABB3Branch_draws (L : Lib F) (s : Renderer F) (e : Entity F) :
    ((drawAABB3Branch L s e).filter Call.isDraw).length = 1 := by
  simp [drawAABB3Branch, Call.isDraw]

/-- One loop iteration of `displayBoundingBox` holds one draw call per toggle that is set. -/
theorem displayEntity_draws (L : Lib F) (s : Renderer F) (e : Entity F) :
    ((displayEntity L s e).filter Call.isDraw).length = enabledToggles s := by
  simp only [displayEntity, enabledToggles, List.filter_append, List.length_append,
    apply_ite (fun l : List (Call F) => (List.filter Call.isDraw l).length),
    drawBoundingBox_draws, drawBoundingSphere_draws, drawAABB3Branch_draws,
    List.filter_nil, List.length_nil]
  generalize s.drawOBB = b1
  generalize s.drawAABB1 = b2
  generalize s.drawAABB2 = b3
  generalize s.drawAABB3 = b4
  generalize s.drawAABB4 = b5
  generalize s.drawBS = b6
  generalize s.drawBS2 = b7
  generalize s.drawBS3 = b8
  cases b1 <;> cases b2 <;> cases b3 <;> cases b4 <;> cases b5 <;> cases b6 <;> cases b7 <;>
    cases b8 <;> rfl

/-- What `render` leaves of the buffers and of the active-camera index: the entity, shader
and camera buffers as they were, the projection buffer at its length, the index 0 or
untouched. -/
theorem render_buffers (L : Lib F) (s : Renderer F) :
    (render L s).1.entityBuffer = s.entityBuffer
      ∧ (render L s).1.shaderBuffer = s.shaderBuffer
      ∧ (render L s).1.cameraBuffer = s.cameraBuffer
      ∧ (render L s).1.projectionBuffer.length = s.projectionBuffer.length
      ∧ ((render L s).1.defaultCamera = 0
          ∨ (render L s).1.defaultCamera = s.defaultCamera) := by
  cases hu : s.updateResolution <;> cases hd : s.doReflection <;>
    simp [render, hu, hd, resizeScreen, renderReflectionCubemap_state]

/-! ### Binary rounding -/

theorem log2Fuel_spec : ∀ (fuel n : Nat), 0 < n → n ≤ fuel →
    2 ^ log2Fuel fuel n ≤ n ∧ n < 2 ^ (log2Fuel fuel n + 1) := by
  intro fuel
  induction fuel with
  | zero => intro n h1 h2; omega
  | succ f ih =>
    intro n h1 h2
    by_cases hn : n < 2
    · have : n = 1 := by omega
      subst this
      simp [log2Fuel]
    · have h3 := ih (n / 2) (by omega) (by omega)
      simp only [log2Fuel, hn, if_false]
      rw [pow_succ, pow_succ]
      constructor
      · have := h3.1; omega
      · have := h3.2; rw [pow_succ] at this; omega

theorem floorLog2_spec (n : Nat) (h : 0 < n) :
    2 ^ floorLog2 n ≤ n ∧ n < 2 ^ (floorLog2 n + 1) :=
  log2Fuel_spec n n h le_rfl

theorem binade_spec (q : ℚ) (hq : q ≠ 0) :
    (2 : ℚ) ^ binade q ≤ |q| ∧ |q| < (2 : ℚ) ^ (binade q + 1) := by
  have hA : 0 < q.num.natAbs := Int.natAbs_pos.mpr (Rat.num_ne_zero.mpr hq)
  have hD : 0 < q.den := q.den_pos
  obtain ⟨a1, a2⟩ := floorLog2_spec _ hA
  obtain ⟨d1, d2⟩ := floorLog2_spec _ hD
  have habs : |q| = (q.num.natAbs : ℚ) / (q.den : ℚ) := by
    conv_lhs => rw [← Rat.num_div_den q]
    rw [abs_div, Nat.abs_cast, Nat.cast_natAbs, Int.cast_abs]
  have a1q : (2 : ℚ) ^ (floorLog2 q.num.natAbs) ≤ (q.num.natAbs : ℚ) := by exact_mod_cast a1
  have a2q : (q.num.natAbs : ℚ) < (2 : ℚ) ^ (floorLog2 q.num.natAbs + 1) := by exact_mod_cast a2
  have d1q : (2 : ℚ) ^ (floorLog2 q.den) ≤ (q.den : ℚ) := by exact_mod_cast d1
  have d2q : (q.den : ℚ) < (2 : ℚ) ^ (floorLog2 q.den + 1) := by exact_mod_cast d2
  have hDq : (0 : ℚ) < q.den := by exact_mod_cast hD
  have two : (2 : ℚ) ≠ 0 := by norm_num
  have hup : |q| < (2 : ℚ) ^ ((floorLog2 q.num.natAbs : ℤ) - (floorLog2 q.den : ℤ) + 1) := by
    rw [habs, div_lt_iff₀ hDq]
    calc (q.num.natAbs : ℚ) < (2 : ℚ) ^ (floorLog2 q.num.natAbs + 1) := a2q
      _ = (2 : ℚ) ^ ((floorLog2 q.num.natAbs : ℤ) - (floorLog2 q.den : ℤ) + 1)
            * (2 : ℚ) ^ (floorLog2 q.den) := by
          rw [← zpow_natCast, ← zpow_natCast, ← zpow_add₀ two]
          congr 1; push_cast; ring
      _ ≤ _ := by
          apply mul_le_mul_of_nonneg_left d1q
          positivity
  have hlo : (2 : ℚ) ^ ((floorLog2 q.num.natAbs : ℤ) - (floorLog2 q.den : ℤ) - 1) ≤ |q| := by
    rw [habs, le_div_iff₀ hDq]
    calc (2 : ℚ) ^ ((floorLog2 q.num.natAbs : ℤ) - (floorLog2 q.den : ℤ) - 1) * (q.den : ℚ)
        ≤ (2 : ℚ) ^ ((floorLog2 q.num.natAbs : ℤ) - (floorLog2 q.den : ℤ) - 1)
            * (2 : ℚ) ^ (floorLog2 q.den + 1) := by
          apply mul_le_mul_of_nonneg_left d2q.le
          positivity
      _ = (2 : ℚ) ^ (floorLog2 q.num.natAbs) := by
          rw [← zpow_natCast, ← zpow_natCast, ← zpow_add₀ two]
          congr 1; push_cast; ring
      _ ≤ _ := a1q
  unfold binade
  split_ifs with h
  · exact ⟨h, hup⟩
  · refine ⟨hlo, ?_⟩
    rw [sub_add_cancel]
    exact lt_of_not_le h

theorem roundHalfEven_bounds (q : ℚ) : ⌊q⌋ ≤ roundHalfEven q ∧ roundHalfEven q ≤ ⌊q⌋ + 1 := by
  unfold roundHalfEven
  split_ifs <;> constructor <;> omega

theorem roundHalfEven_intCast (n : ℤ) : roundHalfEven (n : ℚ) = n := by
  unfold roundHalfEven
  simp

theorem roundHalfEven_mono {x y : ℚ} (h : x ≤ y) : roundHalfEven x ≤ roundHalfEven y := by
  have hf : ⌊x⌋ ≤ ⌊y⌋ := Int.floor_le_floor h
  rcases lt_or_eq_of_le hf with hlt | heq
  · calc roundHalfEven x ≤ ⌊x⌋ + 1 := (roundHalfEven_bounds x).2
      _ ≤ ⌊y⌋ := hlt
      _ ≤ roundHalfEven y := (roundHalfEven_bounds y).1
  · unfold roundHalfEven
    rw [heq]
    have hxy : x - (⌊y⌋ : ℚ) ≤ y - (⌊y⌋ : ℚ) := by linarith
    split_ifs <;> first | omega | (exfalso; linarith)

theorem roundBinary_mono (m : Nat) {a b : ℚ} (ha : 0 ≤ a) (hab : a ≤ b) :
    roundBinary m a ≤ roundBinary m b := by
  have two : (2 : ℚ) ≠ 0 := by norm_num
  have hpos : ∀ z : ℤ, (0 : ℚ) < (2 : ℚ) ^ z := fun z => by positivity
  -- the value of a positive number is at least the bottom of its binade
  have hlow : ∀ x : ℚ, 0 < x → (2 : ℚ) ^ binade x ≤ roundBinary m x := by
    intro x hx
    have hx0 : x ≠ 0 := ne_of_gt hx
    obtain ⟨s1, _⟩ := binade_spec x hx0
    rw [abs_of_pos hx] at s1
    simp only [roundBinary, hx0, if_false]
    have h1 : ((2 ^ m : ℤ) : ℚ) ≤ x / (2 : ℚ) ^ (binade x - (m : ℤ)) := by
      rw [le_div_iff₀ (hpos _)]
      push_cast
      rw [← zpow_natCast, ← zpow_add₀ two]
      simpa using s1
    have h2 := roundHalfEven_mono h1
    rw [roundHalfEven_intCast] at h2
    have h3 : ((2 ^ m : ℤ) : ℚ) ≤ (roundHalfEven (x / (2 : ℚ) ^ (binade x - (m : ℤ))) : ℚ) := by
      exact_mod_cast h2
    calc (2 : ℚ) ^ binade x = ((2 ^ m : ℤ) : ℚ) * (2 : ℚ) ^ (binade x - (m : ℤ)) := by
          push_cast
          rw [← zpow_natCast, ← zpow_add₀ two]
          congr 1; ring
      _ ≤ _ := mul_le_mul_of_nonneg_right h3 (hpos _).le
  have hhigh : ∀ x : ℚ, 0 < x → roundBinary m x ≤ (2 : ℚ) ^ (binade x + 1) := by
    intro x hx
    have hx0 : x ≠ 0 := ne_of_gt hx
    obtain ⟨_, s2⟩ := binade_spec x hx0
    rw [abs_of_pos hx] at s2
    simp only [roundBinary, hx0, if_false]
    have h1 : x / (2 : ℚ) ^ (binade x - (m : ℤ)) ≤ ((2 ^ (m + 1) : ℤ) : ℚ) := by
      rw [div_le_iff₀ (hpos _)]
      push_cast
      rw [← zpow_natCast, ← zpow_add₀ two]
      have : ((m + 1 : ℕ) : ℤ) + (binade x - (m : ℤ)) = binade x + 1 := by push_cast; ring
      rw [this]
      exact s2.le
    have h2 := roundHalfEven_mono h1
    rw [roundHalfEven_intCast] at h2
    have h3 : (roundHalfEven (x / (2 : ℚ) ^ (binade x - (m : ℤ))) : ℚ) ≤ ((2 ^ (m + 1) : ℤ) : ℚ) := by
      exact_mod_cast h2
    calc _ ≤ ((2 ^ (m + 1) : ℤ) : ℚ) * (2 : ℚ) ^ (binade x - (m : ℤ)) :=
          mul_le_mul_of_nonneg_right h3 (hpos _).le
      _ = (2 : ℚ) ^ (binade x + 1) := by
          push_cast
          rw [← zpow_natCast, ← zpow_add₀ two]
          congr 1; push_cast; ring
  rcases eq_or_lt_of_le ha with ha0 | ha0
  · rw [← ha0]
    rcases eq_or_lt_of_le (ha0 ▸ hab : (0 : ℚ) ≤ b) with hb0 | hb0
    · rw [← hb0]
    · have := hlow b hb0
      have h0 : roundBinary m 0 = 0 := by simp [roundBinary]
      rw [h0]
      exact le_trans (hpos _).le this
  · have hb0 : 0 < b := lt_of_lt_of_le ha0 hab
    obtain ⟨sa1, sa2⟩ := binade_spec a (ne_of_gt ha0)
    obtain ⟨sb1, sb2⟩ := binade_spec b (ne_of_gt hb0)
    rw [abs_of_pos ha0] at sa1 sa2
    rw [abs_of_pos hb0] at sb1 sb2
    have hle : binade a ≤ binade b := by
      have : (2 : ℚ) ^ binade a < (2 : ℚ) ^ (binade b + 1) :=
        lt_of_le_of_lt sa1 (lt_of_le_of_lt hab sb2)
      have := (zpow_lt_zpow_iff_right₀ (by norm_num : (1 : ℚ) < 2)).mp this
      omega
    rcases eq_or_lt_of_le hle with heq | hlt
    · simp only [roundBinary, ne_of_gt ha0, ne_of_gt hb0, if_false, heq]
      apply mul_le_mul_of_nonneg_right _ (hpos _).le
      have : a / (2 : ℚ) ^ (binade b - (m : ℤ)) ≤ b / (2 : ℚ) ^ (binade b - (m : ℤ)) :=
        div_le_div_of_nonneg_right hab (hpos _).le
      exact_mod_cast roundHalfEven_mono this
    · calc roundBinary m a ≤ (2 : ℚ) ^ (binade a + 1) := hhigh a ha0
        _ ≤ (2 : ℚ) ^ binade b :=
            zpow_le_zpow_right₀ (by norm_num) (by omega)
        _ ≤ roundBinary m b := hlow b hb0

theorem roundBinary_nonneg (m : Nat) {x : ℚ} (hx : 0 ≤ x) : 0 ≤ roundBinary m x := by
  have h := roundBinary_mono m le_rfl hx
  have hz : roundBinary m 0 = 0 := by simp [roundBinary]
  rwa [hz] at h

/-! ### The loops of `createSphere` -/

/-- With 100 sides the loop variable passes the bound after exactly 100 iterations. -/
theorem loopCounters_hundred : (loopCounters 100 101 0).map List.length = some 100 := by
  decide!

/-- With 6 sides the loop variable is still below the bound after 6 iterations: the loop runs
7 times. -/
theorem loopCounters_six : (loopCounters 6 8 0).map List.length = some 7 := by
  decide!

/-- With 100000000 sides the loop variable never gets beyond 2: from a value between 0 and 2
the next value is between 0 and 2 again. -/
theorem nextCounter_le_two (i : ℚ) (h0 : 0 ≤ i) (h2 : i ≤ 2) :
    ∃ j, nextCounter 100000000 i = some j ∧ 0 ≤ j ∧ j ≤ 2 := by
  have hs : (0 : ℚ) ≤ toDouble (sphereTwoPi / toFloat ((100000000 : Int) : ℚ)) := by decide!
  refine ⟨toFloat (toDouble (i + toDouble (sphereTwoPi / toFloat ((100000000 : Int) : ℚ)))),
    ?_, ?_, ?_⟩
  · simp [nextCounter]
  · exact roundBinary_nonneg 23 (roundBinary_nonneg 52 (add_nonneg h0 hs))
  · have h : toFloat (toDouble (i + toDouble (sphereTwoPi / toFloat ((100000000 : Int) : ℚ))))
        ≤ toFloat (toDouble (2 + toDouble (sphereTwoPi / toFloat ((100000000 : Int) : ℚ)))) :=
      roundBinary_mono 23 (roundBinary_nonneg 52 (add_nonneg h0 hs))
        (roundBinary_mono 52 (add_nonneg h0 hs)
          (add_le_add_right h2 (toDouble (sphereTwoPi / toFloat ((100000000 : Int) : ℚ)))))
    have hz : toFloat (toDouble
        (2 + toDouble (sphereTwoPi / toFloat ((100000000 : Int) : ℚ)))) = 2 := by decide!
    rwa [hz] at h

/-- With 100000000 sides a loop of `createSphere` entered with the loop variable between 0
and 2 has not left after any number of iterations. -/
theorem loopCounters_stuck : ∀ (fuel : Nat) (i : ℚ), 0 ≤ i → i ≤ 2 →
    loopCounters 100000000 fuel i = none := by
  intro fuel
  induction fuel with
  | zero => intro i _ _; rfl
  | succ f ih =>
    intro i h0 h2
    obtain ⟨j, hj, hj0, hj2⟩ := nextCounter_le_two i h0 h2
    have hb : i < sphereTwoPi := lt_of_le_of_lt h2 (by decide!)
    simp only [loopCounters, hb, if_true, hj, ih j hj0 hj2, Option.map_none']

/-- More fuel does not change the result of a loop that has left. -/
theorem loopCounters_fuel (sides : Int) : ∀ (fuel fuel2 : Nat) (i : ℚ) (cs : List ℚ),
    loopCounters sides fuel i = some cs → fuel ≤ fuel2 →
    loopCounters sides fuel2 i = some cs := by
  intro fuel
  induction fuel with
  | zero => intro fuel2 i cs h; simp [loopCounters] at h
  | succ f ih =>
    intro fuel2 i cs h hle
    obtain ⟨g, rfl⟩ : ∃ g, fuel2 = g + 1 := ⟨fuel2 - 1, by omega⟩
    simp only [loopCounters] at h ⊢
    split_ifs at h ⊢ with hb
    · cases hn : nextCounter sides i with
      | none => rw [hn] at h; simpa using h
      | some j =>
        rw [hn] at h
        simp only [Option.map_eq_some'] at h ⊢
        obtain ⟨l, hl, rfl⟩ := h
        exact ⟨l, ih g j l hl (by omega), rfl⟩
    · exact h

/-- A loop entered with the loop variable below the bound runs at least once. -/
theorem loopCounters_ne_nil (sides : Int) (fuel : Nat) (i : ℚ) (cs : List ℚ)
    (h : loopCounters sides fuel i = some cs) (hi : i < sphereTwoPi) : cs ≠ [] := by
  cases fuel with
  | zero => simp [loopCounters] at h
  | succ f =>
    simp only [loopCounters, hi, if_true] at h
    cases hn : nextCounter sides i with
    | none => rw [hn] at h; simp at h; rw [← h]; simp
    | some j =>
      rw [hn] at h
      simp only [Option.map_eq_some'] at h
      obtain ⟨l, _, rfl⟩ := h
      simp

/-- A positive number that is an integer multiple of the unit of its binary exponent is its
own rounding. -/
theorem roundBinary_exact (m : Nat) (q : ℚ) (hq : 0 < q) (z : ℤ)
    (hz : q / (2 : ℚ) ^ (binade q - (m : ℤ)) = (z : ℚ)) : roundBinary m q = q := by
  have hpos : (0 : ℚ) < (2 : ℚ) ^ (binade q - (m : ℤ)) := by positivity
  simp only [roundBinary, ne_of_gt hq, if_false]
  rw [hz, roundHalfEven_intCast, ← hz, div_mul_cancel₀ _ (ne_of_gt hpos)]

/-- The multiples of `2 ^ (-21)` below 8 are binary numbers with 23 or more fraction bits. -/
theorem roundBinary_grid (m : Nat) (hm : 23 ≤ m) (k : Nat) (hk : 0 < k)
    (h8 : (k : ℚ) * (2 : ℚ) ^ (-21 : ℤ) < 8) :
    roundBinary m ((k : ℚ) * (2 : ℚ) ^ (-21 : ℤ)) = (k : ℚ) * (2 : ℚ) ^ (-21 : ℤ) := by
  have two : (2 : ℚ) ≠ 0 := by norm_num
  have hq : (0 : ℚ) < (k : ℚ) * (2 : ℚ) ^ (-21 : ℤ) := by
    have : (0 : ℚ) < (k : ℚ) := by exact_mod_cast hk
    positivity
  obtain ⟨s1, _⟩ := binade_spec _ (ne_of_gt hq)
  rw [abs_of_pos hq] at s1
  have he : binade ((k : ℚ) * (2 : ℚ) ^ (-21 : ℤ)) < 3 := by
    have h : (2 : ℚ) ^ binade ((k : ℚ) * (2 : ℚ) ^ (-21 : ℤ)) < (2 : ℚ) ^ (3 : ℤ) := by
      refine lt_of_le_of_lt s1 (lt_of_lt_of_le h8 ?_)
      norm_num
    exact (zpow_lt_zpow_iff_right₀ (by norm_num : (1 : ℚ) < 2)).mp h
  obtain ⟨n, hn⟩ := Int.eq_ofNat_of_zero_le
    (show (0 : ℤ) ≤ (m : ℤ) - binade ((k : ℚ) * (2 : ℚ) ^ (-21 : ℤ)) - 21 by omega)
  apply roundBinary_exact m _ hq ((k : ℤ) * 2 ^ n)
  rw [div_eq_mul_inv, ← zpow_neg, mul_assoc, ← zpow_add₀ two]
  have : (-21 : ℤ) + -(binade ((k : ℚ) * (2 : ℚ) ^ (-21 : ℤ)) - (m : ℤ)) = (n : ℤ) := by
    rw [← hn]; ring
  rw [this, zpow_natCast]
  push_cast
  ring

/-- When the step is at least `2 ^ (-20)`, an iteration entered with the loop variable
between 0 and 7 raises it by more than `2 ^ (-21)`: there is a multiple of `2 ^ (-21)`, which
is a binary32 number, between the two. -/
theorem nextCounter_progress (sides : Int) (hs : sides ≠ 0)
    (hstep : (2 : ℚ) ^ (-20 : ℤ) ≤ toDouble (sphereTwoPi / toFloat (sides : ℚ)))
    (i : ℚ) (h0 : 0 ≤ i) (h7 : i < 7) :
    ∃ j, nextCounter sides i = some j ∧ i + (2 : ℚ) ^ (-21 : ℤ) < j := by
  refine ⟨toFloat (toDouble (i + toDouble (sphereTwoPi / toFloat (sides : ℚ)))),
    by simp [nextCounter, hs], ?_⟩
  have hg : (0 : ℚ) < (2 : ℚ) ^ (-21 : ℤ) := by positivity
  have hfl := Nat.floor_le (div_nonneg h0 hg.le)
  have hfl2 := Nat.lt_floor_add_one (i / (2 : ℚ) ^ (-21 : ℤ))
  rw [le_div_iff₀ hg] at hfl
  rw [div_lt_iff₀ hg] at hfl2
  have hgrid : ((⌊i / (2 : ℚ) ^ (-21 : ℤ)⌋₊ + 2 : ℕ) : ℚ) * (2 : ℚ) ^ (-21 : ℤ)
      = (⌊i / (2 : ℚ) ^ (-21 : ℤ)⌋₊ : ℚ) * (2 : ℚ) ^ (-21 : ℤ) + 2 * (2 : ℚ) ^ (-21 : ℤ) := by
    push_cast; ring
  have h20 : (2 : ℚ) ^ (-20 : ℤ) = 2 * (2 : ℚ) ^ (-21 : ℤ) := by norm_num
  have hlt : i + (2 : ℚ) ^ (-21 : ℤ)
      < ((⌊i / (2 : ℚ) ^ (-21 : ℤ)⌋₊ + 2 : ℕ) : ℚ) * (2 : ℚ) ^ (-21 : ℤ) := by
    rw [hgrid]
    have : ((⌊i / (2 : ℚ) ^ (-21 : ℤ)⌋₊ : ℚ) + 1) * (2 : ℚ) ^ (-21 : ℤ)
        = (⌊i / (2 : ℚ) ^ (-21 : ℤ)⌋₊ : ℚ) * (2 : ℚ) ^ (-21 : ℤ) + (2 : ℚ) ^ (-21 : ℤ) := by
      ring
    linarith
  have hle : ((⌊i / (2 : ℚ) ^ (-21 : ℤ)⌋₊ + 2 : ℕ) : ℚ) * (2 : ℚ) ^ (-21 : ℤ)
      ≤ i + toDouble (sphereTwoPi / toFloat (sides : ℚ)) := by
    rw [hgrid]
    linarith
  have h8 : ((⌊i / (2 : ℚ) ^ (-21 : ℤ)⌋₊ + 2 : ℕ) : ℚ) * (2 : ℚ) ^ (-21 : ℤ) < 8 := by
    rw [hgrid]
    have : 2 * (2 : ℚ) ^ (-21 : ℤ) < 1 := by norm_num
    linarith
  have hpos : (0 : ℚ)
      ≤ ((⌊i / (2 : ℚ) ^ (-21 : ℤ)⌋₊ + 2 : ℕ) : ℚ) * (2 : ℚ) ^ (-21 : ℤ) := by positivity
  have e1 := roundBinary_grid 52 (by decide) _ (Nat.succ_pos _) h8
  have e2 := roundBinary_grid 23 (by decide) _ (Nat.succ_pos _) h8
  have m1 := roundBinary_mono 52 hpos hle
  rw [e1] at m1
  have m2 := roundBinary_mono 23 hpos m1
  rw [e2] at m2
  exact lt_of_lt_of_le hlt m2

/-- For a segment count from 1 to 6000000 the step of the loop variable is at least
`2 ^ (-20)`. -/
theorem step_ge (sides : Int) (h1 : 0 < sides) (h2 : sides ≤ 6000000) :
    (2 : ℚ) ^ (-20 : ℤ) ≤ toDouble (sphereTwoPi / toFloat (sides : ℚ)) := by
  have hs1 : (1 : ℚ) ≤ (sides : ℚ) := by exact_mod_cast h1
  have hs2 : (sides : ℚ) ≤ 6000000 := by exact_mod_cast h2
  have f1 : toFloat 1 ≤ toFloat (sides : ℚ) := roundBinary_mono 23 zero_le_one hs1
  have f2 : toFloat (sides : ℚ) ≤ toFloat 6000000 :=
    roundBinary_mono 23 (le_trans zero_le_one hs1) hs2
  have e1 : toFloat 1 = 1 := by decide!
  have e2 : toFloat 6000000 = 6000000 := by decide!
  rw [e1] at f1
  rw [e2] at f2
  have hB : (0 : ℚ) ≤ sphereTwoPi := by decide!
  have hq : sphereTwoPi / 6000000 ≤ sphereTwoPi / toFloat (sides : ℚ) :=
    div_le_div_of_nonneg_left hB (lt_of_lt_of_le zero_lt_one f1) f2
  have hd := roundBinary_mono 52 (div_nonneg hB (by norm_num)) hq
  refine le_trans ?_ hd
  decide!

/-- When the step is at least `2 ^ (-20)`, a loop of `createSphere` entered with the loop
variable at `i >= 0` has left after at most `n` iterations, where `n` is the number of
multiples of `2 ^ (-21)` that fit between `i` and `2 * pi`. -/
theorem loopCounters_terminates (sides : Int) (hs : sides ≠ 0)
    (hstep : (2 : ℚ) ^ (-20 : ℤ) ≤ toDouble (sphereTwoPi / toFloat (sides : ℚ))) :
    ∀ (n : Nat) (i : ℚ), 0 ≤ i → sphereTwoPi - i ≤ (n : ℚ) * (2 : ℚ) ^ (-21 : ℤ) →
      ∃ cs, loopCounters sides (n + 1) i = some cs := by
  have hB7 : sphereTwoPi < 7 := by decide!
  intro n
  induction n with
  | zero =>
    intro i _ hi
    have : ¬ i < sphereTwoPi := by
      simp only [Nat.cast_zero, zero_mul] at hi
      linarith
    exact ⟨[], by simp [loopCounters, this]⟩
  | succ n ih =>
    intro i h0 hi
    by_cases hb : i < sphereTwoPi
    · obtain ⟨j, hj, hlt⟩ := nextCounter_progress sides hs hstep i h0 (lt_trans hb hB7)
      have hg : (0 : ℚ) < (2 : ℚ) ^ (-21 : ℤ) := by positivity
      obtain ⟨cs, hcs⟩ := ih j (by linarith) (by push_cast at hi; linarith)
      have hstep1 : loopCounters sides (n + 1 + 1) i
          = (loopCounters sides (n + 1) j).map (fun cs => i :: cs) := by
        rw [loopCounters, if_pos hb, hj]
      exact ⟨i :: cs, by rw [hstep1, hcs]; rfl⟩
    · exact ⟨[], by simp [loopCounters, hb]⟩

/-- For a segment count from 1 to 6000000 every loop of `createSphere` has left after at
most 13176796 iterations. -/
theorem loopCounters_returns (sides : Int) (h1 : 0 < sides) (h2 : sides ≤ 6000000) :
    ∃ cs, loopCounters sides 13176797 0 = some cs :=
  loopCounters_terminates sides (ne_of_gt h1) (step_ge sides h1 h2) 13176796 0 le_rfl
    (by decide!)

omit [LinearOrderedField F] in
theorem flattenPoints_append (xs ys : List (Vec3 F)) :
    flattenPoints (xs ++ ys) = flattenPoints xs ++ flattenPoints ys := by
  simp [flattenPoints]

omit [LinearOrderedField F] in
theorem flattenPoints_length (pts : List (Vec3 F)) :
    (flattenPoints pts).length = 3 * pts.length := by
  induction pts with
  | nil => rfl
  | cons p pts ih =>
    simp only [flattenPoints, List.flatMap_cons, List.length_append, List.length_cons,
      List.length_nil] at ih ⊢
    omega

/-- A loop of `createSphere` pushes the points `loopPoints` of its sequence of loop-variable
values and leaves `loopLast` in `tmp`; it has left within the fuel exactly when the sequence
is complete within the fuel. -/
theorem circleLoop_eq (point : F → Vec3 F) (center : Vec3 F) (sides : Int) :
    ∀ (fuel : Nat) (i : ℚ) (tmp : Vec3 F) (data : List F),
      circleLoop point center sides fuel i tmp data
        = (loopCounters sides fuel i).map (fun cs =>
            (loopLast point center cs tmp,
              data ++ flattenPoints (loopPoints point center cs tmp))) := by
  intro fuel
  induction fuel with
  | zero => intro i tmp data; rfl
  | succ f ih =>
    intro i tmp data
    simp only [circleLoop, loopCounters]
    split_ifs with hb
    · cases hn : nextCounter sides i with
      | none => simp [loopLast, loopPoints, flattenPoints]
      | some j =>
        simp only [ih, Option.map_map]
        congr 1
        funext cs
        simp [loopLast, loopPoints, flattenPoints]
    · simp [loopLast, loopPoints, flattenPoints]

/-- The output of `createSphere` is the input followed by the floats of its three polylines,
which share the sequence of loop-variable values. -/
theorem createSphere_eq (fuel : Nat) (L : Lib F) (center : Vec3 F) (dist : F) (sides : Int)
    (data : List F) :
    createSphere fuel L center dist sides data
      = (loopCounters sides fuel 0).map (fun cs =>
          data
          ++ flattenPoints (polyline (fun i => ⟨dist * L.cos i, dist * L.sin i, 0⟩) center
              (Vec3.add ⟨dist, 0, 0⟩ center) cs)
          ++ flattenPoints (polyline (fun i => ⟨0, dist * L.sin i, dist * L.cos i⟩) center
              (Vec3.add ⟨0, 0, dist⟩ center) cs)
          ++ flattenPoints (polyline (fun i => ⟨dist * L.sin i, 0, dist * L.cos i⟩) center
              (Vec3.add ⟨0, 0, dist⟩ center) cs)) := by
  simp only [createSphere, circleLoop_eq]
  cases loopCounters sides fuel 0 with
  | none => rfl
  | some cs => simp [polyline, flattenPoints_append, flattenPoints]

/-- Every point of a polyline is its start point or a point `point c + center` for a value
`c` of the loop variable. -/
theorem loopPoints_mem (point : F → Vec3 F) (center : Vec3 F) :
    ∀ (cs : List ℚ) (tmp : Vec3 F),
      (∀ p ∈ loopPoints point center cs tmp,
          p = tmp ∨ ∃ c ∈ cs, p = Vec3.add (point (c : F)) center)
        ∧ (loopLast point center cs tmp = tmp
            ∨ ∃ c ∈ cs, loopLast point center cs tmp = Vec3.add (point (c : F)) center) := by
  intro cs
  induction cs with
  | nil =>
    intro tmp
    exact ⟨fun p hp => by simp [loopPoints] at hp, Or.inl rfl⟩
  | cons c cs ih =>
    intro tmp
    rcases ih (Vec3.add (point (c : F)) center) with ⟨h1, h2⟩
    constructor
    · intro p hp
      simp only [loopPoints, List.mem_cons] at hp
      rcases hp with rfl | rfl | hp
      · exact Or.inl rfl
      · exact Or.inr ⟨c, List.mem_cons_self _ _, rfl⟩
      · rcases h1 p hp with h | ⟨d, hd, h⟩
        · exact Or.inr ⟨c, List.mem_cons_self _ _, h⟩
        · exact Or.inr ⟨d, List.mem_cons_of_mem _ hd, h⟩
    · simp only [loopLast]
      rcases h2 with h | ⟨d, hd, h⟩
      · exact Or.inr ⟨c, List.mem_cons_self _ _, h⟩
      · exact Or.inr ⟨d, List.mem_cons_of_mem _ hd, h⟩

theorem loopPoints_length (point : F → Vec3 F) (center : Vec3 F) :
    ∀ (cs : List ℚ) (tmp : Vec3 F), (loopPoints point center cs tmp).length = 2 * cs.length := by
  intro cs
  induction cs with
  | nil => intro tmp; rfl
  | cons c cs ih =>
    intro tmp
    simp only [loopPoints, List.length_cons, ih]
    omega

theorem polyline_mem (point : F → Vec3 F) (center start : Vec3 F) (cs : List ℚ) :
    ∀ p ∈ polyline point center start cs,
      p = start ∨ ∃ c ∈ cs, p = Vec3.add (point (c : F)) center := by
  intro p hp
  have h := loopPoints_mem point center cs start
  simp only [polyline, List.mem_append, List.mem_cons, List.mem_singleton, List.not_mem_nil,
    or_false] at hp
  rcases hp with hp | rfl | rfl
  · exact h.1 p hp
  · exact h.2
  · exact Or.inl rfl

theorem polyline_length (point : F → Vec3 F) (center start : Vec3 F) (cs : List ℚ) :
    (polyline point center start cs).length = 2 * cs.length + 2 := by
  simp [polyline, loopPoints_length]

theorem polyline_head (point : F → Vec3 F) (center start : Vec3 F) (cs : List ℚ)
    (hs : cs ≠ []) : (polyline point center start cs).head? = some start := by
  cases cs with
  | nil => exact absurd rfl hs
  | cons c cs => simp [polyline, loopPoints]

theorem polyline_getLast (point : F → Vec3 F) (center start : Vec3 F) (cs : List ℚ) :
    (polyline point center start cs).getLast? = some start := by
  simp [polyline]

/-- With 100 sides `createSphere` returns within fuel 101 and appends 1818 floats: three
polylines of 202 points of three floats. -/
theorem createSphere_hundred (L : Lib F) (center : Vec3 F) (dist : F) (data : List F) :
    ∃ out, createSphere 101 L center dist 100 data = some out
      ∧ out.length = data.length + 1818 := by
  have h := loopCounters_hundred
  simp only [Option.map_eq_some'] at h
  obtain ⟨cs, hcs, hlen⟩ := h
  refine ⟨_, by rw [createSphere_eq, hcs]; rfl, ?_⟩
  simp only [List.length_append, flattenPoints_length, polyline_length, hlen]

/-- With 6 sides `createSphere` returns within fuel 8 and appends 144 floats: three polylines
of 16 points of three floats. -/
theorem createSphere_six (L : Lib F) (center : Vec3 F) (dist : F) (data : List F) :
    ∃ out, createSphere 8 L center dist 6 data = some out
      ∧ out.length = data.length + 144 := by
  have h := loopCounters_six
  simp only [Option.map_eq_some'] at h
  obtain ⟨cs, hcs, hlen⟩ := h
  refine ⟨_, by rw [createSphere_eq, hcs]; rfl, ?_⟩
  simp only [List.length_append, flattenPoints_length, polyline_length, hlen]

/-- The array that `drawBoundingSphere` uploads has 1818 floats. -/
theorem createSphere_hundred_length (L : Lib F) (center : Vec3 F) (dist : F) :
    ((createSphere 101 L center dist 100 []).getD []).length = 1818 := by
  obtain ⟨out, hout, hlen⟩ := createSphere_hundred L center dist []
  rw [hout]
  simpa using hlen

/-- For a segment count from 1 to 6000000 `createSphere` returns. -/
theorem createSphere_returns (L : Lib F) (center : Vec3 F) (dist : F) (sides : Int)
    (h1 : 0 < sides) (h2 : sides ≤ 6000000) (data : List F) :
    ∃ out, createSphere 13176797 L center dist sides data = some out := by
  obtain ⟨cs, hcs⟩ := loopCounters_returns sides h1 h2
  exact ⟨_, by rw [createSphere_eq, hcs]; rfl⟩

theorem createCube_length (array : List F) (faces : List (Vec3 F)) :
    (createCube array faces).length = array.length + 72 := by
  simp [createCube, pushSegment]

end Lemmas

/-! ## The claims -/

section Claims

variable {F : Type} [LinearOrderedField F]

/-- C1: the draw calls of `renderEntities(reflection)` are, in list order, exactly one draw
call per entity `e` with `reflection = false` or `e.toReflect = true` (the call
`entityDraw`, whose vertex count is that entity's); every such entity's loop iteration holds
exactly one draw call, and in `renderEntities(true)` the iteration of an entity whose
reflection-eligibility flag is false holds none. -/
theorem C1_renderEntities_draws (L : Lib F) (s : Renderer F) (reflection : Bool) :
    (renderEntities L s reflection).filter Call.isDraw
        = (s.entityBuffer.filter (fun e => !reflection || e.toReflect)).map
            (entityDraw s.renderMode)
      ∧ (∀ e : Entity F, (reflection = false ∨ e.toReflect = true) →
          ((renderEntity L s reflection e).filter Call.isDraw).length = 1)
      ∧ (∀ e : Entity F, e.toReflect = false →
          (renderEntity L s true e).filter Call.isDraw = []) := by
  refine ⟨?_, ?_, ?_⟩
  · unfold renderEntities
    induction s.entityBuffer with
    | nil => rfl
    | cons e l ih =>
      rw [List.flatMap_cons, List.filter_append, ih, renderEntity_filter_isDraw]
      by_cases h : (!reflection || e.toReflect) = true
      · simp [List.filter_cons, h]
      · simp [List.filter_cons, h]
  · intro e h
    rw [renderEntity_filter_isDraw]
    rcases h with h | h <;> simp [h]
  · intro e h
    rw [renderEntity_filter_isDraw]
    simp [h]

/-- C2 (as stated, refuted): in `renderEntities(true)` the loop iteration of the entity "man",
whose reflection-eligibility flag is false, does issue graphics commands, and run from a
state in which attribute slot 0 is enabled it ends in a different state. -/
theorem C2_counterexample :
    (sampleEntity ℚ "man" false 0 GL_TRIANGLES).toReflect = false
      ∧ renderEntity sampleLib (sampleScene ℚ false true) true
            (sampleEntity ℚ "man" false 0 GL_TRIANGLES)
          = [Call.glDisableVertexAttribArray 0, Call.glDisableVertexAttribArray 1,
              Call.glDisableVertexAttribArray 2]
      ∧ sampleGL.attribEnabled 0 = true
      ∧ (sampleGL.run (renderEntity sampleLib (sampleScene ℚ false true) true
            (sampleEntity ℚ "man" false 0 GL_TRIANGLES))).attribEnabled 0 = false
      ∧ sampleGL.run (renderEntity sampleLib (sampleScene ℚ false true) true
            (sampleEntity ℚ "man" false 0 GL_TRIANGLES)) ≠ sampleGL := by
  have h : renderEntity sampleLib (sampleScene ℚ false true) true
      (sampleEntity ℚ "man" false 0 GL_TRIANGLES)
        = [Call.glDisableVertexAttribArray 0, Call.glDisableVertexAttribArray 1,
            Call.glDisableVertexAttribArray 2] := by
    simp [renderEntity, sampleEntity]
  have h0 : (sampleGL.run (renderEntity sampleLib (sampleScene ℚ false true) true
      (sampleEntity ℚ "man" false 0 GL_TRIANGLES))).attribEnabled 0 = false := by
    rw [h]
    simp [GLState.run, GLState.step, sampleGL, Function.update]
  refine ⟨rfl, h, rfl, h0, ?_⟩
  intro hEq
  rw [hEq] at h0
  simp [sampleGL] at h0

/-- C2 (amended): for an entity whose reflection-eligibility flag is false, its loop
iteration in `renderEntities(true)` issues no draw, shader, uniform, texture, buffer or
depth-mask command, only the three closing `glDisableVertexAttribArray(0)`, `(1)`, `(2)`;
so from every entry state the depth mask, the program in use, the bound textures and the
bound buffers are unchanged, slots 0..2 end disabled, the other slots are unchanged, and
the whole graphics state is unchanged when slots 0..2 were disabled on entry. -/
theorem C2_skipped_entity (L : Lib F) (s : Renderer F) (e : Entity F)
    (h : e.toReflect = false) :
    renderEntity L s true e
        = [Call.glDisableVertexAttribArray 0, Call.glDisableVertexAttribArray 1,
            Call.glDisableVertexAttribArray 2]
      ∧ ∀ g : GLState,
          (g.run (renderEntity L s true e)).depthMask = g.depthMask
          ∧ (g.run (renderEntity L s true e)).program = g.program
          ∧ (g.run (renderEntity L s true e)).boundTexture = g.boundTexture
          ∧ (g.run (renderEntity L s true e)).boundBuffer = g.boundBuffer
          ∧ (∀ i, i ≤ 2 → (g.run (renderEntity L s true e)).attribEnabled i = false)
          ∧ (∀ i, 2 < i →
              (g.run (renderEntity L s true e)).attribEnabled i = g.attribEnabled i)
          ∧ (g.attribEnabled 0 = false → g.attribEnabled 1 = false →
              g.attribEnabled 2 = false → g.run (renderEntity L s true e) = g) := by
  have hc : renderEntity L s true e
      = [Call.glDisableVertexAttribArray 0, Call.glDisableVertexAttribArray 1,
          Call.glDisableVertexAttribArray 2] := by
    simp [renderEntity, h]
  refine ⟨hc, fun g => ?_⟩
  rw [hc]
  refine ⟨rfl, rfl, rfl, rfl, ?_, ?_, ?_⟩
  · intro i hi
    have : i = 0 ∨ i = 1 ∨ i = 2 := by omega
    rcases this with rfl | rfl | rfl <;>
      simp [GLState.run, GLState.step, Function.update]
  · intro i hi
    have h0 : i ≠ 0 := by omega
    have h1 : i ≠ 1 := by omega
    have h2 : i ≠ 2 := by omega
    simp [GLState.run, GLState.step, Function.update, h0, h1, h2]
  · intro h0 h1 h2
    cases g with
    | mk dm pr bt bb ae bf vp en =>
      simp only [GLState.run, List.foldl, GLState.step]
      congr 1
      funext i
      simp only [Function.update]
      simp only at h0 h1 h2
      split_ifs with a b c
      · subst a; simp [h2]
      · subst b; simp [h1]
      · subst c; simp [h0]
      · rfl

/-- C2 (amended), at a concrete input: the entity "man" of the sample scene. -/
theorem C2_skipped_entity_witness :
    (sampleEntity ℚ "man" false 0 GL_TRIANGLES).toReflect = false
      ∧ renderEntity sampleLib (sampleScene ℚ false true) true
            (sampleEntity ℚ "man" false 0 GL_TRIANGLES)
          = [Call.glDisableVertexAttribArray 0, Call.glDisableVertexAttribArray 1,
              Call.glDisableVertexAttribArray 2] :=
  ⟨rfl, (C2_skipped_entity sampleLib (sampleScene ℚ false true)
    (sampleEntity ℚ "man" false 0 GL_TRIANGLES) rfl).1⟩

/-- C3: `renderReflectionCubemap` consists of its three opening calls, then for each face
`i = 0..5` in that order the attachment of face `i`, one `camera2.setOrientation` with the
value (0,0,0), (0,180,0), (0,-90,90), (0,-90,-90), (0,90,0), (0,270,0) respectively, the
calls of `renderEntities(true)` run with that orientation and the secondary camera active,
and a depth clear, then the closing viewport call; so the orientation is set exactly six
times, with these values in this order, each before the entity draws of its face, and the
six values are pairwise distinct. -/
theorem C3_cubemap_orientations (L : Lib F) (s : Renderer F) :
    (renderReflectionCubemap L s).2
        = [Call.glBindFramebuffer GL_FRAMEBUFFER s.reflectionFBO,
            Call.glViewport 0 0 s.reflectionRes s.reflectionRes,
            Call.glClear (GL_COLOR_BUFFER_BIT ||| GL_DEPTH_BUFFER_BIT)]
          ++ ([(0, ⟨0, 0, 0⟩), (1, ⟨0, 180, 0⟩), (2, ⟨0, -90, 90⟩), (3, ⟨0, -90, -90⟩),
                (4, ⟨0, 90, 0⟩), (5, ⟨0, 270, 0⟩)] : List (Nat × Vec3 F)).flatMap
              (fun p =>
                [Call.glFramebufferTexture2D GL_FRAMEBUFFER GL_COLOR_ATTACHMENT0
                    (GL_TEXTURE_CUBE_MAP_POSITIVE_X + p.1) s.reflectionCubemap 0,
                  Call.camera2SetOrientation p.2]
                ++ renderEntities L
                    { s with defaultCamera := 1,
                             camera2 := { s.camera2 with orientation := p.2 } } true
                ++ [Call.glClear GL_DEPTH_BUFFER_BIT])
          ++ [Call.glViewport 0 0 s.screenWidth s.screenHeight]
      ∧ (renderReflectionCubemap L s).2.filterMap Call.orientation
          = [⟨0, 0, 0⟩, ⟨0, 180, 0⟩, ⟨0, -90, 90⟩, ⟨0, -90, -90⟩, ⟨0, 90, 0⟩, ⟨0, 270, 0⟩]
      ∧ ([⟨0, 0, 0⟩, ⟨0, 180, 0⟩, ⟨0, -90, 90⟩, ⟨0, -90, -90⟩, ⟨0, 90, 0⟩, ⟨0, 270, 0⟩] :
          List (Vec3 F)).Pairwise (fun u v => u ≠ v)
      ∧ ∀ st : Renderer F, (renderEntities L st true).filterMap Call.orientation = [] := by
  have hdec := renderReflectionCubemap_calls L s
  refine ⟨hdec, ?_, ?_, fun st => renderEntities_filterMap_orientation L st true⟩
  · rw [hdec]
    simp [List.filterMap_append, renderEntities_filterMap_orientation, Call.orientation]
  · simp only [List.pairwise_cons, List.mem_cons, List.mem_singleton, List.not_mem_nil,
      List.Pairwise.nil, ne_eq, Vec3.mk.injEq, forall_eq_or_imp, forall_eq]
    norm_num

/-- C4: from every entry state, when `renderReflectionCubemap` returns the active-camera
index `defaultCamera` is 0, the screen size is the one it had on entry, the last call issued
is `glViewport(0, 0, screenWidth, screenHeight)`, and so the viewport of the graphics state
is `(0, 0, screenWidth, screenHeight)` whatever it was before. -/
theorem C4_cubemap_restores (L : Lib F) (s : Renderer F) :
    (renderReflectionCubemap L s).1.defaultCamera = 0
      ∧ (renderReflectionCubemap L s).1.screenWidth = s.screenWidth
      ∧ (renderReflectionCubemap L s).1.screenHeight = s.screenHeight
      ∧ (renderReflectionCubemap L s).2.getLast?
          = some (Call.glViewport 0 0 s.screenWidth s.screenHeight)
      ∧ ∀ g : GLState, (g.run (renderReflectionCubemap L s).2).viewport
          = (0, 0, s.screenWidth, s.screenHeight) := by
  have hc := renderReflectionCubemap_calls L s
  have hs := renderReflectionCubemap_state L s
  refine ⟨by rw [hs], by rw [hs], by rw [hs], ?_, fun g => ?_⟩
  · rw [hc, List.getLast?_append]; rfl
  · rw [hc, GLState.run_append]; rfl

/-- C7 (as stated, refuted): in the sample scene with the resize flag set, the flag is still
set when `render()` returns, and the immediately following `render()` runs `resizeScreen`
again: it creates two more textures and one more framebuffer. -/
theorem C7_counterexample :
    (sampleScene ℚ true false).updateResolution = true
      ∧ (render sampleLib (sampleScene ℚ true false)).1.updateResolution = true
      ∧ (render sampleLib (sampleScene ℚ true false)).2.filter Call.isGen
          = [Call.glGenTextures 4, Call.glGenTextures 5, Call.glGenFramebuffers 3]
      ∧ (render sampleLib (render sampleLib (sampleScene ℚ true false)).1).2.filter Call.isGen
          = [Call.glGenTextures 6, Call.glGenTextures 7, Call.glGenFramebuffers 4] := by
  have h1 := render_updateResolution sampleLib (sampleScene ℚ true false)
  have h2 := render_next sampleLib (sampleScene ℚ true false)
  have h3 := render_filter_isGen sampleLib (sampleScene ℚ true false)
  have h4 := render_filter_isGen sampleLib (render sampleLib (sampleScene ℚ true false)).1
  rw [h1, h2.1, h2.2] at h4
  exact ⟨rfl, h1, h3, h4⟩

/-- C7 (amended): when `render()` is called with the resize flag `updateResolution` set,
`resizeScreen` runs exactly once in that call (its calls follow the three opening calls, and
the rest of the frame creates no OpenGL object); `render()` does not write the flag, which is
still set when it returns; so an immediately following `render()` runs `resizeScreen` again
and creates a further pair of textures and a further framebuffer. -/
theorem C7_resize_flag (L : Lib F) (s : Renderer F) (h : s.updateResolution = true) :
    (∃ post : List (Call F), post.filter Call.isGen = []
        ∧ (render L s).2
          = [Call.glClear (GL_COLOR_BUFFER_BIT ||| GL_DEPTH_BUFFER_BIT),
              Call.glEnable GL_DEPTH_TEST, Call.glEnable GL_MULTISAMPLE]
            ++ (resizeScreen L s).2 ++ post)
      ∧ (render L s).2.filter Call.isGen
          = [Call.glGenTextures s.nextTexture, Call.glGenTextures (s.nextTexture + 1),
              Call.glGenFramebuffers s.nextFramebuffer]
      ∧ (render L s).1.updateResolution = true
      ∧ (render L (render L s).1).2.filter Call.isGen
          = [Call.glGenTextures (s.nextTexture + 2), Call.glGenTextures (s.nextTexture + 3),
              Call.glGenFramebuffers (s.nextFramebuffer + 1)] := by
  have h1 := render_updateResolution L s
  have h2 := render_next L s
  have h3 := render_filter_isGen L s
  have h4 := render_filter_isGen L (render L s).1
  rw [h1, h2.1, h2.2] at h4
  rw [h] at h1
  simp only [h, if_true] at h3 h4
  refine ⟨?_, h3, h1, h4⟩
  rcases render_calls L s with ⟨post, hpost, hc⟩
  rw [if_pos h] at hc
  exact ⟨post, hpost, hc⟩

/-- C7 (amended) at a concrete input: the sample scene with the resize flag set. -/
theorem C7_resize_flag_witness :
    (sampleScene ℚ true false).updateResolution = true
      ∧ (render sampleLib (sampleScene ℚ true false)).1.updateResolution = true :=
  ⟨rfl, (C7_resize_flag sampleLib (sampleScene ℚ true false) rfl).2.2.1⟩

/-- C8: over the reals (tangent and pi of the library being the real ones), for every
`screenWidth`, every `screenHeight > 0` and a projection buffer that has a slot 0,
`resizeScreen` overwrites `projectionBuffer[0]`, and nothing else of the buffer, by the
perspective matrix of vertical field of view 45 degrees, aspect `screenWidth / screenHeight`,
near 0.1 and far 10000: its entry (1,1) is `1 / tan(22.5 degrees)`, its entry (0,0) is
`1 / (aspect * tan(22.5 degrees))`, the remaining entries are those fixed by near and far;
`projectionBuffer[1]` is as before. -/
theorem C8_resize_projection (L : Lib ℝ) (s : Renderer ℝ) (htan : L.tan = Real.tan)
    (hpi : L.pi = Real.pi) (hh : 0 < s.screenHeight) (hbuf : 0 < s.projectionBuffer.length) :
    (resizeScreen L s).1.projectionBuffer
        = s.projectionBuffer.set 0
            (perspective L (radians L 45) ((s.screenWidth : ℝ) / (s.screenHeight : ℝ))
              0.1 10000)
      ∧ projectionAt (resizeScreen L s).1 1 = projectionAt s 1
      ∧ ((s.screenWidth : ℝ) / (s.screenHeight : ℝ)) * (s.screenHeight : ℝ) = s.screenWidth
      ∧ (projectionAt (resizeScreen L s).1 0).c1.y = 1 / Real.tan (22.5 * Real.pi / 180)
      ∧ (projectionAt (resizeScreen L s).1 0).c0.x
          = 1 / (((s.screenWidth : ℝ) / (s.screenHeight : ℝ))
              * Real.tan (22.5 * Real.pi / 180))
      ∧ projectionAt (resizeScreen L s).1 0
          = ⟨⟨1 / (((s.screenWidth : ℝ) / (s.screenHeight : ℝ))
                * Real.tan (22.5 * Real.pi / 180)), 0, 0, 0⟩,
              ⟨0, 1 / Real.tan (22.5 * Real.pi / 180), 0, 0⟩,
              ⟨0, 0, -(10000 + 0.1) / (10000 - 0.1), -1⟩,
              ⟨0, 0, -(2 * 10000 * 0.1) / (10000 - 0.1), 0⟩⟩ := by
  have hang : radians L 45 / 2 = 22.5 * Real.pi / 180 := by
    rw [radians, hpi]; ring
  have h0 : projectionAt (resizeScreen L s).1 0
      = perspective L (radians L 45) ((s.screenWidth : ℝ) / (s.screenHeight : ℝ))
          0.1 10000 := by
    cases hb : s.projectionBuffer with
    | nil => rw [hb] at hbuf; exact absurd hbuf (by simp)
    | cons m ms => simp [projectionAt, resizeScreen, hb]
  have hp : perspective L (radians L 45) ((s.screenWidth : ℝ) / (s.screenHeight : ℝ))
        0.1 10000
      = ⟨⟨1 / (((s.screenWidth : ℝ) / (s.screenHeight : ℝ))
                * Real.tan (22.5 * Real.pi / 180)), 0, 0, 0⟩,
          ⟨0, 1 / Real.tan (22.5 * Real.pi / 180), 0, 0⟩,
          ⟨0, 0, -(10000 + 0.1) / (10000 - 0.1), -1⟩,
          ⟨0, 0, -(2 * 10000 * 0.1) / (10000 - 0.1), 0⟩⟩ := by
    simp only [perspective, hang, htan]
  have hne : (s.screenHeight : ℝ) ≠ 0 := by
    have : (0 : ℝ) < (s.screenHeight : ℝ) := by exact_mod_cast hh
    exact ne_of_gt this
  refine ⟨rfl, ?_, div_mul_cancel₀ _ hne, ?_, ?_, ?_⟩
  · cases hb : s.projectionBuffer with
    | nil => rw [hb] at hbuf; exact absurd hbuf (by simp)
    | cons m ms => cases ms <;> simp [projectionAt, resizeScreen, hb]
  · rw [h0, hp]
  · rw [h0, hp]
  · rw [h0, hp]

/-- C8 at a concrete input: the sample scene at 1280 x 720 with the real tangent and pi. -/
theorem C8_resize_projection_witness :
    0 < (sampleScene ℝ true false).screenHeight
      ∧ 0 < (sampleScene ℝ true false).projectionBuffer.length
      ∧ (projectionAt (resizeScreen
            ({ pi := Real.pi, tan := Real.tan, cos := Real.cos, sin := Real.sin,
               viewMatrix := fun _ => Mat4.diag 1, uniformLocation := fun _ _ => 0,
               fadd := fun x y => x + y, fdiv := fun x y => x / y } : Lib ℝ)
            (sampleScene ℝ true false)).1 0).c1.y = 1 / Real.tan (22.5 * Real.pi / 180) :=
  ⟨by decide, by decide,
    (C8_resize_projection
      ({ pi := Real.pi, tan := Real.tan, cos := Real.cos, sin := Real.sin,
         viewMatrix := fun _ => Mat4.diag 1, uniformLocation := fun _ _ => 0,
         fadd := fun x y => x + y, fdiv := fun x y => x / y } : Lib ℝ)
      (sampleScene ℝ true false) rfl rfl (by decide) (by decide)).2.2.2.1⟩

/-- C10 (as stated, refuted): in the sample scene with the resize flag set, a second
`render()` right after the first, with the state exactly as the first left it, issues a
different sequence of graphics commands: the first creates textures 4, 5 and framebuffer 3,
the second textures 6, 7 and framebuffer 4. -/
theorem C10_counterexample :
    (render sampleLib (render sampleLib (sampleScene ℚ true false)).1).2
        ≠ (render sampleLib (sampleScene ℚ true false)).2
      ∧ (render sampleLib (sampleScene ℚ true false)).2.filter Call.isGen
          = [Call.glGenTextures 4, Call.glGenTextures 5, Call.glGenFramebuffers 3]
      ∧ (render sampleLib (render sampleLib (sampleScene ℚ true false)).1).2.filter Call.isGen
          = [Call.glGenTextures 6, Call.glGenTextures 7, Call.glGenFramebuffers 4] := by
  have h1 := render_updateResolution sampleLib (sampleScene ℚ true false)
  have h2 := render_next sampleLib (sampleScene ℚ true false)
  have h3 : (render sampleLib (sampleScene ℚ true false)).2.filter Call.isGen
      = [Call.glGenTextures 4, Call.glGenTextures 5, Call.glGenFramebuffers 3] :=
    render_filter_isGen sampleLib (sampleScene ℚ true false)
  have h4 : (render sampleLib (render sampleLib (sampleScene ℚ true false)).1).2.filter
      Call.isGen = [Call.glGenTextures 6, Call.glGenTextures 7, Call.glGenFramebuffers 4] := by
    have := render_filter_isGen sampleLib (render sampleLib (sampleScene ℚ true false)).1
    rw [h1, h2.1, h2.2] at this
    exact this
  refine ⟨fun hEq => ?_, h3, h4⟩
  rw [hEq, h3] at h4
  simp at h4

/-- C10 (amended): calling `render()` twice in succession with no external state change in
between and with the resize flag `updateResolution` clear produces identical output: the
second call issues exactly the same sequence of calls with the same arguments as the first,
and leaves the same state. -/
theorem C10_render_twice (L : Lib F) (s : Renderer F) (h : s.updateResolution = false) :
    (render L (render L s).1).2 = (render L s).2
      ∧ (render L (render L s).1).1 = (render L s).1 := by
  rw [render_idem L s h]
  exact ⟨rfl, rfl⟩

/-- C10 (amended) at a concrete input: the sample scene with the resize flag clear and the
reflection pass on. -/
theorem C10_render_twice_witness :
    (sampleScene ℚ false true).updateResolution = false
      ∧ (render sampleLib (render sampleLib (sampleScene ℚ false true)).1).2
          = (render sampleLib (sampleScene ℚ false true)).2 :=
  ⟨rfl, (C10_render_twice sampleLib (sampleScene ℚ false true) rfl).1⟩

/-- C11: for every state, the calls of `render()` are, in this order: the three opening
calls, the calls of `resizeScreen` if the resize flag is set, the calls of the reflection
pass `renderReflectionCubemap` if and only if `doReflection` is set, the binding of the
offscreen framebuffer `screenFBO` and a depth clear, then `renderEntities(false)`, then
`displayBoundingBox`, then `renderScreen`, then `resetRender`, each once.  At every point
inside the main-pass entity calls and the debug-overlay calls the framebuffer bound to
`GL_FRAMEBUFFER` is `screenFBO`, whatever the graphics state was on entry; all of them precede
`renderScreen`, which starts by binding framebuffer 0 and issues its one draw with
framebuffer 0 bound. -/
theorem C11_render_pass_order (L : Lib F) (s : Renderer F) :
    ∃ head : List (Call F),
      head = [Call.glClear (GL_COLOR_BUFFER_BIT ||| GL_DEPTH_BUFFER_BIT),
              Call.glEnable GL_DEPTH_TEST, Call.glEnable GL_MULTISAMPLE]
            ++ (if s.updateResolution = true then (resizeScreen L s).2 else [])
            ++ (if s.doReflection = true then
                  (renderReflectionCubemap L
                    (if s.updateResolution = true then (resizeScreen L s).1 else s)).2
                else [])
            ++ [Call.glBindFramebuffer GL_FRAMEBUFFER (render L s).1.screenFBO,
                Call.glClear GL_DEPTH_BUFFER_BIT]
      ∧ (render L s).2
          = head ++ renderEntities L (render L s).1 false
            ++ displayBoundingBox L (render L s).1
            ++ renderScreen L (render L s).1
            ++ resetRender L (render L s).1
      ∧ (∀ (g : GLState) (pre post : List (Call F)),
          renderEntities L (render L s).1 false ++ displayBoundingBox L (render L s).1
              = pre ++ post →
            (g.run (head ++ pre)).boundFramebuffer GL_FRAMEBUFFER = (render L s).1.screenFBO)
      ∧ ∃ a b : List (Call F),
          renderScreen L (render L s).1
              = Call.glBindFramebuffer GL_FRAMEBUFFER 0 :: a
                ++ Call.glDrawArrays GL_TRIANGLES 0 6 :: b
          ∧ a.filter Call.isDraw = [] ∧ b.filter Call.isDraw = []
          ∧ ∀ g : GLState,
              (g.run (head ++ renderEntities L (render L s).1 false
                  ++ displayBoundingBox L (render L s).1
                  ++ Call.glBindFramebuffer GL_FRAMEBUFFER 0 :: a)).boundFramebuffer
                GL_FRAMEBUFFER = 0 := by
  refine ⟨_, rfl, ?_, ?_, ?_⟩
  · rw [render_passes]
  · intro g pre post hsplit
    have hmid : (renderEntities L (render L s).1 false
        ++ displayBoundingBox L (render L s).1).filter Call.isBindFramebuffer = [] := by
      rw [List.filter_append, renderEntities_filter_isBindFramebuffer,
        displayBoundingBox_filter_isBindFramebuffer]
      rfl
    rw [hsplit, List.filter_append, List.append_eq_nil] at hmid
    rw [GLState.run_append, GLState.run_boundFramebuffer _ _ hmid.1, GLState.run_append]
    simp [GLState.run, GLState.step]
  · refine ⟨[Call.glClear GL_DEPTH_BUFFER_BIT, Call.glDisable GL_DEPTH_TEST,
        Call.glClearColor 0.5 0.5 0.5 0.5, Call.glClear GL_COLOR_BUFFER_BIT]
        ++ (if (render L s).1.depthBuffer = true then
              [Call.glBindTexture GL_TEXTURE_2D_MULTISAMPLE (render L s).1.screenDepthTexture,
                Call.glUseProgram (render L s).1.depthShader.ID,
                Call.glGetUniformLocation (render L s).1.screenShader.ID "samples",
                Call.glUniform1i (L.uniformLocation (render L s).1.screenShader.ID "samples")
                  (render L s).1.samples]
            else
              [Call.glBindTexture GL_TEXTURE_2D_MULTISAMPLE (render L s).1.screenTexture,
                Call.glUseProgram (render L s).1.screenShader.ID,
                Call.glGetUniformLocation (render L s).1.screenShader.ID "samples",
                Call.glUniform1i (L.uniformLocation (render L s).1.screenShader.ID "samples")
                  (render L s).1.samples])
        ++ [Call.glEnableVertexAttribArray 0,
            Call.glBindBuffer GL_ARRAY_BUFFER (render L s).1.screenVBO,
            Call.glVertexAttribPointer 0 2,
            Call.glEnableVertexAttribArray 1,
            Call.glBindBuffer GL_ARRAY_BUFFER (render L s).1.screenUVVBO,
            Call.glVertexAttribPointer 1 2],
      [Call.glEnable GL_DEPTH_TEST, Call.glBindBuffer GL_ARRAY_BUFFER (render L s).1.tmpBuffer],
      ?_, ?_, ?_, ?_⟩
    · simp [renderScreen]
    · split_ifs <;> simp [Call.isDraw]
    · simp [Call.isDraw]
    · intro g
      have ha : ∀ x : List (Call F), x.filter Call.isBindFramebuffer = [] →
          ∀ g' : GLState, (g'.run (Call.glBindFramebuffer GL_FRAMEBUFFER 0 :: x)).boundFramebuffer
            GL_FRAMEBUFFER = 0 := by
        intro x hx g'
        rw [GLState.run_cons, GLState.run_boundFramebuffer _ _ hx]
        simp [GLState.step]
      rw [GLState.run_append]
      apply ha
      split_ifs <;> simp [Call.isBindFramebuffer]

/-- C13 (as stated, refuted): for the entity named "skybox" and the descriptor `viewMatrix`,
the value `attachUniforms` uploads is not the active camera's view matrix: the camera of the
sample scene stands at (1, 1/2, 1), its view matrix carries that translation, and the
uploaded matrix has translation (0, 0, 0). -/
theorem C13_counterexample :
    attachUniforms sampleLib (sampleScene ℚ false false)
          (sampleEntity ℚ "skybox" true 0 GL_TRIANGLES) [⟨"viewMatrix", 1⟩]
        = [Call.glUniformMatrix4fv 1
            ⟨⟨1, 0, 0, 0⟩, ⟨0, 1, 0, 0⟩, ⟨0, 0, 1, 0⟩, ⟨0, 0, 0, 1⟩⟩]
      ∧ sampleLib.viewMatrix
            (cameraAt (sampleScene ℚ false false) (sampleScene ℚ false false).defaultCamera)
          = ⟨⟨1, 0, 0, 0⟩, ⟨0, 1, 0, 0⟩, ⟨0, 0, 1, 0⟩, ⟨1, 1 / 2, 1, 1⟩⟩
      ∧ attachUniforms sampleLib (sampleScene ℚ false false)
            (sampleEntity ℚ "skybox" true 0 GL_TRIANGLES) [⟨"viewMatrix", 1⟩]
          ≠ [Call.glUniformMatrix4fv 1
              (sampleLib.viewMatrix
                (cameraAt (sampleScene ℚ false false)
                  (sampleScene ℚ false false).defaultCamera))] := by
  have h1 : attachUniforms sampleLib (sampleScene ℚ false false)
        (sampleEntity ℚ "skybox" true 0 GL_TRIANGLES) [⟨"viewMatrix", 1⟩]
      = [Call.glUniformMatrix4fv 1
          ⟨⟨1, 0, 0, 0⟩, ⟨0, 1, 0, 0⟩, ⟨0, 0, 1, 0⟩, ⟨0, 0, 0, 1⟩⟩] := by
    simp [attachUniforms, attachUniform, sampleEntity, sampleLib, Mat4.ofMat3]
  have h2 : sampleLib.viewMatrix
        (cameraAt (sampleScene ℚ false false) (sampleScene ℚ false false).defaultCamera)
      = ⟨⟨1, 0, 0, 0⟩, ⟨0, 1, 0, 0⟩, ⟨0, 0, 1, 0⟩, ⟨1, 1 / 2, 1, 1⟩⟩ := by
    simp [sampleLib, cameraAt, sampleScene]
  refine ⟨h1, h2, ?_⟩
  rw [h1, h2]
  simp

/-- C13 (amended): for every entity and every uniform descriptor list, `attachUniforms`
issues, in descriptor order, exactly one upload per descriptor whose name is one of
`modelMatrix`, `viewMatrix`, `projectionMatrix`, `lightPosition`, `eyePosition`, to that
descriptor's own location, the value being respectively the entity's model matrix, the active
camera's view matrix (for the entity named "skybox": its rotation-only variant),
`projectionBuffer[defaultCamera]`, the light's world position and the active camera's
position; it issues nothing for a descriptor with any other name. -/
theorem C13_attachUniforms (L : Lib F) (s : Renderer F) (e : Entity F) (us : List Uniform) :
    attachUniforms L s e us = us.filterMap (uniformUpload L s e)
      ∧ (attachUniforms L s e us).length
          = (us.filter (fun u => decide (u.name ∈ ["modelMatrix", "viewMatrix",
              "projectionMatrix", "lightPosition", "eyePosition"]))).length
      ∧ (∀ u : Uniform, u.name ∉ ["modelMatrix", "viewMatrix", "projectionMatrix",
            "lightPosition", "eyePosition"] → attachUniform L s e u = [])
      ∧ (∀ u : Uniform, u.name = "viewMatrix" → e.name ≠ "skybox" →
          attachUniform L s e u
            = [Call.glUniformMatrix4fv u.id (L.viewMatrix (cameraAt s s.defaultCamera))])
      ∧ (∀ u : Uniform, u.name = "viewMatrix" → e.name = "skybox" →
          attachUniform L s e u
            = [Call.glUniformMatrix4fv u.id
                (Mat4.ofMat3 (L.viewMatrix (cameraAt s s.defaultCamera)))]) := by
  refine ⟨?_, ?_, ?_, ?_, ?_⟩
  · unfold attachUniforms
    rw [← flatMap_toList_eq_filterMap]
    congr 1
    funext u
    exact attachUniform_eq_uniformUpload L s e u
  · unfold attachUniforms
    induction us with
    | nil => rfl
    | cons u us ih =>
      rw [List.flatMap_cons, List.length_append, ih, attachUniform_length, List.filter_cons]
      by_cases h : u.name ∈ ["modelMatrix", "viewMatrix", "projectionMatrix",
          "lightPosition", "eyePosition"]
      · simp [h, Nat.add_comm]
      · simp [h]
  · intro u hu
    have := attachUniform_length L s e u
    rw [if_neg hu] at this
    exact List.length_eq_zero.mp this
  · intro u hu hn
    simp [attachUniform, hu, hn]
  · intro u hu hn
    simp [attachUniform, hu, hn]

omit [LinearOrderedField F] in
/-- C14: for every entity and every layout descriptor list, `linkLayouts` handles the
descriptors in order, each on its own: "vertex" enables slot 0, binds the entity's position
buffer and declares 3 floats per vertex; "uv" enables slot 1, binds the texture-coordinate
buffer and declares 2 floats; "color" enables slot 1, binds the colour buffer (the entity's
one buffer for texture coordinates or colours) and declares 3 floats; "normal" enables slot
2, binds the normal buffer and declares 3 floats; a descriptor with any other name issues no
call, so it enables no slot and binds no buffer. -/
theorem C14_linkLayouts (e : Entity F) (ls : List String) :
    linkLayouts e ls
        = ls.flatMap (fun l => (((layoutTable e).lookup l).map bindStream).getD [])
      ∧ linkLayouts e ([] : List String) = ([] : List (Call F))
      ∧ (∀ (l : String) (rest : List String),
          linkLayouts e (l :: rest) = linkLayout e l ++ linkLayouts e rest)
      ∧ linkLayout e "vertex"
          = [Call.glEnableVertexAttribArray 0, Call.glBindBuffer GL_ARRAY_BUFFER e.vertexBuffer,
              Call.glVertexAttribPointer 0 3]
      ∧ linkLayout e "uv"
          = [Call.glEnableVertexAttribArray 1, Call.glBindBuffer GL_ARRAY_BUFFER e.texBuffer,
              Call.glVertexAttribPointer 1 2]
      ∧ linkLayout e "color"
          = [Call.glEnableVertexAttribArray 1, Call.glBindBuffer GL_ARRAY_BUFFER e.texBuffer,
              Call.glVertexAttribPointer 1 3]
      ∧ linkLayout e "normal"
          = [Call.glEnableVertexAttribArray 2, Call.glBindBuffer GL_ARRAY_BUFFER e.normalBuffer,
              Call.glVertexAttribPointer 2 3]
      ∧ (∀ l : String, l ∉ ["vertex", "uv", "color", "normal"] →
          linkLayout e l = ([] : List (Call F))
          ∧ ∀ g : GLState, g.run (linkLayout e l : List (Call F)) = g) := by
  refine ⟨?_, rfl, fun l rest => rfl, ?_, ?_, ?_, ?_, ?_⟩
  · unfold linkLayouts
    congr 1
    funext l
    exact linkLayout_eq_table e l
  · simp [linkLayout]
  · simp [linkLayout]
  · simp [linkLayout]
  · simp [linkLayout]
  · intro l hl
    have h : linkLayout e l = ([] : List (Call F)) := by
      simp only [List.mem_cons, List.mem_singleton, List.not_mem_nil, or_false, not_or] at hl
      simp [linkLayout, hl.1, hl.2.1, hl.2.2.1, hl.2.2.2]
    exact ⟨h, fun g => by rw [h]; rfl⟩

/-- C17 (the code at the failing input): with the depth-display toggle set, `renderScreen`
binds the depth texture and puts the depth shader in use, but resolves the location of
"samples" against the standard screen shader, and uploads the sample count to that location;
with the toggle clear all three belong to the standard screen shader.  In the sample scene
the depth shader is program 2 and the screen shader program 1. -/
theorem C17_renderScreen_depth_branch (L : Lib F) (s : Renderer F) :
    renderScreen L { s with depthBuffer := true }
        = [Call.glBindFramebuffer GL_FRAMEBUFFER 0, Call.glClear GL_DEPTH_BUFFER_BIT,
            Call.glDisable GL_DEPTH_TEST, Call.glClearColor 0.5 0.5 0.5 0.5,
            Call.glClear GL_COLOR_BUFFER_BIT,
            Call.glBindTexture GL_TEXTURE_2D_MULTISAMPLE s.screenDepthTexture,
            Call.glUseProgram s.depthShader.ID,
            Call.glGetUniformLocation s.screenShader.ID "samples",
            Call.glUniform1i (L.uniformLocation s.screenShader.ID "samples") s.samples,
            Call.glEnableVertexAttribArray 0, Call.glBindBuffer GL_ARRAY_BUFFER s.screenVBO,
            Call.glVertexAttribPointer 0 2, Call.glEnableVertexAttribArray 1,
            Call.glBindBuffer GL_ARRAY_BUFFER s.screenUVVBO, Call.glVertexAttribPointer 1 2,
            Call.glDrawArrays GL_TRIANGLES 0 6, Call.glEnable GL_DEPTH_TEST,
            Call.glBindBuffer GL_ARRAY_BUFFER s.tmpBuffer]
      ∧ renderScreen L { s with depthBuffer := false }
        = [Call.glBindFramebuffer GL_FRAMEBUFFER 0, Call.glClear GL_DEPTH_BUFFER_BIT,
            Call.glDisable GL_DEPTH_TEST, Call.glClearColor 0.5 0.5 0.5 0.5,
            Call.glClear GL_COLOR_BUFFER_BIT,
            Call.glBindTexture GL_TEXTURE_2D_MULTISAMPLE s.screenTexture,
            Call.glUseProgram s.screenShader.ID,
            Call.glGetUniformLocation s.screenShader.ID "samples",
            Call.glUniform1i (L.uniformLocation s.screenShader.ID "samples") s.samples,
            Call.glEnableVertexAttribArray 0, Call.glBindBuffer GL_ARRAY_BUFFER s.screenVBO,
            Call.glVertexAttribPointer 0 2, Call.glEnableVertexAttribArray 1,
            Call.glBindBuffer GL_ARRAY_BUFFER s.screenUVVBO, Call.glVertexAttribPointer 1 2,
            Call.glDrawArrays GL_TRIANGLES 0 6, Call.glEnable GL_DEPTH_TEST,
            Call.glBindBuffer GL_ARRAY_BUFFER s.tmpBuffer]
      ∧ (sampleScene ℚ false false).depthShader.ID = 2
      ∧ (sampleScene ℚ false false).screenShader.ID = 1
      ∧ (renderScreen sampleLib { sampleScene ℚ false false with depthBuffer := true }).filter
            (fun c => match c with
              | Call.glUseProgram _ => true
              | Call.glGetUniformLocation _ _ => true
              | _ => false)
          = [Call.glUseProgram 2, Call.glGetUniformLocation 1 "samples"] := by
  refine ⟨?_, ?_, rfl, rfl, ?_⟩
  · simp [renderScreen]
  · simp [renderScreen]
  · simp [renderScreen, sampleScene]

/-- C18: for every entity list and every setting of the eight debug-draw toggles
(`drawOBB`, `drawAABB1`, `drawAABB2`, `drawAABB3`, `drawAABB4`, `drawBS`, `drawBS2`,
`drawBS3`), each loop iteration of `displayBoundingBox` issues exactly one draw call per
toggle that is set, so the number of draw calls of `displayBoundingBox` is the number of
entities times the number of toggles set, and zero when no toggle is set. -/
theorem C18_displayBoundingBox_draws (L : Lib F) (s : Renderer F) :
    (∀ e : Entity F, ((displayEntity L s e).filter Call.isDraw).length = enabledToggles s)
      ∧ ((displayBoundingBox L s).filter Call.isDraw).length
          = s.entityBuffer.length * enabledToggles s
      ∧ (enabledToggles s = 0 → (displayBoundingBox L s).filter Call.isDraw = [])
      ∧ (enabledToggles s = 0 ↔
          (s.drawOBB = false ∧ s.drawAABB1 = false ∧ s.drawAABB2 = false
            ∧ s.drawAABB3 = false ∧ s.drawAABB4 = false ∧ s.drawBS = false
            ∧ s.drawBS2 = false ∧ s.drawBS3 = false)) := by
  have hlen : ((displayBoundingBox L s).filter Call.isDraw).length
      = s.entityBuffer.length * enabledToggles s := by
    unfold displayBoundingBox
    induction s.entityBuffer with
    | nil => simp
    | cons e l ih =>
      rw [List.flatMap_cons, List.filter_append, List.length_append, ih,
        displayEntity_draws, List.length_cons]
      ring
  refine ⟨displayEntity_draws L s, hlen, fun h0 => ?_, ?_⟩
  · rw [h0, Nat.mul_zero] at hlen
    exact List.length_eq_zero.mp hlen
  · unfold enabledToggles
    generalize s.drawOBB = b1
    generalize s.drawAABB1 = b2
    generalize s.drawAABB2 = b3
    generalize s.drawAABB3 = b4
    generalize s.drawAABB4 = b5
    generalize s.drawBS = b6
    generalize s.drawBS2 = b7
    generalize s.drawBS3 = b8
    cases b1 <;> cases b2 <;> cases b3 <;> cases b4 <;> cases b5 <;> cases b6 <;> cases b7 <;>
      cases b8 <;> simp

/-- C19: for every list of 8 corner points and every initial contents of the output array,
`createCube` leaves the existing contents in place and appends exactly 72 floats, the two
3-float endpoints of 12 segments; read as pairs of corner indices the segments are 0-1, 1-2,
2-3, 3-0, 0-5, 1-6, 2-7, 3-4, 5-4, 4-7, 7-6, 6-5: twelve edges, each between two distinct
corners in 0..7, pairwise distinct as undirected edges, with every corner in exactly three
of them; each endpoint is a point of the corner list. -/
theorem C19_createCube (array : List F) (faces : List (Vec3 F)) (hlen : faces.length = 8) :
    createCube array faces = array ++ cubeEdges.flatMap (segmentFloats faces)
      ∧ (createCube array faces).length = array.length + 72
      ∧ (createCube array faces).take array.length = array
      ∧ cubeEdges = [(0, 1), (1, 2), (2, 3), (3, 0), (0, 5), (1, 6), (2, 7), (3, 4), (5, 4),
          (4, 7), (7, 6), (6, 5)]
      ∧ cubeEdges.length = 12
      ∧ (∀ p ∈ cubeEdges, p.1 ≠ p.2 ∧ p.1 < 8 ∧ p.2 < 8)
      ∧ (cubeEdges.map (fun p => (min p.1 p.2, max p.1 p.2))).Nodup
      ∧ (∀ k, k < 8 → (cubeEdges.filter (fun p => p.1 == k || p.2 == k)).length = 3)
      ∧ (∀ k, k < 8 → cornerAt faces k ∈ faces) := by
  have h1 : createCube array faces = array ++ cubeEdges.flatMap (segmentFloats faces) := by
    simp [createCube, pushSegment, cubeEdges, segmentFloats]
  refine ⟨h1, ?_, ?_, rfl, rfl, by decide, by decide, by decide, ?_⟩
  · rw [h1]
    simp [cubeEdges, segmentFloats]
  · rw [h1]
    simp
  · intro k hk
    unfold cornerAt
    rw [List.getD_eq_getElem _ _ (by omega)]
    exact List.getElem_mem _

/-- C19 at a concrete input: the eight corners of the box (-1,-1,-1)..(1,1,1) appended to an
array that already holds one float. -/
theorem C19_createCube_witness :
    ((sampleBounds ℚ 1).corners).length = 8
      ∧ (createCube [7] (sampleBounds ℚ 1).corners).length = 73
      ∧ (createCube [7] (sampleBounds ℚ 1).corners).take 7
          = [7, -1, -1, -1, 1, -1, -1] := by
  have h := C19_createCube ([7] : List ℚ) (sampleBounds ℚ 1).corners rfl
  refine ⟨rfl, h.2.1, ?_⟩
  rw [h.1]
  simp [cubeEdges, segmentFloats, cornerAt, Bounds.corners, sampleBounds]

/-- C20: started from empty buffers, `setup()` leaves 15 shaders, entities whose shader
indices are all smaller than 15, camera and projection buffers of size 2 and the
active-camera index 0, so every index the renderer dereferences (entity shader indices, the
debug shader index 1, the active-camera index into both buffers) is in range.  `render()`
keeps this: it leaves the entity, shader and camera buffers as they are and the projection
buffer at its size, and the active-camera index is 1 inside the reflection pass and on
return 0 or what it was. -/
theorem C20_indices_in_range (L : Lib F) (compiled : String → Shader)
    (loaded : String → Entity F) (s0 : Renderer F)
    (hS : s0.shaderBuffer = []) (hE : s0.entityBuffer = [])
    (hC : s0.cameraBuffer = []) (hP : s0.projectionBuffer = []) :
    (setup L compiled loaded s0).shaderBuffer.length = 15
      ∧ (∀ e ∈ (setup L compiled loaded s0).entityBuffer, e.shader < 15)
      ∧ (setup L compiled loaded s0).entityBuffer.length = 13
      ∧ (setup L compiled loaded s0).defaultCamera = 0
      ∧ (setup L compiled loaded s0).cameraBuffer.length = 2
      ∧ (setup L compiled loaded s0).projectionBuffer.length = 2
      ∧ IndicesInRange (setup L compiled loaded s0)
      ∧ ∀ t : Renderer F, t.cameraBuffer.length = 2 → t.projectionBuffer.length = 2 →
          IndicesInRange t →
            (render L t).1.cameraBuffer.length = 2
            ∧ (render L t).1.projectionBuffer.length = 2
            ∧ (render L t).1.shaderBuffer = t.shaderBuffer
            ∧ (render L t).1.entityBuffer = t.entityBuffer
            ∧ ((render L t).1.defaultCamera = 0
                ∨ (render L t).1.defaultCamera = t.defaultCamera)
            ∧ IndicesInRange (render L t).1
            ∧ ∀ (o : Vec3 F) (m : Mat4 F),
                IndicesInRange
                  { t with defaultCamera := 1,
                           camera2 := { t.camera2 with orientation := o },
                           projectionBuffer := t.projectionBuffer.set 0 m } := by
  have hsb : (setup L compiled loaded s0).shaderBuffer.length = 15 := by
    simp [setup, loadShaders, hS]
  have heb : ∀ e ∈ (setup L compiled loaded s0).entityBuffer, e.shader < 15 := by
    simp [setup, loadEntities, loadedLight, hE]
  have hcb : (setup L compiled loaded s0).cameraBuffer.length = 2 := by
    simp [setup, hC]
  have hpb : (setup L compiled loaded s0).projectionBuffer.length = 2 := by
    simp [setup, hP]
  refine ⟨hsb, heb, by simp [setup, loadEntities, hE], rfl, hcb, hpb, ?_, ?_⟩
  · refine ⟨?_, ?_, ?_, ?_⟩
    · intro e he
      rw [hsb]
      exact heb e he
    · rw [hsb]; decide
    · rw [hcb]; exact Nat.zero_lt_two
    · rw [hpb]; exact Nat.zero_lt_two
  · intro t htc htp hin
    rcases render_buffers L t with ⟨h1, h2, h3, h4, h5⟩
    rcases hin with ⟨i1, i2, i3, i4⟩
    refine ⟨by rw [h3, htc], by rw [h4, htp], h2, h1, h5, ⟨?_, ?_, ?_, ?_⟩, fun o m => ?_⟩
    · rw [h1, h2]; exact i1
    · rw [h2]; exact i2
    · rw [h3]
      rcases h5 with h | h
      · rw [h, htc]; exact Nat.zero_lt_two
      · rw [h]; exact i3
    · rw [h4]
      rcases h5 with h | h
      · rw [h, htp]; exact Nat.zero_lt_two
      · rw [h]; exact i4
    · refine ⟨i1, i2, ?_, ?_⟩
      · show 1 < t.cameraBuffer.length
        rw [htc]; exact Nat.one_lt_two
      · show 1 < (t.projectionBuffer.set 0 m).length
        rw [List.length_set, htp]; exact Nat.one_lt_two

/-- C20 at a concrete input: `setup()` run from the state at program start. -/
theorem C20_indices_in_range_witness :
    (programStart ℚ).shaderBuffer = [] ∧ (programStart ℚ).entityBuffer = []
      ∧ (programStart ℚ).cameraBuffer = [] ∧ (programStart ℚ).projectionBuffer = []
      ∧ IndicesInRange
          (setup sampleLib (fun n => ⟨n.length, [], []⟩)
            (fun n => sampleEntity ℚ n true 0 GL_TRIANGLES) (programStart ℚ)) :=
  ⟨rfl, rfl, rfl, rfl,
    (C20_indices_in_range sampleLib (fun n => ⟨n.length, [], []⟩)
      (fun n => sampleEntity ℚ n true 0 GL_TRIANGLES) (programStart ℚ)
      rfl rfl rfl rfl).2.2.2.2.2.2.1⟩

/-- C21 (as stated, refuted): with `sides = 100000000 > 0` the loop variable `float i` of the
first loop of `createSphere` never gets beyond 2: there the step, about 6.3e-8, is less than
half the distance 2.4e-7 between neighbouring binary32 numbers, so `i += step` leaves `i` at
2.  The test `i < 2 * pi` never fails and `createSphere` has not returned after any number of
iterations: its first polyline never ends with a segment back to its start point, and the
second and third are never begun. -/
theorem C21_counterexample :
    (0 : Int) < 100000000
      ∧ nextCounter 100000000 2 = some 2
      ∧ (2 : ℚ) < sphereTwoPi
      ∧ (∀ (fuel : Nat), loopCounters 100000000 fuel 0 = none)
      ∧ ∀ (fuel : Nat) (L : Lib ℝ) (center : Vec3 ℝ) (dist : ℝ) (data : List ℝ),
          createSphere fuel L center dist 100000000 data = none := by
  refine ⟨by decide, by decide!, by decide!,
    fun fuel => loopCounters_stuck fuel 0 le_rfl (by norm_num), ?_⟩
  intro fuel L center dist data
  rw [createSphere_eq, loopCounters_stuck fuel 0 le_rfl (by norm_num)]
  rfl

/-- C21 (amended): over the reals (cosine and sine of the library being the real ones, the
loop variable a binary32 number), for every center, every radius `dist >= 0` and every segment
count `sides` from 1 to 6000000, `createSphere` returns.  Whenever it returns, for any
`sides`, the floats it appends are those of three polylines of `2 * n + 2` points each, where
`n >= 1` is the number of iterations of each of its loops, fixed by the binary32 values of
the loop variable.  Every appended point lies at Euclidean distance `dist` from `center`; the
points of the first polyline lie in the plane `z = center.z`, those of the second in
`x = center.x`, those of the third in `y = center.y`; each polyline starts at its start point
and its last point, the end of its last segment, is that start point again.  The result does
not depend on the bound put on the number of iterations.  With `sides = 100`, the count
`drawBoundingSphere` passes, each loop runs exactly 100 times and 1818 floats are appended;
the number of iterations need not be `sides`: with `sides = 6` each loop runs 7 times and
144 floats are appended. -/
theorem C21_createSphere (L : Lib ℝ) (hcos : L.cos = Real.cos) (hsin : L.sin = Real.sin)
    (center : Vec3 ℝ) (dist : ℝ) (hd : 0 ≤ dist) (sides : Int) (data : List ℝ) :
    (0 < sides → sides ≤ 6000000 →
        ∃ out, createSphere 13176797 L center dist sides data = some out)
      ∧ (∀ (fuel : Nat) (out : List ℝ),
          createSphere fuel L center dist sides data = some out →
          (∃ (cs : List ℚ) (p1 p2 p3 : List (Vec3 ℝ)),
            loopCounters sides fuel 0 = some cs ∧ cs ≠ []
            ∧ p1 = polyline (fun i => ⟨dist * L.cos i, dist * L.sin i, 0⟩) center
                  (Vec3.add ⟨dist, 0, 0⟩ center) cs
            ∧ p2 = polyline (fun i => ⟨0, dist * L.sin i, dist * L.cos i⟩) center
                  (Vec3.add ⟨0, 0, dist⟩ center) cs
            ∧ p3 = polyline (fun i => ⟨dist * L.sin i, 0, dist * L.cos i⟩) center
                  (Vec3.add ⟨0, 0, dist⟩ center) cs
            ∧ out = data ++ flattenPoints p1 ++ flattenPoints p2 ++ flattenPoints p3
            ∧ (p1.length = 2 * cs.length + 2 ∧ p2.length = 2 * cs.length + 2
                ∧ p3.length = 2 * cs.length + 2)
            ∧ (∀ p ∈ p1 ++ p2 ++ p3,
                sqDist p center = dist ^ 2 ∧ Real.sqrt (sqDist p center) = dist)
            ∧ (∀ p ∈ p1, p.z = center.z) ∧ (∀ p ∈ p2, p.x = center.x)
            ∧ (∀ p ∈ p3, p.y = center.y)
            ∧ (p1.head? = some (Vec3.add ⟨dist, 0, 0⟩ center)
                ∧ p1.getLast? = some (Vec3.add ⟨dist, 0, 0⟩ center))
            ∧ (p2.head? = some (Vec3.add ⟨0, 0, dist⟩ center)
                ∧ p2.getLast? = some (Vec3.add ⟨0, 0, dist⟩ center))
            ∧ (p3.head? = some (Vec3.add ⟨0, 0, dist⟩ center)
                ∧ p3.getLast? = some (Vec3.add ⟨0, 0, dist⟩ center)))
          ∧ (∀ fuel2 : Nat, fuel ≤ fuel2 →
              createSphere fuel2 L center dist sides data = some out))
      ∧ (∀ (c : Vec3 ℝ) (d : ℝ) (dat : List ℝ),
          ∃ o, createSphere 101 L c d 100 dat = some o ∧ o.length = dat.length + 1818)
      ∧ (loopCounters 100 101 0).map List.length = some 100
      ∧ (loopCounters 6 8 0).map List.length = some 7
      ∧ (∀ (c : Vec3 ℝ) (d : ℝ) (dat : List ℝ),
          ∃ o, createSphere 8 L c d 6 dat = some o ∧ o.length = dat.length + 144) := by
  have hcs : ∀ j : ℝ, (dist * L.cos j) ^ 2 + (dist * L.sin j) ^ 2 = dist ^ 2 := by
    intro j
    rw [hcos, hsin]
    have := Real.cos_sq_add_sin_sq j
    calc (dist * Real.cos j) ^ 2 + (dist * Real.sin j) ^ 2
        = dist ^ 2 * (Real.cos j ^ 2 + Real.sin j ^ 2) := by ring
      _ = dist ^ 2 := by rw [this, mul_one]
  have hsc : ∀ j : ℝ, (dist * L.sin j) ^ 2 + (dist * L.cos j) ^ 2 = dist ^ 2 := by
    intro j; rw [add_comm]; exact hcs j
  refine ⟨fun h1 h2 => createSphere_returns L center dist sides h1 h2 data, ?_,
    fun c d dat => createSphere_hundred L c d dat, loopCounters_hundred, loopCounters_six,
    fun c d dat => createSphere_six L c d dat⟩
  intro fuel out hrun
  have hrun2 := hrun
  rw [createSphere_eq, Option.map_eq_some'] at hrun2
  obtain ⟨cs, hcounters, hout⟩ := hrun2
  have hne : cs ≠ [] := loopCounters_ne_nil sides fuel 0 cs hcounters (by decide!)
  have hq1 : ∀ p ∈ polyline (fun i => ⟨dist * L.cos i, dist * L.sin i, 0⟩) center
      (Vec3.add ⟨dist, 0, 0⟩ center) cs, sqDist p center = dist ^ 2 ∧ p.z = center.z := by
    intro p hp
    rcases polyline_mem _ _ _ _ p hp with rfl | ⟨j, _, rfl⟩
    · simp [sqDist, Vec3.add]
    · refine ⟨?_, by simp [Vec3.add]⟩
      simp only [sqDist, Vec3.add, add_sub_cancel_right]
      rw [← hcs j]; ring
  have hq2 : ∀ p ∈ polyline (fun i => ⟨0, dist * L.sin i, dist * L.cos i⟩) center
      (Vec3.add ⟨0, 0, dist⟩ center) cs, sqDist p center = dist ^ 2 ∧ p.x = center.x := by
    intro p hp
    rcases polyline_mem _ _ _ _ p hp with rfl | ⟨j, _, rfl⟩
    · simp [sqDist, Vec3.add]
    · refine ⟨?_, by simp [Vec3.add]⟩
      simp only [sqDist, Vec3.add, add_sub_cancel_right]
      rw [← hsc j]; ring
  have hq3 : ∀ p ∈ polyline (fun i => ⟨dist * L.sin i, 0, dist * L.cos i⟩) center
      (Vec3.add ⟨0, 0, dist⟩ center) cs, sqDist p center = dist ^ 2 ∧ p.y = center.y := by
    intro p hp
    rcases polyline_mem _ _ _ _ p hp with rfl | ⟨j, _, rfl⟩
    · simp [sqDist, Vec3.add]
    · refine ⟨?_, by simp [Vec3.add]⟩
      simp only [sqDist, Vec3.add, add_sub_cancel_right]
      rw [← hsc j]; ring
  refine ⟨⟨cs, _, _, _, hcounters, hne, rfl, rfl, rfl, hout.symm,
    ⟨polyline_length _ _ _ _, polyline_length _ _ _ _, polyline_length _ _ _ _⟩,
    ?_, fun p hp => (hq1 p hp).2, fun p hp => (hq2 p hp).2, fun p hp => (hq3 p hp).2,
    ⟨polyline_head _ _ _ _ hne, polyline_getLast _ _ _ _⟩,
    ⟨polyline_head _ _ _ _ hne, polyline_getLast _ _ _ _⟩,
    ⟨polyline_head _ _ _ _ hne, polyline_getLast _ _ _ _⟩⟩, ?_⟩
  · intro p hp
    have hsq : sqDist p center = dist ^ 2 := by
      simp only [List.mem_append] at hp
      rcases hp with (hp | hp) | hp
      · exact (hq1 p hp).1
      · exact (hq2 p hp).1
      · exact (hq3 p hp).1
    exact ⟨hsq, by rw [hsq, Real.sqrt_sq hd]⟩
  · intro fuel2 hf
    rw [createSphere_eq, loopCounters_fuel sides fuel fuel2 0 cs hcounters hf]
    exact congrArg some hout

/-- C21 at a concrete input: the unit sphere about the origin with 100 segments per circle,
as `drawBoundingSphere` asks for; `createSphere` returns within 101 iterations per loop. -/
theorem C21_createSphere_witness :
    (0 : ℝ) ≤ 1
      ∧ ∃ (out : List ℝ) (p1 p2 p3 : List (Vec3 ℝ)),
          createSphere 101
              ({ pi := Real.pi, tan := Real.tan, cos := Real.cos, sin := Real.sin,
                 viewMatrix := fun _ => Mat4.diag 1, uniformLocation := fun _ _ => 0,
                 fadd := fun x y => x + y, fdiv := fun x y => x / y } : Lib ℝ)
              ⟨0, 0, 0⟩ 1 100 []
            = some out
          ∧ out = [] ++ flattenPoints p1 ++ flattenPoints p2 ++ flattenPoints p3
          ∧ p1.length = 202
          ∧ (∀ p ∈ p1 ++ p2 ++ p3, Real.sqrt (sqDist p ⟨0, 0, 0⟩) = 1)
          ∧ ∀ p ∈ p1, p.z = 0 := by
  refine ⟨zero_le_one, ?_⟩
  obtain ⟨out, hout, _⟩ := createSphere_hundred
    ({ pi := Real.pi, tan := Real.tan, cos := Real.cos, sin := Real.sin,
       viewMatrix := fun _ => Mat4.diag 1, uniformLocation := fun _ _ => 0,
       fadd := fun x y => x + y, fdiv := fun x y => x / y } : Lib ℝ) ⟨0, 0, 0⟩ 1 []
  obtain ⟨⟨cs, p1, p2, p3, h1, _, _, _, _, h4, h5, h6, h7, _⟩, _⟩ :=
    (C21_createSphere
      ({ pi := Real.pi, tan := Real.tan, cos := Real.cos, sin := Real.sin,
         viewMatrix := fun _ => Mat4.diag 1, uniformLocation := fun _ _ => 0,
         fadd := fun x y => x + y, fdiv := fun x y => x / y } : Lib ℝ)
      rfl rfl ⟨0, 0, 0⟩ 1 zero_le_one 100 []).2.1 101 out hout
  have hlen : cs.length = 100 := by
    have h := loopCounters_hundred
    rw [h1] at h
    simpa using h
  exact ⟨out, p1, p2, p3, hout, h4, by rw [h5.1, hlen], fun p hp => (h6 p hp).2, h7⟩

/-- C22 (the code at the failing input): every debug-overlay draw uploads one array of
3-float vertices to the scratch buffer, declares 3 floats per vertex, and passes the number
of uploaded floats as the vertex count of its one draw call: `drawBoundingBox` and the
`drawAABB3` branch upload 72 floats (24 vertices) and draw 72 vertices, `drawBoundingSphere`
uploads 1818 floats (606 vertices) and draws 1818 vertices. -/
theorem C22_overlay_draw_count (L : Lib F) (s : Renderer F) (bounds : Bounds F)
    (color : Vec3 F) (radius : F) (center sphereColor : Vec3 F) (e : Entity F) :
    (∃ data : List F,
        (drawBoundingBox L s bounds color).filter Call.isBufferData
            = [Call.glBufferData GL_ARRAY_BUFFER data]
          ∧ data.length = 72
          ∧ Call.glVertexAttribPointer 0 3 ∈ drawBoundingBox L s bounds color
          ∧ (drawBoundingBox L s bounds color).filter Call.isDraw
              = [Call.glDrawArrays GL_LINES 0 72])
      ∧ (∃ data : List F,
          (drawAABB3Branch L s e).filter Call.isBufferData
              = [Call.glBufferData GL_ARRAY_BUFFER data]
            ∧ data.length = 72
            ∧ Call.glVertexAttribPointer 0 3 ∈ drawAABB3Branch L s e
            ∧ (drawAABB3Branch L s e).filter Call.isDraw
                = [Call.glDrawArrays GL_LINES 0 72])
      ∧ (∃ data : List F,
          (drawBoundingSphere L s radius center sphereColor).filter Call.isBufferData
              = [Call.glBufferData GL_ARRAY_BUFFER data]
            ∧ data.length = 1818
            ∧ Call.glVertexAttribPointer 0 3 ∈ drawBoundingSphere L s radius center sphereColor
            ∧ (drawBoundingSphere L s radius center sphereColor).filter Call.isDraw
                = [Call.glDrawArrays GL_LINES 0 1818])
      ∧ 72 / 3 = 24 ∧ 24 < 72 ∧ 1818 / 3 = 606 ∧ 606 < 1818 := by
  refine ⟨⟨createCube [] [bounds.a, bounds.b, bounds.c, bounds.d, bounds.e, bounds.f,
        bounds.g, bounds.h], ?_, createCube_length [] _, ?_, ?_⟩,
    ⟨createCube [] (aabb3Faces L e), ?_, createCube_length [] _, ?_, ?_⟩,
    ⟨(createSphere 101 L center radius 100 []).getD [], ?_,
      createSphere_hundred_length L center radius, ?_, ?_⟩,
    by decide, by decide, by decide, by decide⟩
  · simp [drawBoundingBox, Call.isBufferData]
  · simp [drawBoundingBox]
  · simp [drawBoundingBox, Call.isDraw, createCube_length]
  · simp [drawAABB3Branch, Call.isBufferData]
  · simp [drawAABB3Branch]
  · simp [drawAABB3Branch, Call.isDraw, createCube_length]
  · simp [drawBoundingSphere, Call.isBufferData]
  · simp [drawBoundingSphere]
  · have h := createSphere_hundred_length L center radius
    simp [drawBoundingSphere, Call.isDraw, h]

/-- C23 (the code at the failing input): in every state `drawBoundingBox` uploads
`projectionBuffer[0]` as projection matrix, while `drawBoundingSphere` and the `drawAABB3`
branch upload the global `Projection`.  Right after `setup()` the two matrices are equal;
`resizeScreen` and `render()` never write `Projection`, so after a resize notification to a
size of another aspect ratio and the next `render()` they differ (the tangent of 22.5
degrees being non-zero): boxes are then drawn with the new projection, spheres and the
midpoint box with the old one. -/
theorem C23_overlay_projection (L : Lib F) (compiled : String → Shader)
    (loaded : String → Entity F) (s0 : Renderer F) (w h : Nat)
    (hP : s0.projectionBuffer = []) (ht : L.tan (radians L 45 / 2) ≠ 0)
    (hw : 0 < w) (hh : 0 < h) (hsw : 0 < s0.screenWidth) (hsh : 0 < s0.screenHeight)
    (hasp : w * s0.screenHeight ≠ s0.screenWidth * h) :
    (∀ (t : Renderer F) (bounds : Bounds F) (color : Vec3 F),
        (drawBoundingBox L t bounds color)[5]?
          = some (Call.glUniformMatrix4fv (uniformId (shaderAt t 1) 2) (projectionAt t 0)))
      ∧ (∀ (t : Renderer F) (radius : F) (center color : Vec3 F),
          (drawBoundingSphere L t radius center color)[5]?
            = some (Call.glUniformMatrix4fv (uniformId (shaderAt t 1) 2) t.Projection))
      ∧ (∀ (t : Renderer F) (e : Entity F),
          (drawAABB3Branch L t e)[5]?
            = some (Call.glUniformMatrix4fv (uniformId (shaderAt t 1) 2) t.Projection))
      ∧ (∀ t : Renderer F, (resizeScreen L t).1.Projection = t.Projection
          ∧ (render L t).1.Projection = t.Projection)
      ∧ projectionAt (setup L compiled loaded s0) 0 = (setup L compiled loaded s0).Projection
      ∧ projectionAt (render L (resizeCallback (setup L compiled loaded s0) w h).1).1 0
          = perspective L (radians L 45) ((w : F) / (h : F)) 0.1 10000
      ∧ (render L (resizeCallback (setup L compiled loaded s0) w h).1).1.Projection
          = perspective L (radians L 45) ((s0.screenWidth : F) / (s0.screenHeight : F))
              0.1 10000
      ∧ projectionAt (render L (resizeCallback (setup L compiled loaded s0) w h).1).1 0
          ≠ (render L (resizeCallback (setup L compiled loaded s0) w h).1).1.Projection := by
  have hproj : ∀ t : Renderer F, (resizeScreen L t).1.Projection = t.Projection
      ∧ (render L t).1.Projection = t.Projection := by
    intro t
    refine ⟨rfl, ?_⟩
    cases hu : t.updateResolution <;> cases hd : t.doReflection <;>
      simp [render, hu, hd, resizeScreen, renderReflectionCubemap_state]
  have h1 : projectionAt (render L (resizeCallback (setup L compiled loaded s0) w h).1).1 0
      = perspective L (radians L 45) ((w : F) / (h : F)) 0.1 10000 := by
    simp [render, resizeCallback, setup, resizeScreen, projectionAt, hP]
  have h2 : (render L (resizeCallback (setup L compiled loaded s0) w h).1).1.Projection
      = perspective L (radians L 45) ((s0.screenWidth : F) / (s0.screenHeight : F))
          0.1 10000 := by
    rw [(hproj _).2]
    rfl
  refine ⟨fun t b c => by simp [drawBoundingBox], fun t r c c' => by simp [drawBoundingSphere],
    fun t e => by simp [drawAABB3Branch], hproj, by simp [setup, projectionAt, hP], h1, h2, ?_⟩
  rw [h1, h2]
  intro heq
  have hx := congrArg (fun m : Mat4 F => m.c0.x) heq
  simp only [perspective] at hx
  have hwF : (w : F) ≠ 0 := by exact_mod_cast (Nat.pos_iff_ne_zero.mp hw)
  have hhF : (h : F) ≠ 0 := by exact_mod_cast (Nat.pos_iff_ne_zero.mp hh)
  have hswF : (s0.screenWidth : F) ≠ 0 := by exact_mod_cast (Nat.pos_iff_ne_zero.mp hsw)
  have hshF : (s0.screenHeight : F) ≠ 0 := by exact_mod_cast (Nat.pos_iff_ne_zero.mp hsh)
  field_simp at hx
  have hx' : (s0.screenWidth : F) * (h : F) = (w : F) * (s0.screenHeight : F) := by
    have := mul_right_cancel₀ ht (by linear_combination hx :
      ((s0.screenWidth : F) * (h : F)) * L.tan (radians L 45 / 2)
        = ((w : F) * (s0.screenHeight : F)) * L.tan (radians L 45 / 2))
    exact this
  apply hasp
  have : ((w * s0.screenHeight : Nat) : F) = ((s0.screenWidth * h : Nat) : F) := by
    push_cast
    exact hx'.symm
  exact_mod_cast this

/-- C23 at a concrete input, over the reals with the real tangent: `setup()` at 1280 x 720,
a resize notification to 1000 x 1000, then `render()`. -/
theorem C23_overlay_projection_witness :
    (programStart ℝ).projectionBuffer = []
      ∧ 1000 * (programStart ℝ).screenHeight ≠ (programStart ℝ).screenWidth * 1000
      ∧ projectionAt
          (render
            ({ pi := Real.pi, tan := Real.tan, cos := Real.cos, sin := Real.sin,
               viewMatrix := fun _ => Mat4.diag 1, uniformLocation := fun _ _ => 0,
               fadd := fun x y => x + y, fdiv := fun x y => x / y } : Lib ℝ)
            (resizeCallback
              (setup
                ({ pi := Real.pi, tan := Real.tan, cos := Real.cos, sin := Real.sin,
                   viewMatrix := fun _ => Mat4.diag 1, uniformLocation := fun _ _ => 0,
                   fadd := fun x y => x + y, fdiv := fun x y => x / y } :
                  Lib ℝ)
                (fun n => ⟨n.length, [], []⟩) (fun n => sampleEntity ℝ n true 0 GL_TRIANGLES)
                (programStart ℝ)) 1000 1000).1).1 0
        ≠ (render
            ({ pi := Real.pi, tan := Real.tan, cos := Real.cos, sin := Real.sin,
               viewMatrix := fun _ => Mat4.diag 1, uniformLocation := fun _ _ => 0,
               fadd := fun x y => x + y, fdiv := fun x y => x / y } : Lib ℝ)
            (resizeCallback
              (setup
                ({ pi := Real.pi, tan := Real.tan, cos := Real.cos, sin := Real.sin,
                   viewMatrix := fun _ => Mat4.diag 1, uniformLocation := fun _ _ => 0,
                   fadd := fun x y => x + y, fdiv := fun x y => x / y } :
                  Lib ℝ)
                (fun n => ⟨n.length, [], []⟩) (fun n => sampleEntity ℝ n true 0 GL_TRIANGLES)
                (programStart ℝ)) 1000 1000).1).1.Projection := by
  have ht : Real.tan (45 * (Real.pi / 180) / 2) ≠ 0 := by
    apply ne_of_gt
    apply Real.tan_pos_of_pos_of_lt_pi_div_two
    · have := Real.pi_pos; linarith
    · have := Real.pi_pos; linarith
  exact ⟨rfl, by decide,
    (C23_overlay_projection
      ({ pi := Real.pi, tan := Real.tan, cos := Real.cos, sin := Real.sin,
         viewMatrix := fun _ => Mat4.diag 1, uniformLocation := fun _ _ => 0,
         fadd := fun x y => x + y, fdiv := fun x y => x / y } : Lib ℝ)
      (fun n => ⟨n.length, [], []⟩) (fun n => sampleEntity ℝ n true 0 GL_TRIANGLES)
      (programStart ℝ) 1000 1000 rfl ht (by decide) (by decide) (by decide) (by decide)
      (by decide)).2.2.2.2.2.2.2⟩

/-- C24 (as stated, refuted): a resize notification with framebuffer size 800 x 0 stores
`screenHeight = 0` and sets the resize flag; the next `render()` runs `resizeScreen`, which
computes the projection from the aspect ratio `800 / 0`: the denominator is zero. -/
theorem C24_counterexample :
    (resizeCallback (sampleScene ℚ false false) 800 0).1.updateResolution = true
      ∧ (resizeCallback (sampleScene ℚ false false) 800 0).1.screenHeight = 0
      ∧ (((resizeCallback (sampleScene ℚ false false) 800 0).1.screenHeight : Nat) : ℚ) = 0
      ∧ (render sampleLib (resizeCallback (sampleScene ℚ false false) 800 0).1).2.filter
            Call.isGen
          = [Call.glGenTextures 4, Call.glGenTextures 5, Call.glGenFramebuffers 3]
      ∧ projectionAt (render sampleLib (resizeCallback (sampleScene ℚ false false) 800 0).1).1 0
          = perspective sampleLib (radians sampleLib 45) ((800 : ℚ) / (0 : ℚ)) 0.1 10000 := by
  refine ⟨rfl, rfl, by simp [resizeCallback], ?_, ?_⟩
  · exact render_filter_isGen sampleLib (resizeCallback (sampleScene ℚ false false) 800 0).1
  · simp [render, resizeCallback, resizeScreen, projectionAt, sampleScene]

/-- C24 (amended): for every framebuffer size with height greater than zero that
`resizeCallback` stores into `screenWidth` and `screenHeight` before setting the resize flag,
the next `render()` runs `resizeScreen`, whose aspect-ratio division
`screenWidth / screenHeight` has the stored height as its non-zero denominator.  The callback
stores the size unchecked: a height of zero is stored as it comes. -/
theorem C24_resize_denominator (L : Lib F) (s : Renderer F) (w h : Nat) (hh : 0 < h) :
    (resizeCallback s w h).1.screenWidth = w
      ∧ (resizeCallback s w h).1.screenHeight = h
      ∧ (resizeCallback s w h).1.updateResolution = true
      ∧ (∃ post : List (Call F),
          (render L (resizeCallback s w h).1).2
            = [Call.glClear (GL_COLOR_BUFFER_BIT ||| GL_DEPTH_BUFFER_BIT),
                Call.glEnable GL_DEPTH_TEST, Call.glEnable GL_MULTISAMPLE]
              ++ (resizeScreen L (resizeCallback s w h).1).2 ++ post)
      ∧ (resizeScreen L (resizeCallback s w h).1).1.projectionBuffer
          = s.projectionBuffer.set 0
              (perspective L (radians L 45)
                (((resizeCallback s w h).1.screenWidth : F)
                  / ((resizeCallback s w h).1.screenHeight : F)) 0.1 10000)
      ∧ (((resizeCallback s w h).1.screenHeight : Nat) : F) ≠ 0
      ∧ ((w : F) / (h : F)) * (h : F) = (w : F)
      ∧ ∀ w' : Nat, (resizeCallback s w' 0).1.screenHeight = 0
          ∧ (resizeCallback s w' 0).1.updateResolution = true := by
  have hne : ((h : Nat) : F) ≠ 0 := by exact_mod_cast (Nat.pos_iff_ne_zero.mp hh)
  refine ⟨rfl, rfl, rfl, ?_, rfl, hne, div_mul_cancel₀ _ hne, fun w' => ⟨rfl, rfl⟩⟩
  rcases render_calls L (resizeCallback s w h).1 with ⟨post, _, hc⟩
  have hflag : (resizeCallback s w h).1.updateResolution = true := rfl
  rw [if_pos hflag] at hc
  exact ⟨post, hc⟩

/-- C24 (amended) at a concrete input: a resize notification to 800 x 600. -/
theorem C24_resize_denominator_witness :
    0 < 600
      ∧ (((resizeCallback (sampleScene ℚ false false) 800 600).1.screenHeight : Nat) : ℚ) ≠ 0 :=
  ⟨by decide,
    (C24_resize_denominator sampleLib (sampleScene ℚ false false) 800 600
      (by decide)).2.2.2.2.2.1⟩

end Claims

end Engine
